import Mathlib

/-!
# SunderAndForged: attack resource accounting

A shallow embedding of `src/SF/Combat/LightAttackStaminaCost.cpp`, the per-actor
session tracker that charges each melee swing its stamina cost.

Conventions of the embedding:

* `float` values are exact rationals (`ℚ`); rounding is not modelled.  The literals
  `1e-6f` and `1e-4f` are the rationals `1/10^6`, `1/10^4`.
* The one `float` an external party writes freely, the probe of the extensibility hook, is
  an `F32`: a finite value, an infinity or NaN.  The multiplier computed from it is a
  `BoundedF32`: a finite value or NaN.  `std::max(0.0f, x)` brings it back to a rational.
* `std::uint32_t` timestamps are naturals; a subtraction or addition that can wrap
  is written with an explicit `% 2 ^ 32` (`sub32`, `add32`).
* A pointer is an `Option` (`none` is `nullptr`).  A function that writes through
  a pointer or a reference returns the new pointee next to its result.
* `std::size_t` indices into a `std::array<_, 2>` are `Fin 2`.
* The log lines of `ProcessEvent` are kept as the `Outcome` of an event: one
  constructor per branch, carrying the quantities that branch logs.
-/

namespace SF.Combat

/-! ## Floats written by the host -/

/-- A `float` as the extensibility hook may leave it: a finite value (an exact rational), an
infinity or NaN. -/
inductive F32 where
  | finite (q : ℚ)
  | posInf
  | negInf
  | nan
  deriving DecidableEq, Repr

/-- A `float` that is not infinite: a finite value (an exact rational) or NaN. -/
inductive BoundedF32 where
  | val (q : ℚ)
  | nan
  deriving DecidableEq, Repr

/-! ## Host types (CommonLibSSE), as far as the module reads them -/

/-- Modelled from the spec: the host enumeration `RE::WEAPON_TYPE` (its declaration is in
the host library, not in the repository); the melee kinds the source names, then the
ranged kinds. -/
inductive WEAPON_TYPE where
  | kHandToHandMelee
  | kOneHandSword
  | kOneHandDagger
  | kOneHandAxe
  | kOneHandMace
  | kTwoHandSword
  | kTwoHandAxe
  | kBow
  | kStaff
  | kCrossbow
  deriving DecidableEq, Repr

/-- Modelled from the spec: the host record `RE::TESObjectWEAP` (an "implement"), reduced to
what the module reads: `GetWeaponType()`, `GetWeight()`, `GetFormID()`. -/
structure TESObjectWEAP where
  weaponType : WEAPON_TYPE
  weight : ℚ
  formID : Nat
  deriving DecidableEq, Repr

/-- Modelled from the spec: a host form returned by `GetEquippedObject`; it is a weapon or
something else (spell, shield, torch), for which `As<RE::TESObjectWEAP>()` is null. -/
inductive TESForm where
  | weap (w : TESObjectWEAP)
  | other (formID : Nat)
  deriving DecidableEq, Repr

/-- The cast `obj->As<RE::TESObjectWEAP>()`. -/
def TESForm.asWEAP : TESForm → Option TESObjectWEAP
  | .weap w => some w
  | .other _ => none

/-- Modelled from the spec: the two attack flags of `RE::AttackData` the module tests. -/
structure AttackData where
  kPowerAttack : Bool
  kBashAttack : Bool
  deriving DecidableEq, Repr

/-- Modelled from the spec: `highProcess->attackData` of the host. -/
structure HighProcessData where
  attackData : Option AttackData
  deriving DecidableEq, Repr

/-- Modelled from the spec: `currentProcess->high` of the host. -/
structure AIProcess where
  high : Option HighProcessData
  deriving DecidableEq, Repr

/-- Modelled from the spec: the two actor values the module reads and adjusts. -/
inductive ActorValue where
  | kStamina
  | kAttackDamageMult
  deriving DecidableEq, Repr

/-- Modelled from the spec: the modifier layer named in a `RestoreActorValue` call. -/
inductive ACTOR_VALUE_MODIFIER where
  | kPermanent
  | kTemporary
  | kDamage
  deriving DecidableEq, Repr

/-- Modelled from the spec: the resource accessor `RE::ActorValueOwner`, holding the current
value of the stamina pool and of the outgoing-damage multiplier. -/
structure ActorValueOwner where
  stamina : ℚ
  attackDamageMult : ℚ
  deriving DecidableEq, Repr

/-- Modelled from the spec: `getResource` of the accessor, the current value of an actor value. -/
def ActorValueOwner.GetActorValue (o : ActorValueOwner) : ActorValue → ℚ
  | .kStamina => o.stamina
  | .kAttackDamageMult => o.attackDamageMult

/-- Modelled from the spec: `adjustResourceByDelta` / `adjustOutgoingDamageMultiplier` of the
accessor: the current value moves by `delta`, base and maximum are not touched. -/
def ActorValueOwner.RestoreActorValue (o : ActorValueOwner) (_m : ACTOR_VALUE_MODIFIER)
    (av : ActorValue) (delta : ℚ) : ActorValueOwner :=
  match av with
  | .kStamina => { o with stamina := o.stamina + delta }
  | .kAttackDamageMult => { o with attackDamageMult := o.attackDamageMult + delta }

/-- Modelled from the spec: the host actor `RE::Actor`, reduced to what the module queries:
identity, whether it is the player, its value owner, the equipped object of each hand and
its attack process. -/
structure Actor where
  formID : Nat
  isPlayerRef : Bool
  avo : Option ActorValueOwner
  equippedLeft : Option TESForm
  equippedRight : Option TESForm
  currentProcess : Option AIProcess
  deriving DecidableEq, Repr

/-- The query `actor->GetEquippedObject(leftHand)`. -/
def Actor.GetEquippedObject (a : Actor) (leftHand : Bool) : Option TESForm :=
  if leftHand then a.equippedLeft else a.equippedRight

/-- The handle `actor->GetHandle()`, identified with the form id. -/
def Actor.GetHandle (a : Actor) : Nat := a.formID

/-- Modelled from the spec: a reference that holds an animation graph; `As<RE::Actor>()` is
null when it is not an actor. -/
inductive TESObjectREFR where
  | actor (a : Actor)
  | nonActor (formID : Nat)
  deriving DecidableEq, Repr

/-- The cast `holder->As<RE::Actor>()`. -/
def TESObjectREFR.asActor : TESObjectREFR → Option Actor
  | .actor a => some a
  | .nonActor _ => none

/-- Modelled from the spec: the event `RE::BSAnimationGraphEvent` of the host feed. -/
structure BSAnimationGraphEvent where
  tag : String
  holder : Option TESObjectREFR
  deriving DecidableEq, Repr

/-- Modelled from the spec: the services of the host the module calls and whose code is not in
the repository: the lookup of the "Unarmed" weapon form, the extensibility hook
`BGSEntryPoint::HandleEntryPoint(kModPowerAttackStamina, actor, weap, &probe)` as the map
from the probe it receives to the probe it leaves, whether `SKSE::GetTaskInterface()` is
available, and the equality of interned `BSFixedString`s. -/
structure Host where
  unarmedWeapForm : Option TESObjectWEAP
  HandleEntryPoint : Actor → Option TESObjectWEAP → F32 → F32
  taskInterface : Bool
  fixedStringEq : String → String → Bool

/-! ## Tweakables -/

def kBaseUnarmed : ℚ := 6
def kBaseWeapon : ℚ := 6
def kWeaponWeightMult : ℚ := 1
def kPowerAttackMult : ℚ := 2
def kDamagePenaltyWindowMs : Nat := 200
def kUnarmedPairWindowMs : Nat := 80
def kExplicitHandWindowMs : Nat := 250
def kHandSessionTimeoutMs : Nat := 800
def kForceZeroTicks : Int := 0
def kDebugLogAllPlayerAnimTags : Bool := true
def kAllTagsDebounceMs : Nat := 5

/-- The literal `1e-6f`. -/
def eps6 : ℚ := 1 / 1000000

/-- The literal `1e-4f`. -/
def eps4 : ℚ := 1 / 10000

/-! ## Machine arithmetic -/

/-- Subtraction of two `std::uint32_t`, wrapping. -/
def sub32 (a b : Nat) : Nat := (a % 2 ^ 32 + 2 ^ 32 - b % 2 ^ 32) % 2 ^ 32

/-- Addition of two `std::uint32_t`, wrapping. -/
def add32 (a b : Nat) : Nat := (a + b) % 2 ^ 32

/-- The clock read `NowMs()`: the steady clock in milliseconds, cast to 32 bits. -/
def NowMs (clockMs : Nat) : Nat := clockMs % 2 ^ 32

/-- The library function `std::clamp(v, lo, hi)`. -/
def clamp (v lo hi : ℚ) : ℚ := if v < lo then lo else if hi < v then hi else v

/-- The test `x <= 0.0f`; a comparison with NaN is false. -/
def F32.leZero : F32 → Bool
  | .finite q => decide (q ≤ 0)
  | .posInf => false
  | .negInf => true
  | .nan => false

/-- The quotient `x / 100.0f`. -/
def F32.div100 : F32 → F32
  | .finite q => .finite (q / 100)
  | .posInf => .posInf
  | .negInf => .negInf
  | .nan => .nan

/-- The library function `std::clamp(v, lo, hi)` with finite bounds,
`(v < lo) ? lo : (hi < v) ? hi : v`: an infinity is moved to the bound it passes, and NaN,
for which both comparisons are false, is returned as it is. -/
def F32.stdClamp (v : F32) (lo hi : ℚ) : BoundedF32 :=
  match v with
  | .finite q => .val (clamp q lo hi)
  | .posInf => .val hi
  | .negInf => .val lo
  | .nan => .nan

/-- The product `b * x` of a finite `float` and `x`; a NaN factor gives NaN. -/
def BoundedF32.mulLeft (b : ℚ) : BoundedF32 → BoundedF32
  | .val q => .val (b * q)
  | .nan => .nan

/-- The product `x * k` of `x` and a finite `float`; a NaN factor gives NaN. -/
def BoundedF32.mulRight (x : BoundedF32) (k : ℚ) : BoundedF32 :=
  match x with
  | .val q => .val (q * k)
  | .nan => .nan

/-- The library function `std::max(0.0f, x)`, `(0.0f < x) ? x : 0.0f`: for NaN the comparison
is false and the first argument, 0, is returned. -/
def BoundedF32.max0 : BoundedF32 → ℚ
  | .val q => max 0 q
  | .nan => 0

/-- The test `hay.find(needle) != npos` of `std::string_view`. -/
def svContains (hay needle : String) : Bool :=
  hay.data.tails.any (fun t => needle.data.isPrefixOf t)

/-! ## Weapon predicates -/

def IsMeleeWeapon (weap : Option TESObjectWEAP) : Bool :=
  match weap with
  | none => false
  | some w =>
    match w.weaponType with
    | .kHandToHandMelee => true
    | .kOneHandSword => true
    | .kOneHandDagger => true
    | .kOneHandAxe => true
    | .kOneHandMace => true
    | .kTwoHandSword => true
    | .kTwoHandAxe => true
    | _ => false

def IsTwoHanded (weap : Option TESObjectWEAP) : Bool :=
  match weap with
  | none => false
  | some w => w.weaponType == .kTwoHandSword || w.weaponType == .kTwoHandAxe

def IsUnarmed (weap : Option TESObjectWEAP) : Bool :=
  match weap with
  | none => true
  | some w => w.weaponType == .kHandToHandMelee

def GetWeaponWeight (weap : Option TESObjectWEAP) : ℚ :=
  match weap with
  | some w => max 0 w.weight
  | none => 0

def GetUnarmedWeapForm (host : Host) : Option TESObjectWEAP := host.unarmedWeapForm

/-- Converts the "Mod Power Attack Stamina" entry point into a multiplier. -/
def GetStaminaCostMult (host : Host) (actor : Option Actor)
    (weapOrNull : Option TESObjectWEAP) : BoundedF32 :=
  match actor with
  | none => .val 1
  | some a =>
    let weap := if weapOrNull.isSome then weapOrNull else GetUnarmedWeapForm host
    let probe := host.HandleEntryPoint a weap (.finite 100)
    if probe.leZero then .val 1
    else
      let mult := probe.div100
      mult.stdClamp (5 / 100) 10

def IsPowerAttacking (a_actor : Option Actor) : Bool :=
  match a_actor with
  | none => false
  | some a =>
    match a.currentProcess with
    | none => false
    | some currentProcess =>
      match currentProcess.high with
      | none => false
      | some highProcess =>
        match highProcess.attackData with
        | none => false
        | some attackData => attackData.kPowerAttack && !attackData.kBashAttack

def GetStamina (actor : Option Actor) : ℚ :=
  match actor.bind (fun a => a.avo) with
  | none => 0
  | some avo => max 0 (avo.GetActorValue .kStamina)

/-- Adjusts the current stamina through the damage layer; returns the actor after the call. -/
def AdjustStaminaDamageLayer (actor : Option Actor) (delta : ℚ) : Option Actor :=
  match actor with
  | none => none
  | some a =>
    if abs delta ≤ eps6 then some a
    else
      match a.avo with
      | none => some a
      | some avo => some { a with avo := some (avo.RestoreActorValue .kDamage .kStamina delta) }

def DrainStaminaDamageLayer (actor : Option Actor) (amount : ℚ) : Option Actor :=
  match actor with
  | none => none
  | some a => if amount ≤ 0 then some a else AdjustStaminaDamageLayer (some a) (-amount)

def DrainToZeroNow (actor : Option Actor) : Option Actor :=
  match actor with
  | none => none
  | some a =>
    let cur := GetStamina (some a)
    if cur ≤ 0 then some a else DrainStaminaDamageLayer (some a) (cur + 1)

/-- The closure `[h, ticksLeft]` handed to `AddTask` by `ForceZeroTicks`. -/
structure ForceZeroTask where
  h : Nat
  ticksLeft : Int
  deriving DecidableEq, Repr

/-- The call `ForceZeroTicks(h, ticksLeft)`: the tasks it hands to the task interface. -/
def ForceZeroTicks (host : Host) (h : Nat) (ticksLeft : Int) : List ForceZeroTask :=
  if ticksLeft ≤ 0 then []
  else if !host.taskInterface then []
  else [{ h := h, ticksLeft := ticksLeft }]

/-- The body of the task `ForceZeroTicks` hands to the task interface, run at a later tick;
`actor` is what the captured handle resolves to at that tick.  Returns the actor after the
tick and the tasks the tick hands to the task interface. -/
def ForceZeroTask.run (host : Host) (task : ForceZeroTask) (actor : Option Actor) :
    Option Actor × List ForceZeroTask :=
  match actor with
  | none => (none, [])
  | some a =>
    let a1 := if GetStamina (some a) > 0 then DrainToZeroNow (some a) else some a
    (a1, ForceZeroTicks host task.h (task.ticksLeft - 1))

/-! ## Tags -/

def IsWeaponHandSwingTag (t : String) : Bool :=
  t == "weaponLeftSwing" || t == "weaponRightSwing" ||
  t == "WeaponLeftSwing" || t == "WeaponRightSwing"

def IsWeaponSwingAmbiguous (t : String) : Bool :=
  t == "weaponSwing" || t == "WeaponSwing"

def IsUnarmedSwingSoundTag (t : String) : Bool :=
  t == "SoundPlay.WPNSwingUnarmed"

def IsAttackStartTag (t : String) : Bool :=
  t == "attackStart" || t == "attackStartLeft" || t == "attackStartRight" ||
  t == "AttackStart" || t == "AttackStartLeft" || t == "AttackStartRight"

def IsSpendTag (t : String) : Bool :=
  IsWeaponHandSwingTag t || IsWeaponSwingAmbiguous t

def TagHasLeft (tagView : String) : Bool :=
  svContains tagView "Left" || svContains tagView "left"

def TagHasRight (tagView : String) : Bool :=
  svContains tagView "Right" || svContains tagView "right"

/-! ## Per-actor state -/

/-- A `std::array<T, 2>`: slot 0 is "left", slot 1 is "right". -/
structure Array2 (α : Type) where
  e0 : α
  e1 : α
  deriving DecidableEq, Repr

/-- The read `arr[i]`. -/
def Array2.get {α : Type} (arr : Array2 α) (i : Fin 2) : α :=
  if i = 0 then arr.e0 else arr.e1

/-- The write `arr[i] = v`. -/
def Array2.set {α : Type} (arr : Array2 α) (i : Fin 2) (v : α) : Array2 α :=
  if i = 0 then { arr with e0 := v } else { arr with e1 := v }

/-- The record `ActorState::HandSession`. -/
structure HandSession where
  active : Bool := false
  spent : Bool := false
  startMs : Nat := 0
  startStamina : ℚ := 0
  startWeapFormID : Nat := 0
  startWasTwoHanded : Bool := false
  deriving DecidableEq, Repr

/-- The record `ActorState`, with the default member initialisers of the source. -/
structure ActorState where
  lastExplicitHandMs : Array2 Nat := ⟨0, 0⟩
  session : Array2 HandSession := ⟨{}, {}⟩
  dmgScaleApplied : Bool := false
  dmgScaleUntilMs : Nat := 0
  dmgScaleDelta : ℚ := 0
  lastAllTagLogMs : Nat := 0
  lastAllTag : String := ""
  lastUnarmedSoundMs : Nat := 0
  lastUnarmedHandIsLeft : Bool := false
  lastUnarmedHandValid : Bool := false
  deriving DecidableEq, Repr

/-! ## Damage-scale penalty -/

def ClearDamageScale (a : Option Actor) (st : ActorState) : Option Actor × ActorState :=
  if !st.dmgScaleApplied then (a, st)
  else
    let a1 : Option Actor :=
      match a with
      | none => none
      | some act =>
        match act.avo with
        | none => some act
        | some avo =>
          if abs st.dmgScaleDelta > eps6 then
            some { act with
              avo := some (avo.RestoreActorValue .kTemporary .kAttackDamageMult (-st.dmgScaleDelta)) }
          else some act
    (a1, { st with dmgScaleApplied := false, dmgScaleUntilMs := 0, dmgScaleDelta := 0 })

def ClearDamageScaleIfExpired (a : Option Actor) (st : ActorState) (nowMs : Nat) :
    Option Actor × ActorState :=
  if st.dmgScaleApplied && decide (nowMs > st.dmgScaleUntilMs) then ClearDamageScale a st
  else (a, st)

def ApplyDamageScale (a : Option Actor) (st : ActorState) (scale01 : ℚ) (untilMs : Nat) :
    Option Actor × ActorState :=
  match a with
  | none => (none, st)
  | some act =>
    match act.avo with
    | none => (some act, st)
    | some _ =>
      let scale01 := clamp scale01 0 1
      let c := if st.dmgScaleApplied then ClearDamageScale (some act) st else (some act, st)
      let st := c.2
      let act := c.1.getD act
      match act.avo with
      | none => (some act, st)
      | some avo =>
        let cur := avo.GetActorValue .kAttackDamageMult
        let target := cur * scale01
        let delta := target - cur
        if abs delta > eps6 then
          (some { act with
             avo := some (avo.RestoreActorValue .kTemporary .kAttackDamageMult delta) },
           { st with dmgScaleApplied := true, dmgScaleUntilMs := untilMs, dmgScaleDelta := delta })
        else (some act, st)

/-! ## Logging guard and explicit-hand recency -/

def LogAllPlayerTagsIfEnabled (host : Host) (actor : Option Actor) (tagView : String)
    (st : ActorState) (nowMs : Nat) : ActorState :=
  if !kDebugLogAllPlayerAnimTags then st
  else
    match actor with
    | none => st
    | some a =>
      if !a.isPlayerRef then st
      else if host.fixedStringEq st.lastAllTag tagView &&
          decide (sub32 nowMs st.lastAllTagLogMs ≤ kAllTagsDebounceMs) then st
      else { st with lastAllTagLogMs := nowMs, lastAllTag := tagView }

def NoteExplicitHandIfAny (tagView : String) (st : ActorState) (nowMs : Nat) : ActorState :=
  if TagHasLeft tagView || tagView == "weaponLeftSwing" || tagView == "WeaponLeftSwing" then
    { st with lastExplicitHandMs := st.lastExplicitHandMs.set 0 nowMs }
  else if TagHasRight tagView || tagView == "weaponRightSwing" || tagView == "WeaponRightSwing" then
    { st with lastExplicitHandMs := st.lastExplicitHandMs.set 1 nowMs }
  else st

/-! ## Session manager -/

/-- For two-handed weapons both hands share one session index. -/
def MapHandToSessionIndex (weap : Option TESObjectWEAP) (resolvedHandIdx : Fin 2) : Fin 2 :=
  if weap.isSome && IsTwoHanded weap then 1 else resolvedHandIdx

/-- The form id stored by a session: `startWeap ? startWeap->GetFormID() : 0u`. -/
def weapFormIDOrZero (weap : Option TESObjectWEAP) : Nat :=
  match weap with
  | some w => w.formID
  | none => 0

/-- The flag stored by a session: `startWeap ? IsTwoHanded(startWeap) : false`. -/
def weapTwoHandedOrFalse (weap : Option TESObjectWEAP) : Bool :=
  match weap with
  | some w => IsTwoHanded (some w)
  | none => false

def BeginOrRefreshSession (st : ActorState) (sessionIdx : Fin 2) (nowMs : Nat) (startStamina : ℚ)
    (startWeap : Option TESObjectWEAP) : ActorState :=
  let s := st.session.get sessionIdx
  if s.active && !s.spent && decide (sub32 nowMs s.startMs ≤ kHandSessionTimeoutMs) then st
  else
    { st with session := st.session.set sessionIdx
                          { active := true
                            spent := false
                            startMs := nowMs
                            startStamina := max 0 startStamina
                            startWeapFormID := weapFormIDOrZero startWeap
                            startWasTwoHanded := weapTwoHandedOrFalse startWeap } }

def CanSpendInSession (st : ActorState) (sessionIdx : Fin 2) (nowMs : Nat) (curStamina : ℚ)
    (curWeap : Option TESObjectWEAP) : Bool × ActorState :=
  let s := st.session.get sessionIdx
  if !s.active then
    (true, { st with session := st.session.set sessionIdx
                          { active := true
                            spent := false
                            startMs := nowMs
                            startStamina := max 0 curStamina
                            startWeapFormID := weapFormIDOrZero curWeap
                            startWasTwoHanded := weapTwoHandedOrFalse curWeap } })
  else if sub32 nowMs s.startMs > kHandSessionTimeoutMs then
    (true, { st with session := st.session.set sessionIdx
                          { active := true
                            spent := false
                            startMs := nowMs
                            startStamina := max 0 curStamina
                            startWeapFormID := weapFormIDOrZero curWeap
                            startWasTwoHanded := weapTwoHandedOrFalse curWeap } })
  else (!s.spent, st)

def MarkSessionSpent (st : ActorState) (sessionIdx : Fin 2) : ActorState :=
  let s := st.session.get sessionIdx
  { st with session := st.session.set sessionIdx { s with spent := true, active := false } }

def GetSessionStartStamina (st : ActorState) (sessionIdx : Fin 2) : ℚ :=
  max 0 (st.session.get sessionIdx).startStamina

/-! ## Hand resolver -/

/-- The result of `ResolveHandForTag`: the returned flag, the two out-parameters and the
state after the call. -/
structure Resolved where
  isLeft : Bool
  outAmbiguous : Bool
  outTreatAsUnarmed : Bool
  st : ActorState
  deriving DecidableEq, Repr

def ResolveHandForTag (actor : Option Actor) (tagView : String) (st : ActorState) (nowMs : Nat) :
    Resolved :=
  if TagHasLeft tagView then ⟨true, false, false, st⟩
  else if TagHasRight tagView then ⟨false, false, false, st⟩
  else if tagView == "weaponLeftSwing" || tagView == "WeaponLeftSwing" then ⟨true, false, false, st⟩
  else if tagView == "weaponRightSwing" || tagView == "WeaponRightSwing" then
    ⟨false, false, false, st⟩
  else if IsUnarmedSwingSoundTag tagView then
    let st := { st with lastUnarmedSoundMs := nowMs }
    match actor with
    | none => ⟨false, true, true, { st with lastUnarmedHandValid := false }⟩
    | some a =>
      let weapL := (a.GetEquippedObject true).bind TESForm.asWEAP
      let weapR := (a.GetEquippedObject false).bind TESForm.asWEAP
      let leftHasWeapon := weapL.isSome && IsMeleeWeapon weapL && !IsUnarmed weapL
      let rightHasWeapon := weapR.isSome && IsMeleeWeapon weapR && !IsUnarmed weapR
      if leftHasWeapon && !rightHasWeapon then
        ⟨false, true, true, { st with lastUnarmedHandIsLeft := false, lastUnarmedHandValid := true }⟩
      else if rightHasWeapon && !leftHasWeapon then
        ⟨true, true, true, { st with lastUnarmedHandIsLeft := true, lastUnarmedHandValid := true }⟩
      else
        let dtL := sub32 nowMs (st.lastExplicitHandMs.get 0)
        let dtR := sub32 nowMs (st.lastExplicitHandMs.get 1)
        if dtL ≤ kExplicitHandWindowMs ∨ dtR ≤ kExplicitHandWindowMs then
          let useLeft : Bool := decide (dtL ≤ dtR)
          ⟨useLeft, true, true,
            { st with lastUnarmedHandIsLeft := useLeft, lastUnarmedHandValid := true }⟩
        else
          ⟨false, true, true,
            { st with lastUnarmedHandIsLeft := false, lastUnarmedHandValid := true }⟩
  else if IsWeaponSwingAmbiguous tagView then
    if st.lastUnarmedHandValid &&
        decide (sub32 nowMs st.lastUnarmedSoundMs ≤ kUnarmedPairWindowMs) then
      ⟨st.lastUnarmedHandIsLeft, true, true, st⟩
    else
      let dtL := sub32 nowMs (st.lastExplicitHandMs.get 0)
      let dtR := sub32 nowMs (st.lastExplicitHandMs.get 1)
      if dtL ≤ kExplicitHandWindowMs ∨ dtR ≤ kExplicitHandWindowMs then
        ⟨decide (dtL ≤ dtR), true, false, st⟩
      else ⟨false, true, false, st⟩
  else ⟨false, true, false, st⟩

/-! ## Event dispatcher -/

/-- The quantities of the `[Spend]` log line of `ProcessEvent`. -/
structure SpendLog where
  isPower : Bool
  leftHand : Bool
  sessionIdx : Fin 2
  baseCost : ℚ
  entryMult : BoundedF32
  finalCost : ℚ
  startStam : ℚ
  staminaNow : ℚ
  desired : ℚ
  paid : ℚ
  ratio : ℚ
  insufficient : Bool
  staminaAfter : ℚ
  deriving DecidableEq, Repr

/-- The branch `ProcessEvent` took, one constructor per `return` of the source; the branches
that log carry what they log. -/
inductive Outcome where
  | ignored
  | pairingOnly
  | notStartNorSpend
  | start (leftHand : Bool) (sessionIdx : Fin 2) (snapStam : ℚ)
  | skipDuplicate (leftHand : Bool) (sessionIdx : Fin 2)
  | skipNotMelee (leftHand : Bool)
  | skipBaseCost (leftHand : Bool)
  | skipFinalCost (leftHand : Bool)
  | spend (log : SpendLog)
  deriving DecidableEq, Repr

/-- What one event leaves for one actor: its state record, the actor, the tasks handed to the
task interface and the branch taken. -/
structure ActorResult where
  st : ActorState
  actor : Actor
  tasks : List ForceZeroTask
  outcome : Outcome
  deriving DecidableEq, Repr

/-- Lines 746-749 of `ProcessEvent`: the base cost of a swing with `weap`. -/
def ProcessEvent.baseCost (weap : Option TESObjectWEAP) : ℚ :=
  let unarmed := IsUnarmed weap
  let baseCost := if unarmed then kBaseUnarmed
    else kBaseWeapon + GetWeaponWeight weap * kWeaponWeightMult
  max 0 baseCost

/-- Lines 765-774 of `ProcessEvent`: the final cost from the base cost. -/
def ProcessEvent.finalCost (host : Host) (actor : Actor) (weap : Option TESObjectWEAP)
    (baseCost : ℚ) : ℚ :=
  let isPower := IsPowerAttacking (some actor)
  let entryMult := GetStaminaCostMult host (some actor) weap
  let finalCost := BoundedF32.mulLeft baseCost entryMult
  let finalCost := if isPower then finalCost.mulRight kPowerAttackMult else finalCost
  finalCost.max0

/-- Lines 796-860 of `ProcessEvent`: the reconciliation against the start snapshot, the
mark of the session, the follow-up enforcement and the damage-scale penalty. -/
def ProcessEvent.reconcile (host : Host) (actor : Actor) (st : ActorState) (nowMs : Nat)
    (leftHand : Bool) (sessionIdx : Fin 2) (weap : Option TESObjectWEAP)
    (baseCost finalCost : ℚ) : ActorResult :=
  let staminaNow := GetStamina (some actor)
  let startStam := GetSessionStartStamina st sessionIdx
  let paid := min startStam finalCost
  let ratio := if finalCost > eps6 then clamp (paid / finalCost) 0 1 else 0
  let desired := max 0 (startStam - finalCost)
  let actor1 := (AdjustStaminaDamageLayer (some actor) (desired - staminaNow)).getD actor
  let staminaAfter := GetStamina (some actor1)
  let st1 := MarkSessionSpent st sessionIdx
  let insufficient : Bool := decide (startStam + eps4 < finalCost)
  let tasks := if insufficient then ForceZeroTicks host actor1.GetHandle kForceZeroTicks else []
  let log : SpendLog :=
    { isPower := IsPowerAttacking (some actor)
      leftHand := leftHand
      sessionIdx := sessionIdx
      baseCost := baseCost
      entryMult := GetStaminaCostMult host (some actor) weap
      finalCost := finalCost
      startStam := startStam
      staminaNow := staminaNow
      desired := desired
      paid := paid
      ratio := ratio
      insufficient := insufficient
      staminaAfter := staminaAfter }
  let p := if ratio + eps6 < 1 then
      ApplyDamageScale (some actor1) st1 ratio (add32 nowMs kDamagePenaltyWindowMs)
    else (some actor1, st1)
  { st := p.2, actor := p.1.getD actor1, tasks := tasks, outcome := .spend log }

/-- Lines 704-860 of `ProcessEvent`: the spend branch, from the duplicate gate on. -/
def ProcessEvent.spend (host : Host) (actor : Actor) (st : ActorState) (nowMs : Nat)
    (leftHand treatAsUnarmed : Bool) (sessionIdx : Fin 2)
    (curWeapForSession : Option TESObjectWEAP) : ActorResult :=
  let curStam := GetStamina (some actor)
  let g := CanSpendInSession st sessionIdx nowMs curStam curWeapForSession
  if !g.1 then
    { st := g.2, actor := actor, tasks := [], outcome := .skipDuplicate leftHand sessionIdx }
  else
    let d := ClearDamageScale (some actor) g.2
    let actor := d.1.getD actor
    let st := d.2
    let weap2 := (actor.GetEquippedObject leftHand).bind TESForm.asWEAP
    let weap := if treatAsUnarmed then none else weap2
    if weap.isSome && !IsMeleeWeapon weap then
      { st := MarkSessionSpent st sessionIdx, actor := actor, tasks := [],
        outcome := .skipNotMelee leftHand }
    else
      let baseCost := ProcessEvent.baseCost weap
      if baseCost ≤ 0 then
        { st := MarkSessionSpent st sessionIdx, actor := actor, tasks := [],
          outcome := .skipBaseCost leftHand }
      else
        let finalCost := ProcessEvent.finalCost host actor weap baseCost
        if finalCost ≤ 0 then
          { st := MarkSessionSpent st sessionIdx, actor := actor, tasks := [],
            outcome := .skipFinalCost leftHand }
        else
          ProcessEvent.reconcile host actor st nowMs leftHand sessionIdx weap baseCost finalCost

/-- Lines 611-860 of `ProcessEvent`: the event of a non-null `actor` with a non-empty tag,
on the state record `_state[id]` of that actor. -/
def ProcessEvent.body (host : Host) (actor : Actor) (tagView : String) (nowMs : Nat)
    (st : ActorState) : ActorResult :=
  let st := LogAllPlayerTagsIfEnabled host (some actor) tagView st nowMs
  let st := NoteExplicitHandIfAny tagView st nowMs
  let c := ClearDamageScaleIfExpired (some actor) st nowMs
  let actor := c.1.getD actor
  let st := c.2
  if IsUnarmedSwingSoundTag tagView then
    let r := ResolveHandForTag (some actor) tagView st nowMs
    { st := r.st, actor := actor, tasks := [], outcome := .pairingOnly }
  else
    let isStart := IsAttackStartTag tagView
    let isSpend := IsSpendTag tagView
    if !isStart && !isSpend then
      { st := st, actor := actor, tasks := [], outcome := .notStartNorSpend }
    else
      let r := ResolveHandForTag (some actor) tagView st nowMs
      let st := r.st
      let leftHand := r.isLeft
      let treatAsUnarmed := r.outTreatAsUnarmed
      let resolvedHandIdx : Fin 2 := if leftHand then 0 else 1
      let weap0 := (actor.GetEquippedObject leftHand).bind TESForm.asWEAP
      let weap1 := if treatAsUnarmed then none else weap0
      let curWeapForSession := if weap1.isSome && !IsMeleeWeapon weap1 then none else weap1
      let sessionIdx := MapHandToSessionIndex curWeapForSession resolvedHandIdx
      if isStart then
        let snapStam := GetStamina (some actor)
        let st := BeginOrRefreshSession st sessionIdx nowMs snapStam curWeapForSession
        { st := st, actor := actor, tasks := [], outcome := .start leftHand sessionIdx snapStam }
      else
        ProcessEvent.spend host actor st nowMs leftHand treatAsUnarmed sessionIdx
          curWeapForSession

/-- The member `_state` of the sink: `std::unordered_map<std::uint32_t, ActorState>`. -/
abbrev StateMap := Nat → Option ActorState

/-- The reference `_state[id]`: the entry of `id`, default-constructed when absent. -/
def StateMap.lookup (m : StateMap) (id : Nat) : ActorState := (m id).getD {}

/-- The write through the reference `_state[id]`. -/
def StateMap.insert (m : StateMap) (id : Nat) (st : ActorState) : StateMap :=
  fun k => if k = id then some st else m k

/-- What `ProcessEvent` leaves: the map of the sink, the holder actor (when there is one), the
tasks handed to the task interface and the branch taken. -/
structure EventResult where
  state : StateMap
  actor : Option Actor
  tasks : List ForceZeroTask
  outcome : Outcome

/-- The handler `AnimEventSink::ProcessEvent`; `clockMs` is the steady clock read by
`NowMs()`. -/
def ProcessEvent (host : Host) (state : StateMap) (a_event : Option BSAnimationGraphEvent)
    (clockMs : Nat) : EventResult :=
  match a_event with
  | none => { state := state, actor := none, tasks := [], outcome := .ignored }
  | some ev =>
    if ev.tag.isEmpty then
      { state := state, actor := ev.holder.bind TESObjectREFR.asActor, tasks := [],
        outcome := .ignored }
    else
      match ev.holder.bind TESObjectREFR.asActor with
      | none => { state := state, actor := none, tasks := [], outcome := .ignored }
      | some actor =>
        let nowMs := NowMs clockMs
        let id := actor.formID
        let r := ProcessEvent.body host actor ev.tag nowMs (state.lookup id)
        { state := state.insert id r.st, actor := some r.actor, tasks := r.tasks,
          outcome := r.outcome }

/-! ## Blocked-hit transfer (`ShieldOfStaminaLite.cpp`) -/

/-- Modelled from the spec: the hit record `RE::HitData` of the host, reduced to what the hook
reads and writes: the flag word, the aggressor behind its handle and the total damage. -/
structure HitData where
  flags : Nat
  aggressor : Option Actor
  totalDamage : ℚ
  deriving DecidableEq, Repr

/-- Modelled from the spec: the bit `RE::HitData::Flag::kBlocked` of the host library. -/
def HITFLAG.kBlocked : Nat := 1

/-- Modelled from the spec: the bit `RE::HitData::Flag::kBlockWithWeapon` of the host library. -/
def HITFLAG.kBlockWithWeapon : Nat := 2

/-- The read `target->GetActorValue(av)` on the actor itself (an `RE::Actor` is its own value
owner); an actor modelled without accessor reads 0. -/
def Actor.GetActorValue (a : Actor) (av : ActorValue) : ℚ :=
  match a.avo with
  | some avo => avo.GetActorValue av
  | none => 0

/-- Damages the current value of an actor value; returns the actor after the call. -/
def DamageAV (a : Option Actor) (av : ActorValue) (val : ℚ) : Option Actor :=
  match a with
  | none => none
  | some act =>
    if val ≤ 0 then some act
    else
      match act.avo with
      | some avo => some { act with avo := some (avo.RestoreActorValue .kDamage av (-val)) }
      | none => some act

def IsBlockedHit (hitData : HitData) : Bool :=
  Nat.land (hitData.flags % 2 ^ 32) HITFLAG.kBlocked != 0

def IsWeaponBlock (hitData : HitData) : Bool :=
  Nat.land (hitData.flags % 2 ^ 32) HITFLAG.kBlockWithWeapon != 0

/-- The hook `HitEventHook::ProcessHit`: the target and the hit record it hands to the
original `_ProcessHit` of the host. -/
def ProcessHit (target : Option Actor) (hitData : HitData) : Option Actor × HitData :=
  match target with
  | none => (none, hitData)
  | some t =>
    if !IsBlockedHit hitData then (some t, hitData)
    else
      match hitData.aggressor with
      | none => (some t, hitData)
      | some _ =>
        let staminaDamageBase := hitData.totalDamage
        if staminaDamageBase ≤ 0 then (some t, hitData)
        else
          let staminaDamageMult : ℚ := 1
          let staminaDamage := staminaDamageBase * staminaDamageMult
          let targetStamina := t.GetActorValue .kStamina
          if targetStamina ≤ 0 then (some t, hitData)
          else if targetStamina < staminaDamage then
            let blockedBaseDamage := targetStamina / staminaDamageMult
            (DamageAV (some t) .kStamina targetStamina,
              { hitData with totalDamage := staminaDamageBase - blockedBaseDamage })
          else
            (DamageAV (some t) .kStamina staminaDamage, { hitData with totalDamage := 0 })

/-! ## Harness: sequences of events, interference of the host, sample inputs -/

/-- Feeds the events `(tag, clock)` of one actor to `ProcessEvent` in order, the host leaving
the actor alone between two events; returns the final map, the final actor and the
branches taken, in order. -/
def runEvents (host : Host) (state : StateMap) (actor : Actor) :
    List (String × Nat) → StateMap × Actor × List Outcome
  | [] => (state, actor, [])
  | (tag, clockMs) :: rest =>
    let r := ProcessEvent host state (some { tag := tag, holder := some (.actor actor) }) clockMs
    let t := runEvents host r.state (r.actor.getD actor) rest
    (t.1, t.2.1, r.outcome :: t.2.2)

/-- Whether an event charged the actor: it reached the reconciliation of the spend branch. -/
def Outcome.isCharge : Outcome → Bool
  | .spend _ => true
  | _ => false

/-- The number of charges among the branches taken by a sequence of events. -/
def chargeCount (outcomes : List Outcome) : Nat := (outcomes.filter Outcome.isCharge).length

/-- The outgoing-damage multiplier the accessor of `a` reports, when `a` has an accessor. -/
def damageMultOf (a : Option Actor) : Option ℚ :=
  (a.bind (fun act => act.avo)).map (fun o => o.GetActorValue .kAttackDamageMult)

/-- A net change `x` that other systems of the host make to the outgoing-damage multiplier
of `a` between two calls of the module. -/
def otherSystemsAdjust (a : Option Actor) (x : ℚ) : Option Actor :=
  a.map (fun act => { act with
    avo := act.avo.map (fun o => o.RestoreActorValue .kTemporary .kAttackDamageMult x) })

/-- A host without perks: the hook leaves the probe as it finds it. -/
def plainHost : Host :=
  { unarmedWeapForm := none
    HandleEntryPoint := fun _ _ probe => probe
    taskInterface := true
    fixedStringEq := fun a b => a == b }

/-- A host whose hook leaves `p` in the probe. -/
def hostWithProbe (p : F32) : Host :=
  { unarmedWeapForm := none
    HandleEntryPoint := fun _ _ _ => p
    taskInterface := true
    fixedStringEq := fun a b => a == b }

/-- An empty-handed actor with `stamina` in its pool and a damage multiplier of 1. -/
def brawler (stamina : ℚ) : Actor :=
  { formID := 20
    isPlayerRef := false
    avo := some { stamina := stamina, attackDamageMult := 1 }
    equippedLeft := none
    equippedRight := none
    currentProcess := none }

/-- A greatsword of weight 16. -/
def greatsword : TESObjectWEAP :=
  { weaponType := .kTwoHandSword, weight := 16, formID := 77 }

/-- An actor holding `greatsword`, reported by the host for either hand. -/
def swordsman (stamina : ℚ) : Actor :=
  { formID := 21
    isPlayerRef := false
    avo := some { stamina := stamina, attackDamageMult := 1 }
    equippedLeft := some (.weap greatsword)
    equippedRight := some (.weap greatsword)
    currentProcess := none }

/-- A one-handed sword of weight 24: its swing costs 6 + 24 = 30. -/
def longsword : TESObjectWEAP :=
  { weaponType := .kOneHandSword, weight := 24, formID := 78 }

/-- An actor holding `longsword` in the right hand. -/
def fencer (stamina : ℚ) : Actor :=
  { formID := 22
    isPlayerRef := false
    avo := some { stamina := stamina, attackDamageMult := 1 }
    equippedLeft := none
    equippedRight := some (.weap longsword)
    currentProcess := none }

/-- The map of a sink that has seen no event. -/
def emptyStateMap : StateMap := fun _ => none

/-- A state whose right session was armed at time 1000 with a snapshot of `snapshot`. -/
def armedRight (snapshot : ℚ) : ActorState :=
  { session := ⟨{}, { active := true, spent := false, startMs := 1000, startStamina := snapshot }⟩ }

/-- A state whose pairing cache and explicit-hand recency both point to the right hand at
time 5000. -/
def rightHinted : ActorState :=
  { lastExplicitHandMs := ⟨0, 5000⟩
    lastUnarmedSoundMs := 5000
    lastUnarmedHandIsLeft := false
    lastUnarmedHandValid := true }

/-- The stamina the accessor of `a` holds, when `a` has an accessor. -/
def staminaOf (a : Option Actor) : Option ℚ :=
  (a.bind (fun act => act.avo)).map (fun o => o.GetActorValue .kStamina)

/-- One step in the life of the damage-scale penalty of an actor: a call of the module, or a
change `x` other systems of the host make to the outgoing-damage multiplier. -/
inductive PenaltyOp where
  | apply (scale01 : ℚ) (untilMs : Nat)
  | clear
  | clearIfExpired (nowMs : Nat)
  | otherSystems (x : ℚ)
  deriving DecidableEq, Repr

/-- The effect of one step on the actor and its state. -/
def PenaltyOp.run (op : PenaltyOp) (a : Option Actor) (st : ActorState) :
    Option Actor × ActorState :=
  match op with
  | .apply scale01 untilMs => ApplyDamageScale a st scale01 untilMs
  | .clear => ClearDamageScale a st
  | .clearIfExpired nowMs => ClearDamageScaleIfExpired a st nowMs
  | .otherSystems x => (otherSystemsAdjust a x, st)

/-- What one step of the module adds to the outgoing-damage multiplier: the multiplier after
the call minus the multiplier before it; a step of other systems is not counted. -/
def PenaltyOp.added (op : PenaltyOp) (a : Option Actor) (st : ActorState) : ℚ :=
  match op with
  | .otherSystems _ => 0
  | _ => (damageMultOf (op.run a st).1).getD 0 - (damageMultOf a).getD 0

/-- Runs a sequence of steps; the third component is the sum of all deltas the module has
added to the multiplier, starting from `added`. -/
def runPenaltyOps (a : Option Actor) (st : ActorState) (added : ℚ) :
    List PenaltyOp → Option Actor × ActorState × ℚ
  | [] => (a, st, added)
  | op :: rest =>
    runPenaltyOps (op.run a st).1 (op.run a st).2 (added + op.added a st) rest

/-- A blocked hit of `damage` points dealt by a brawler. -/
def blockedHit (damage : ℚ) : HitData :=
  { flags := 1, aggressor := some (brawler 50), totalDamage := damage }

/-- The implement the host reports for the queried hand of `actor` is a two-handed weapon. -/
def HoldsTwoHanded (actor : Actor) (leftHand : Bool) : Prop :=
  ∃ w, (actor.GetEquippedObject leftHand).bind TESForm.asWEAP = some w ∧
    IsTwoHanded (some w) = true

/-- Whether the queried hand of `a` holds a melee implement that is not hand-to-hand. -/
def holdsArmedMelee (a : Actor) (leftHand : Bool) : Bool :=
  match (a.GetEquippedObject leftHand).bind TESForm.asWEAP with
  | some w => IsMeleeWeapon (some w) && !(w.weaponType == .kHandToHandMelee)
  | none => false

/-- The invariant of the damage-scale penalty: with no penalty recorded the module has added
nothing on balance; with a penalty recorded, its delta is above the noise threshold, it is
all the module has added on balance, and the actor has an accessor. -/
def PenaltyInv (a : Option Actor) (st : ActorState) (added : ℚ) : Prop :=
  (st.dmgScaleApplied = false → added = 0) ∧
  (st.dmgScaleApplied = true →
    abs st.dmgScaleDelta > eps6 ∧ added = st.dmgScaleDelta ∧
    ∃ act avo, a = some act ∧ act.avo = some avo)

/-- One call of the session manager on the state of an actor. -/
inductive SessionOp where
  | beginOrRefresh (i : Fin 2) (nowMs : Nat) (startStamina : ℚ) (weap : Option TESObjectWEAP)
  | canSpend (i : Fin 2) (nowMs : Nat) (curStamina : ℚ) (weap : Option TESObjectWEAP)
  | markSpent (i : Fin 2)
  deriving DecidableEq, Repr

/-- The state after one call of the session manager. -/
def SessionOp.run (op : SessionOp) (st : ActorState) : ActorState :=
  match op with
  | .beginOrRefresh i nowMs startStamina weap => BeginOrRefreshSession st i nowMs startStamina weap
  | .canSpend i nowMs curStamina weap => (CanSpendInSession st i nowMs curStamina weap).2
  | .markSpent i => MarkSessionSpent st i

/-- The state after a sequence of calls of the session manager. -/
def runSessionOps (st : ActorState) : List SessionOp → ActorState
  | [] => st
  | op :: rest => runSessionOps (op.run st) rest

/-- No session of the state has `active` and `spent` both set. -/
def NoActiveSpent (st : ActorState) : Prop :=
  ∀ i : Fin 2, ¬ ((st.session.get i).active = true ∧ (st.session.get i).spent = true)

/-- A state whose penalty of delta `-3/4` runs until time 1200. -/
def penalised : ActorState :=
  { dmgScaleApplied := true, dmgScaleUntilMs := 1200, dmgScaleDelta := -3 / 4 }

/-- An actor with stamina `stamina` whose damage multiplier is `mult`. -/
def scaledBrawler (stamina mult : ℚ) : Actor :=
  { formID := 20
    isPlayerRef := false
    avo := some { stamina := stamina, attackDamageMult := mult }
    equippedLeft := none
    equippedRight := none
    currentProcess := none }

/-- A bow of weight 12: a weapon that is not a melee type. -/
def bow : TESObjectWEAP :=
  { weaponType := .kBow, weight := 12, formID := 79 }

/-- An actor holding `bow` in the right hand. -/
def archer (stamina : ℚ) : Actor :=
  { formID := 23
    isPlayerRef := false
    avo := some { stamina := stamina, attackDamageMult := 1 }
    equippedLeft := none
    equippedRight := some (.weap bow)
    currentProcess := none }

/-! ## Auxiliary lemmas -/

theorem sub32_of_le (a b : Nat) (hab : b ≤ a) (ha : a < 2 ^ 32) : sub32 a b = a - b := by
  unfold sub32
  have hb : b < 2 ^ 32 := lt_of_le_of_lt hab ha
  rw [Nat.mod_eq_of_lt ha, Nat.mod_eq_of_lt hb]
  omega

theorem Array2.get_set_same {α : Type} (arr : Array2 α) (i : Fin 2) (v : α) :
    (arr.set i v).get i = v := by
  unfold Array2.get Array2.set
  split <;> simp_all

theorem Array2.get_set_other {α : Type} (arr : Array2 α) (i j : Fin 2) (v : α) (h : j ≠ i) :
    (arr.set i v).get j = arr.get j := by
  unfold Array2.get Array2.set
  fin_cases i <;> fin_cases j <;> simp_all

theorem svContains_iff (hay needle : String) :
    svContains hay needle = true ↔ needle.data <:+: hay.data := by
  unfold svContains
  rw [List.any_eq_true, List.infix_iff_prefix_suffix]
  constructor
  · rintro ⟨t, ht, hp⟩
    exact ⟨t, List.isPrefixOf_iff_prefix.mp hp, (List.mem_tails _ _).mp ht⟩
  · rintro ⟨t, hp, ht⟩
    exact ⟨t, (List.mem_tails _ _).mpr ht, List.isPrefixOf_iff_prefix.mpr hp⟩

theorem TagHasLeft_iff (tag : String) :
    TagHasLeft tag = true ↔ ("Left".data <:+: tag.data ∨ "left".data <:+: tag.data) := by
  simp [TagHasLeft, svContains_iff]

theorem TagHasRight_iff (tag : String) :
    TagHasRight tag = true ↔ ("Right".data <:+: tag.data ∨ "right".data <:+: tag.data) := by
  simp [TagHasRight, svContains_iff]

theorem GetSessionStartStamina_nonneg (st : ActorState) (i : Fin 2) :
    0 ≤ GetSessionStartStamina st i := le_max_left _ _

theorem GetStamina_eq_pos (actor : Actor) (v : ℚ) (hv : 0 < v)
    (h : GetStamina (some actor) = v) :
    ∃ avo, actor.avo = some avo ∧ avo.stamina = v := by
  unfold GetStamina at h
  simp only [Option.bind] at h
  cases ha : actor.avo with
  | none => rw [ha] at h; simp at h; exact absurd h (ne_of_lt hv)
  | some avo =>
    rw [ha] at h
    simp only [ActorValueOwner.GetActorValue] at h
    refine ⟨avo, rfl, ?_⟩
    rcases max_cases 0 avo.stamina with ⟨h1, _⟩ | ⟨h1, _⟩
    · rw [h1] at h; exact absurd h (ne_of_lt hv)
    · rw [h1] at h; exact h

/-- The `[Spend]` quantities of the reconciliation, read off its definition. -/
theorem reconcile_outcome (host : Host) (actor : Actor) (st : ActorState) (nowMs : Nat)
    (leftHand : Bool) (idx : Fin 2) (weap : Option TESObjectWEAP) (b c : ℚ) :
    ∃ log, (ProcessEvent.reconcile host actor st nowMs leftHand idx weap b c).outcome
        = .spend log ∧
      log.finalCost = c ∧
      log.startStam = GetSessionStartStamina st idx ∧
      log.staminaNow = GetStamina (some actor) ∧
      log.paid = min (GetSessionStartStamina st idx) c ∧
      log.ratio
        = (if c > eps6 then clamp (min (GetSessionStartStamina st idx) c / c) 0 1 else 0) ∧
      log.desired = max 0 (GetSessionStartStamina st idx - c) ∧
      log.staminaAfter = GetStamina (some ((AdjustStaminaDamageLayer (some actor)
          (max 0 (GetSessionStartStamina st idx - c) - GetStamina (some actor))).getD actor)) ∧
      log.sessionIdx = idx ∧ log.leftHand = leftHand :=
  ⟨_, rfl, rfl, rfl, rfl, rfl, rfl, rfl, rfl, rfl, rfl⟩

/-! ## Session manager: begin or refresh -/

/-- C3 (snapshot stability): when session `i` is active, not spent and not older than 800 ms
(the unsigned difference `nowMs - startMs` of the source is at most 800),
`BeginOrRefreshSession` returns the actor state unchanged, whatever start stamina and weapon
it is given; in particular `startStamina` and `startMs` of session `i` keep their values. -/
theorem BeginOrRefreshSession_keeps_fresh_session (st : ActorState) (i : Fin 2) (nowMs : Nat)
    (startStamina : ℚ) (startWeap : Option TESObjectWEAP)
    (hActive : (st.session.get i).active = true)
    (hSpent : (st.session.get i).spent = false)
    (hFresh : sub32 nowMs (st.session.get i).startMs ≤ 800) :
    BeginOrRefreshSession st i nowMs startStamina startWeap = st ∧
    ((BeginOrRefreshSession st i nowMs startStamina startWeap).session.get i).startStamina
      = (st.session.get i).startStamina ∧
    ((BeginOrRefreshSession st i nowMs startStamina startWeap).session.get i).startMs
      = (st.session.get i).startMs := by
  have h : BeginOrRefreshSession st i nowMs startStamina startWeap = st := by
    simp [BeginOrRefreshSession, hActive, hSpent, kHandSessionTimeoutMs, hFresh]
  simp [h]

/-- Witness of C3: a right session armed at 1000 with snapshot 80 survives a second start at
1500 that carries stamina 55. -/
theorem BeginOrRefreshSession_keeps_fresh_session_witness :
    ((armedRight 80).session.get 1).active = true ∧
    ((armedRight 80).session.get 1).spent = false ∧
    sub32 1500 ((armedRight 80).session.get 1).startMs ≤ 800 ∧
    BeginOrRefreshSession (armedRight 80) 1 1500 55 none = armedRight 80 :=
  ⟨by decide, by decide, by decide,
    (BeginOrRefreshSession_keeps_fresh_session (armedRight 80) 1 1500 55 none
      (by decide) (by decide) (by decide)).1⟩

/-- C10 (re-initialisation): when session `i` is inactive, or spent, or older than 800 ms
(unsigned difference), `BeginOrRefreshSession` leaves it with `active = true`,
`spent = false`, `startMs = nowMs` and `startStamina = max 0 v`. -/
theorem BeginOrRefreshSession_reinitialises (st : ActorState) (i : Fin 2) (nowMs : Nat) (v : ℚ)
    (startWeap : Option TESObjectWEAP)
    (h : (st.session.get i).active = false ∨ (st.session.get i).spent = true ∨
      sub32 nowMs (st.session.get i).startMs > 800) :
    ((BeginOrRefreshSession st i nowMs v startWeap).session.get i).active = true ∧
    ((BeginOrRefreshSession st i nowMs v startWeap).session.get i).spent = false ∧
    ((BeginOrRefreshSession st i nowMs v startWeap).session.get i).startMs = nowMs ∧
    ((BeginOrRefreshSession st i nowMs v startWeap).session.get i).startStamina = max 0 v := by
  have hc : ((st.session.get i).active && !(st.session.get i).spent &&
      decide (sub32 nowMs (st.session.get i).startMs ≤ kHandSessionTimeoutMs)) = false := by
    rcases h with h | h | h
    · simp [h]
    · simp [h]
    · simp [kHandSessionTimeoutMs]; intro _ _; omega
  simp [BeginOrRefreshSession, hc, Array2.get_set_same]

/-- Witness of C10: the right session armed at 1000 is stale at 1801 and is re-initialised
with the snapshot `max 0 (-3) = 0`. -/
theorem BeginOrRefreshSession_reinitialises_witness :
    sub32 1801 ((armedRight 80).session.get 1).startMs > 800 ∧
    ((BeginOrRefreshSession (armedRight 80) 1 1801 (-3) none).session.get 1).startMs = 1801 ∧
    ((BeginOrRefreshSession (armedRight 80) 1 1801 (-3) none).session.get 1).startStamina
      = max 0 (-3) :=
  ⟨by decide,
    (BeginOrRefreshSession_reinitialises (armedRight 80) 1 1801 (-3) none
      (Or.inr (Or.inr (by decide)))).2.2.1,
    (BeginOrRefreshSession_reinitialises (armedRight 80) 1 1801 (-3) none
      (Or.inr (Or.inr (by decide)))).2.2.2⟩

/-- C9: `MapHandToSessionIndex` returns 1 for every two-handed implement (two-hand sword or
two-hand axe) whatever the resolved hand index is, and the resolved hand index itself for
every other implement and for an absent implement. -/
theorem MapHandToSessionIndex_spec (weap : Option TESObjectWEAP) (idx : Fin 2) :
    MapHandToSessionIndex weap idx =
      match weap with
      | some w => if w.weaponType = .kTwoHandSword ∨ w.weaponType = .kTwoHandAxe then 1 else idx
      | none => idx := by
  cases weap with
  | none => simp [MapHandToSessionIndex]
  | some w => simp [MapHandToSessionIndex, IsTwoHanded]

/-! ## Cost modifier pipeline -/

/-- C8 (modifier clamp), on the code: when the hook leaves a finite `p` in the probe,
`GetStaminaCostMult` returns 1 if `p ≤ 0` and `min 10 (max 0.05 (p / 100))` otherwise (so
0, any negative value, 10000 and an untouched 100 give 1, 1, 10 and 1); `+∞` gives 10 and
`-∞` gives 1; a null actor gives 1.  When the hook leaves NaN, the guard `probe <= 0.0f` is
false, `std::clamp` hands NaN back, and `GetStaminaCostMult` returns NaN: a value outside
`[0.05, 10]` that is neither branch of the clamp. -/
theorem GetStaminaCostMult_clamp (host : Host) (a : Actor) (weap : Option TESObjectWEAP) :
    (∀ p : ℚ,
      host.HandleEntryPoint a (if weap.isSome then weap else GetUnarmedWeapForm host)
        (.finite 100) = .finite p →
      GetStaminaCostMult host (some a) weap
          = .val (if p ≤ 0 then 1 else min 10 (max (5 / 100) (p / 100))) ∧
      (p = 0 → GetStaminaCostMult host (some a) weap = .val 1) ∧
      (p < 0 → GetStaminaCostMult host (some a) weap = .val 1) ∧
      (p = 10000 → GetStaminaCostMult host (some a) weap = .val 10) ∧
      (p = 100 → GetStaminaCostMult host (some a) weap = .val 1)) ∧
    (host.HandleEntryPoint a (if weap.isSome then weap else GetUnarmedWeapForm host)
        (.finite 100) = .posInf →
      GetStaminaCostMult host (some a) weap = .val 10) ∧
    (host.HandleEntryPoint a (if weap.isSome then weap else GetUnarmedWeapForm host)
        (.finite 100) = .negInf →
      GetStaminaCostMult host (some a) weap = .val 1) ∧
    (host.HandleEntryPoint a (if weap.isSome then weap else GetUnarmedWeapForm host)
        (.finite 100) = .nan →
      GetStaminaCostMult host (some a) weap = .nan) ∧
    GetStaminaCostMult host none weap = .val 1 := by
  refine ⟨?_, ?_, ?_, ?_, rfl⟩
  · intro p hp
    have key : GetStaminaCostMult host (some a) weap
          = .val (if p ≤ 0 then 1 else min 10 (max (5 / 100) (p / 100))) := by
      simp only [GetStaminaCostMult, hp, F32.leZero, F32.div100, F32.stdClamp, clamp,
        decide_eq_true_eq]
      by_cases h0 : p ≤ 0
      · simp [h0]
      · simp only [h0, if_false]
        by_cases h1 : p / 100 < 5 / 100
        · rw [if_pos h1, max_eq_left (le_of_lt h1)]; norm_num
        · rw [if_neg h1, max_eq_right (not_lt.mp h1)]
          by_cases h2 : 10 < p / 100
          · rw [if_pos h2, min_eq_left (le_of_lt h2)]
          · rw [if_neg h2, min_eq_right (not_lt.mp h2)]
    refine ⟨key, ?_, ?_, ?_, ?_⟩
    · intro h; rw [key, h]; norm_num
    · intro h; rw [key, if_pos (le_of_lt h)]
    · intro h; rw [key, h]; norm_num
    · intro h; rw [key, h]; norm_num
  · intro hp
    simp [GetStaminaCostMult, hp, F32.leZero, F32.div100, F32.stdClamp]
  · intro hp
    simp [GetStaminaCostMult, hp, F32.leZero]
  · intro hp
    simp [GetStaminaCostMult, hp, F32.leZero, F32.div100, F32.stdClamp]

/-- Witness of C8: a hook that leaves 10000 in the probe yields the multiplier 10, and a hook
that leaves NaN yields NaN. -/
theorem GetStaminaCostMult_clamp_witness :
    GetStaminaCostMult (hostWithProbe (.finite 10000)) (some (brawler 100)) none = .val 10 ∧
    (hostWithProbe .nan).HandleEntryPoint (brawler 100)
      (if (none : Option TESObjectWEAP).isSome then none
        else GetUnarmedWeapForm (hostWithProbe .nan)) (.finite 100) = .nan ∧
    GetStaminaCostMult (hostWithProbe .nan) (some (brawler 100)) none = .nan :=
  ⟨((GetStaminaCostMult_clamp (hostWithProbe (.finite 10000)) (brawler 100) none).1 10000
      rfl).2.2.2.1 rfl,
    rfl,
    (GetStaminaCostMult_clamp (hostWithProbe .nan) (brawler 100) none).2.2.2.1 rfl⟩

/-! ## Hand resolver: explicit side markers -/

/-- C7 (hand-resolution priority): for every actor, state and timestamp, a tag that contains
`Left` or `left` resolves to the left hand with `ambiguous = false`, `treatAsUnarmed = false`
and the state unchanged, whatever the pairing cache and the explicit-hand recency hold; a
tag that contains `Right` or `right` and no left marker resolves to the right hand in the
same way. -/
theorem ResolveHandForTag_explicit_marker (actor : Option Actor) (tag : String)
    (st : ActorState) (nowMs : Nat) :
    (("Left".data <:+: tag.data ∨ "left".data <:+: tag.data) →
      ResolveHandForTag actor tag st nowMs = ⟨true, false, false, st⟩) ∧
    (("Right".data <:+: tag.data ∨ "right".data <:+: tag.data) →
      ¬ ("Left".data <:+: tag.data ∨ "left".data <:+: tag.data) →
      ResolveHandForTag actor tag st nowMs = ⟨false, false, false, st⟩) := by
  constructor
  · intro h
    have hl := (TagHasLeft_iff tag).mpr h
    simp [ResolveHandForTag, hl]
  · intro h hn
    have hr := (TagHasRight_iff tag).mpr h
    have hl : TagHasLeft tag = false := by
      rw [← Bool.not_eq_true]; exact fun c => hn ((TagHasLeft_iff tag).mp c)
    simp [ResolveHandForTag, hl, hr]

/-- Witness of C7: with the pairing cache and the recency both pointing right at the very
timestamp of the event, `attackStartLeft` still resolves left, and `attackStartRight` right. -/
theorem ResolveHandForTag_explicit_marker_witness :
    ResolveHandForTag none "attackStartLeft" rightHinted 5000
      = ⟨true, false, false, rightHinted⟩ ∧
    ResolveHandForTag none "attackStartRight" rightHinted 5000
      = ⟨false, false, false, rightHinted⟩ :=
  ⟨(ResolveHandForTag_explicit_marker none "attackStartLeft" rightHinted 5000).1
      (Or.inl ⟨"attackStart".data, [], by decide⟩),
   (ResolveHandForTag_explicit_marker none "attackStartRight" rightHinted 5000).2
      (Or.inl ⟨"attackStart".data, [], by decide⟩)
      (by rw [← TagHasLeft_iff]; decide)⟩

/-! ## Cost and reconciliation engine -/

/-- C4 (reconciliation cancels external drain): in the spend step, with a session start
snapshot of 100, a final cost of 30 and a current stamina of 40 read at spend time, the
corrective delta `desired - staminaNow` is +30, the stamina read after the adjustment is 70
and the stamina of the actor the step leaves is 70, not 10. -/
theorem reconcile_cancels_external_drain (host : Host) (actor : Actor) (st : ActorState)
    (nowMs : Nat) (leftHand : Bool) (idx : Fin 2) (weap : Option TESObjectWEAP) (b : ℚ)
    (hs : GetSessionStartStamina st idx = 100) (hn : GetStamina (some actor) = 40) :
    ∃ log,
      (ProcessEvent.reconcile host actor st nowMs leftHand idx weap b 30).outcome = .spend log ∧
      log.startStam = 100 ∧ log.finalCost = 30 ∧ log.staminaNow = 40 ∧
      log.desired - log.staminaNow = 30 ∧
      log.staminaAfter = 70 ∧
      GetStamina (some (ProcessEvent.reconcile host actor st nowMs leftHand idx weap b 30).actor)
        = 70 ∧
      GetStamina (some (ProcessEvent.reconcile host actor st nowMs leftHand idx weap b 30).actor)
        ≠ 10 := by
  obtain ⟨avo, havo, hst⟩ := GetStamina_eq_pos actor 40 (by norm_num) hn
  have hadj : (AdjustStaminaDamageLayer (some actor) (max 0 (100 - 30) - 40)).getD actor
      = { actor with avo := some { avo with stamina := 70 } } := by
    simp only [AdjustStaminaDamageLayer, havo]
    norm_num [eps6, abs_of_pos, ActorValueOwner.RestoreActorValue, hst]
  have hratio : (if (30 : ℚ) > eps6 then clamp (min 100 30 / 30) 0 1 else 0) = 1 := by
    norm_num [eps6, clamp]
  have hactor : (ProcessEvent.reconcile host actor st nowMs leftHand idx weap b 30).actor
      = { actor with avo := some { avo with stamina := 70 } } := by
    simp only [ProcessEvent.reconcile, hs, hn, hratio, hadj]
    norm_num [eps6]
  have hfin : GetStamina
      (some (ProcessEvent.reconcile host actor st nowMs leftHand idx weap b 30).actor) = 70 := by
    rw [hactor]; norm_num [GetStamina, ActorValueOwner.GetActorValue]
  obtain ⟨log, ho, hc, hss, hsn, -, -, hd, ha, -, -⟩ :=
    reconcile_outcome host actor st nowMs leftHand idx weap b 30
  refine ⟨log, ho, hss.trans hs, hc, hsn.trans hn, ?_, ?_, hfin, ?_⟩
  · rw [hd, hsn, hs, hn]; norm_num
  · rw [ha, hs, hn, hadj]; norm_num [GetStamina, ActorValueOwner.GetActorValue]
  · rw [hfin]; norm_num

/-- Witness of C4: the right session holds the snapshot 100 and the actor arrives with a
stamina of 40; the step leaves the actor at 70. -/
theorem reconcile_cancels_external_drain_witness :
    GetSessionStartStamina (armedRight 100) 1 = 100 ∧
    GetStamina (some (brawler 40)) = 40 ∧
    ∃ log,
      (ProcessEvent.reconcile plainHost (brawler 40) (armedRight 100) 1200 false 1 none 30
        30).outcome = .spend log ∧
      log.startStam = 100 ∧ log.finalCost = 30 ∧ log.staminaNow = 40 ∧
      log.desired - log.staminaNow = 30 ∧
      log.staminaAfter = 70 ∧
      GetStamina (some (ProcessEvent.reconcile plainHost (brawler 40) (armedRight 100) 1200
        false 1 none 30 30).actor) = 70 ∧
      GetStamina (some (ProcessEvent.reconcile plainHost (brawler 40) (armedRight 100) 1200
        false 1 none 30 30).actor) ≠ 10 :=
  ⟨by norm_num [GetSessionStartStamina, armedRight, Array2.get],
   by norm_num [GetStamina, brawler, ActorValueOwner.GetActorValue],
   reconcile_cancels_external_drain plainHost (brawler 40) (armedRight 100) 1200 false 1 none 30
     (by norm_num [GetSessionStartStamina, armedRight, Array2.get])
     (by norm_num [GetStamina, brawler, ActorValueOwner.GetActorValue])⟩

/-- C5 (affordability ratio): with the start snapshot `s` of the session (always `≥ 0`) and a
final cost `c > 1e-6`, the ratio computed by the spend step is `min s c / c`, lies in
`[0, 1]`, and is 1 exactly when `s ≥ c`; the desired stamina is `max 0 (s - c)`; for `s = 10`
and `c = 40` the ratio is 1/4 and the desired stamina is 0. -/
theorem reconcile_affordability_ratio (host : Host) (actor : Actor) (st : ActorState)
    (nowMs : Nat) (leftHand : Bool) (idx : Fin 2) (weap : Option TESObjectWEAP) (b s c : ℚ)
    (hs : GetSessionStartStamina st idx = s) (hc : c > eps6) :
    ∃ log,
      (ProcessEvent.reconcile host actor st nowMs leftHand idx weap b c).outcome = .spend log ∧
      0 ≤ s ∧
      log.ratio = min s c / c ∧ 0 ≤ log.ratio ∧ log.ratio ≤ 1 ∧ (log.ratio = 1 ↔ s ≥ c) ∧
      log.desired = max 0 (s - c) ∧
      (s = 10 → c = 40 → log.ratio = 1 / 4 ∧ log.desired = 0) := by
  obtain ⟨log, ho, -, -, -, -, hr, hd, -, -, -⟩ :=
    reconcile_outcome host actor st nowMs leftHand idx weap b c
  have hs0 : 0 ≤ s := hs ▸ GetSessionStartStamina_nonneg st idx
  have hcpos : 0 < c := lt_trans (by norm_num [eps6]) hc
  rw [hs] at hr hd
  have hq0 : 0 ≤ min s c / c := div_nonneg (le_min hs0 hcpos.le) hcpos.le
  have hq1 : min s c / c ≤ 1 := (div_le_one hcpos).mpr (min_le_right _ _)
  have hratio : log.ratio = min s c / c := by
    rw [hr, if_pos hc, clamp, if_neg (not_lt.mpr hq0), if_neg (not_lt.mpr hq1)]
  refine ⟨log, ho, hs0, hratio, hratio ▸ hq0, hratio ▸ hq1, ?_, hd, ?_⟩
  · rw [hratio, div_eq_one_iff_eq hcpos.ne']
    constructor
    · intro h; exact h ▸ min_le_left _ _
    · intro h; exact min_eq_right h
  · intro h10 h40
    rw [hratio, hd, h10, h40]
    norm_num

/-- Witness of C5: a snapshot of 10 against a final cost of 40. -/
theorem reconcile_affordability_ratio_witness :
    GetSessionStartStamina (armedRight 10) 1 = 10 ∧ (40 : ℚ) > eps6 ∧
    ∃ log,
      (ProcessEvent.reconcile plainHost (brawler 10) (armedRight 10) 1200 false 1 none 40
        40).outcome = .spend log ∧
      0 ≤ (10 : ℚ) ∧
      log.ratio = min 10 40 / 40 ∧ 0 ≤ log.ratio ∧ log.ratio ≤ 1 ∧
      (log.ratio = 1 ↔ (10 : ℚ) ≥ 40) ∧
      log.desired = max 0 (10 - 40) ∧
      ((10 : ℚ) = 10 → (40 : ℚ) = 40 → log.ratio = 1 / 4 ∧ log.desired = 0) :=
  ⟨by norm_num [GetSessionStartStamina, armedRight, Array2.get],
   by norm_num [eps6],
   reconcile_affordability_ratio plainHost (brawler 10) (armedRight 10) 1200 false 1 none 40 10 40
     (by norm_num [GetSessionStartStamina, armedRight, Array2.get])
     (by norm_num [eps6])⟩

/-- The reconciliation reached through the dispatcher: the right session of a fencer holds
the snapshot 100, another system has drained the stamina to 40, and `weaponRightSwing`
arrives 200 ms after the start; the swing costs 30 and leaves the stamina at 70. -/
theorem ProcessEvent_reconciles_external_drain :
    (ProcessEvent plainHost (emptyStateMap.insert 22 (armedRight 100))
      (some { tag := "weaponRightSwing", holder := some (.actor (fencer 40)) })
      1200).outcome.isCharge = true ∧
    GetStamina (ProcessEvent plainHost (emptyStateMap.insert 22 (armedRight 100))
      (some { tag := "weaponRightSwing", holder := some (.actor (fencer 40)) })
      1200).actor = 70 := by
  decide!

/-! ## Damage-scale penalty -/

/-- C6 (penalty reversal is exact): for an actor whose multiplier is `m` and on which no
penalty is pending (`dmgScaleApplied = false`, `dmgScaleDelta = 0`, `dmgScaleUntilMs = 0`),
for every ratio in `[0, 1]` and every net change `x` made by other systems between the two
calls, `ApplyDamageScale` followed by `ClearDamageScale` leaves the multiplier at `m + x`
(at `m` when `x = 0`) and the penalty state inactive with zero delta and zero expiry; the
clear adds the negation of the recorded delta to the multiplier it finds. -/
theorem ApplyDamageScale_then_ClearDamageScale (act : Actor) (avo : ActorValueOwner)
    (st : ActorState) (m ratio x : ℚ) (untilMs : Nat)
    (havo : act.avo = some avo) (hm : avo.GetActorValue .kAttackDamageMult = m)
    (hst : st.dmgScaleApplied = false ∧ st.dmgScaleDelta = 0 ∧ st.dmgScaleUntilMs = 0)
    (hr0 : 0 ≤ ratio) (hr1 : ratio ≤ 1) :
    let p := ApplyDamageScale (some act) st ratio untilMs
    let q := ClearDamageScale (otherSystemsAdjust p.1 x) p.2
    damageMultOf q.1 = some (m + x) ∧
    (x = 0 → damageMultOf q.1 = some m) ∧
    q.2.dmgScaleApplied = false ∧ q.2.dmgScaleDelta = 0 ∧ q.2.dmgScaleUntilMs = 0 ∧
    damageMultOf q.1
      = (damageMultOf (otherSystemsAdjust p.1 x)).map (fun v => v + -p.2.dmgScaleDelta) := by
  intro p q
  obtain ⟨h1, h2, h3⟩ := hst
  have hc : clamp ratio 0 1 = ratio := by
    simp [clamp, not_lt.mpr hr0, not_lt.mpr hr1]
  obtain ⟨fid, pl, avo1, eL, eR, cp⟩ := act
  simp only at havo
  subst havo
  obtain ⟨s0, m0⟩ := avo
  simp only [ActorValueOwner.GetActorValue] at hm
  subst hm
  have key : damageMultOf q.1 = some (m0 + x) ∧
      q.2.dmgScaleApplied = false ∧ q.2.dmgScaleDelta = 0 ∧ q.2.dmgScaleUntilMs = 0 ∧
      damageMultOf q.1
        = (damageMultOf (otherSystemsAdjust p.1 x)).map (fun v => v + -p.2.dmgScaleDelta) := by
    by_cases hd : abs (m0 * ratio - m0) > eps6
    · simp only [p, q, ApplyDamageScale, ClearDamageScale, otherSystemsAdjust, damageMultOf,
        h1, hc, ActorValueOwner.GetActorValue, ActorValueOwner.RestoreActorValue,
        Option.map, Option.bind, Option.getD, Bool.false_eq_true, Bool.not_true, if_false,
        if_pos hd]
      refine ⟨?_, trivial, trivial, trivial, trivial⟩
      congr 1; ring
    · simp only [p, q, ApplyDamageScale, ClearDamageScale, otherSystemsAdjust, damageMultOf,
        h1, h2, hc, ActorValueOwner.GetActorValue, ActorValueOwner.RestoreActorValue,
        Option.map, Option.bind, Option.getD, Bool.false_eq_true, Bool.not_false, if_false,
        if_true, if_neg hd]
      exact ⟨trivial, trivial, trivial, h3, by simp⟩
  obtain ⟨k1, k2, k3, k4, k5⟩ := key
  refine ⟨k1, ?_, k2, k3, k4, k5⟩
  intro hx
  rw [k1, hx, add_zero]

/-- Witness of C6: multiplier 1, ratio 1/4, another system adds 1/2 in between; the multiplier
ends at 3/2. -/
theorem ApplyDamageScale_then_ClearDamageScale_witness :
    (brawler 100).avo = some ⟨100, 1⟩ ∧
    (0 : ℚ) ≤ 1 / 4 ∧ (1 / 4 : ℚ) ≤ 1 ∧
    damageMultOf (ClearDamageScale
      (otherSystemsAdjust (ApplyDamageScale (some (brawler 100)) {} (1 / 4) 1200).1 (1 / 2))
      (ApplyDamageScale (some (brawler 100)) {} (1 / 4) 1200).2).1 = some (1 + 1 / 2) :=
  ⟨rfl, by norm_num, by norm_num,
    (ApplyDamageScale_then_ClearDamageScale (brawler 100) ⟨100, 1⟩ {} 1 (1 / 4) (1 / 2) 1200
      rfl rfl ⟨rfl, rfl, rfl⟩ (by norm_num) (by norm_num)).1⟩

/-! ## Frame and step lemmas of the dispatcher -/

theorem LogAllPlayerTagsIfEnabled_session (host : Host) (actor : Option Actor) (tag : String)
    (st : ActorState) (nowMs : Nat) :
    (LogAllPlayerTagsIfEnabled host actor tag st nowMs).session = st.session := by
  unfold LogAllPlayerTagsIfEnabled
  cases actor with
  | none => simp
  | some a => simp only []; split_ifs <;> rfl

theorem NoteExplicitHandIfAny_session (tag : String) (st : ActorState) (nowMs : Nat) :
    (NoteExplicitHandIfAny tag st nowMs).session = st.session := by
  unfold NoteExplicitHandIfAny
  split_ifs <;> rfl

theorem ClearDamageScale_session (a : Option Actor) (st : ActorState) :
    (ClearDamageScale a st).2.session = st.session := by
  unfold ClearDamageScale
  split_ifs <;> rfl

theorem ClearDamageScaleIfExpired_session (a : Option Actor) (st : ActorState) (nowMs : Nat) :
    (ClearDamageScaleIfExpired a st nowMs).2.session = st.session := by
  unfold ClearDamageScaleIfExpired
  split_ifs
  · exact ClearDamageScale_session a st
  · rfl

theorem ClearDamageScale_actor (a : Actor) (st : ActorState) :
    ∃ avo1, (ClearDamageScale (some a) st).1 = some { a with avo := avo1 } := by
  obtain ⟨fid, pl, avo, eL, eR, cp⟩ := a
  unfold ClearDamageScale
  cases avo <;> simp only [] <;> split_ifs <;> exact ⟨_, rfl⟩

theorem ClearDamageScaleIfExpired_actor (a : Actor) (st : ActorState) (nowMs : Nat) :
    ∃ avo1, (ClearDamageScaleIfExpired (some a) st nowMs).1 = some { a with avo := avo1 } := by
  unfold ClearDamageScaleIfExpired
  split_ifs
  · exact ClearDamageScale_actor a st
  · exact ⟨a.avo, rfl⟩

theorem AdjustStaminaDamageLayer_actor (a : Actor) (delta : ℚ) :
    ∃ avo1, AdjustStaminaDamageLayer (some a) delta = some { a with avo := avo1 } := by
  obtain ⟨fid, pl, avo, eL, eR, cp⟩ := a
  unfold AdjustStaminaDamageLayer
  cases avo <;> simp only [] <;> split_ifs <;> exact ⟨_, rfl⟩

theorem ApplyDamageScale_actor (a : Actor) (st : ActorState) (scale01 : ℚ) (untilMs : Nat) :
    ∃ avo1, (ApplyDamageScale (some a) st scale01 untilMs).1 = some { a with avo := avo1 } := by
  obtain ⟨fid, pl, avo, eL, eR, cp⟩ := a
  cases avo with
  | none => exact ⟨none, rfl⟩
  | some o =>
    unfold ApplyDamageScale
    by_cases hA : st.dmgScaleApplied = true
    · obtain ⟨avo1, h1⟩ := ClearDamageScale_actor ⟨fid, pl, some o, eL, eR, cp⟩ st
      simp only [hA, if_true, h1, Option.getD]
      cases avo1 with
      | none => exact ⟨_, rfl⟩
      | some o1 => simp only []; split_ifs <;> exact ⟨_, rfl⟩
    · simp only [hA, if_false, Option.getD, Bool.false_eq_true]
      split_ifs <;> exact ⟨_, rfl⟩

theorem ApplyDamageScale_session (a : Option Actor) (st : ActorState) (scale01 : ℚ)
    (untilMs : Nat) :
    (ApplyDamageScale a st scale01 untilMs).2.session = st.session := by
  unfold ApplyDamageScale
  cases a with
  | none => rfl
  | some act =>
    simp only []
    cases h : act.avo with
    | none => rfl
    | some o =>
      simp only []
      have hc : (if st.dmgScaleApplied = true then ClearDamageScale (some act) st
          else (some act, st)).2.session = st.session := by
        split_ifs
        · exact ClearDamageScale_session _ _
        · rfl
      generalize (if st.dmgScaleApplied = true then ClearDamageScale (some act) st
          else (some act, st)) = c at hc ⊢
      cases hh : (c.1.getD act).avo with
      | none => exact hc
      | some o1 =>
        simp only []
        split_ifs
        · exact hc
        · exact hc

theorem GetStaminaCostMult_bounds (host : Host) (actor : Option Actor)
    (weap : Option TESObjectWEAP) (m : ℚ)
    (hm : GetStaminaCostMult host actor weap = .val m) :
    5 / 100 ≤ m ∧ m ≤ 10 := by
  cases actor with
  | none =>
    simp only [GetStaminaCostMult, BoundedF32.val.injEq] at hm
    subst hm
    norm_num
  | some a =>
    simp only [GetStaminaCostMult] at hm
    generalize host.HandleEntryPoint a
      (if weap.isSome = true then weap else GetUnarmedWeapForm host) (.finite 100) = pr at hm
    cases pr with
    | finite q =>
      simp only [F32.leZero, F32.div100, F32.stdClamp, clamp, decide_eq_true_eq] at hm
      split_ifs at hm <;> simp only [BoundedF32.val.injEq] at hm <;> subst hm <;>
        constructor <;> linarith
    | posInf =>
      simp only [F32.leZero, F32.div100, F32.stdClamp, Bool.false_eq_true, if_false,
        BoundedF32.val.injEq] at hm
      subst hm
      norm_num
    | negInf =>
      simp only [F32.leZero, if_true, BoundedF32.val.injEq] at hm
      subst hm
      norm_num
    | nan =>
      simp [F32.leZero, F32.div100, F32.stdClamp] at hm

theorem baseCost_ge_six (weap : Option TESObjectWEAP) : 6 ≤ ProcessEvent.baseCost weap := by
  unfold ProcessEvent.baseCost
  simp only [kBaseUnarmed, kBaseWeapon, kWeaponWeightMult, mul_one]
  have hw : 0 ≤ GetWeaponWeight weap := by
    unfold GetWeaponWeight
    cases weap with
    | none => exact le_refl _
    | some w => exact le_max_left _ _
  split_ifs
  · exact le_max_of_le_right (le_refl _)
  · exact le_max_of_le_right (by linarith)

theorem finalCost_pos (host : Host) (actor : Actor) (weap : Option TESObjectWEAP) (b m : ℚ)
    (hb : 0 < b) (hm : GetStaminaCostMult host (some actor) weap = .val m) :
    0 < ProcessEvent.finalCost host actor weap b := by
  unfold ProcessEvent.finalCost
  have hm1 := (GetStaminaCostMult_bounds host (some actor) weap m hm).1
  have hpos : 0 < b * m := mul_pos hb (by linarith)
  simp only [hm, BoundedF32.mulLeft, BoundedF32.mulRight, kPowerAttackMult]
  split_ifs
  · exact lt_max_of_lt_right (by linarith)
  · exact lt_max_of_lt_right hpos

/-- A NaN multiplier makes the final cost 0: the product is NaN and `std::max(0.0f, NaN)`
returns 0. -/
theorem finalCost_nan (host : Host) (actor : Actor) (weap : Option TESObjectWEAP) (b : ℚ)
    (hm : GetStaminaCostMult host (some actor) weap = .nan) :
    ProcessEvent.finalCost host actor weap b = 0 := by
  unfold ProcessEvent.finalCost
  simp only [hm, BoundedF32.mulLeft, BoundedF32.mulRight]
  split_ifs <;> rfl

theorem CanSpendInSession_passes (st : ActorState) (i : Fin 2) (nowMs : Nat) (cur : ℚ)
    (w : Option TESObjectWEAP)
    (h : (st.session.get i).active = false ∨ (st.session.get i).spent = false) :
    (CanSpendInSession st i nowMs cur w).1 = true := by
  unfold CanSpendInSession
  simp only []
  split_ifs
  · rfl
  · rfl
  · rcases h with h | h
    · simp_all
    · simp [h]

theorem MarkSessionSpent_get (st : ActorState) (i : Fin 2) :
    ((MarkSessionSpent st i).session.get i).active = false ∧
    ((MarkSessionSpent st i).session.get i).spent = true := by
  simp [MarkSessionSpent, Array2.get_set_same]


theorem reconcile_frame (host : Host) (actor : Actor) (st : ActorState) (nowMs : Nat)
    (leftHand : Bool) (idx : Fin 2) (weap : Option TESObjectWEAP) (b c : ℚ) :
    ∃ avo1, (ProcessEvent.reconcile host actor st nowMs leftHand idx weap b c).actor
        = { actor with avo := avo1 } ∧
      (ProcessEvent.reconcile host actor st nowMs leftHand idx weap b c).st.session
        = (MarkSessionSpent st idx).session := by
  unfold ProcessEvent.reconcile
  simp only []
  generalize (if c > eps6 then clamp (min (GetSessionStartStamina st idx) c / c) 0 1 else 0)
    = ratio
  obtain ⟨avoA, hA⟩ := AdjustStaminaDamageLayer_actor actor
    (max 0 (GetSessionStartStamina st idx - c) - GetStamina (some actor))
  rw [hA]
  simp only [Option.getD_some]
  by_cases hr : ratio + eps6 < 1
  · obtain ⟨avoB, hB⟩ := ApplyDamageScale_actor { actor with avo := avoA }
      (MarkSessionSpent st idx) ratio (add32 nowMs kDamagePenaltyWindowMs)
    refine ⟨avoB, ?_, ?_⟩
    · rw [if_pos hr, hB]; rfl
    · rw [if_pos hr]; exact ApplyDamageScale_session _ _ _ _
  · refine ⟨avoA, ?_, ?_⟩
    · rw [if_neg hr]; rfl
    · rw [if_neg hr]

theorem BeginOrRefreshSession_armed (st : ActorState) (i : Fin 2) (nowMs : Nat) (v : ℚ)
    (w : Option TESObjectWEAP) :
    ((BeginOrRefreshSession st i nowMs v w).session.get i).active = true ∧
    ((BeginOrRefreshSession st i nowMs v w).session.get i).spent = false := by
  unfold BeginOrRefreshSession
  simp only []
  split_ifs with h
  · simp only [Bool.and_eq_true, Bool.not_eq_true', decide_eq_true_eq] at h
    exact ⟨h.1.1, h.1.2⟩
  · simp [Array2.get_set_same]

theorem prelude_frame (host : Host) (actor : Actor) (tag : String) (nowMs : Nat)
    (st : ActorState) :
    (∃ avo0, (ClearDamageScaleIfExpired (some actor)
        (NoteExplicitHandIfAny tag (LogAllPlayerTagsIfEnabled host (some actor) tag st nowMs)
          nowMs) nowMs).1 = some { actor with avo := avo0 }) ∧
    (ClearDamageScaleIfExpired (some actor)
        (NoteExplicitHandIfAny tag (LogAllPlayerTagsIfEnabled host (some actor) tag st nowMs)
          nowMs) nowMs).2.session = st.session := by
  refine ⟨ClearDamageScaleIfExpired_actor _ _ _, ?_⟩
  rw [ClearDamageScaleIfExpired_session, NoteExplicitHandIfAny_session,
    LogAllPlayerTagsIfEnabled_session]

theorem body_start_explicit (host : Host) (actor : Actor) (tag : String) (nowMs : Nat)
    (st : ActorState) (lh : Bool)
    (hU : IsUnarmedSwingSoundTag tag = false) (hS : IsAttackStartTag tag = true)
    (hR : ∀ a s n, ResolveHandForTag a tag s n = ⟨lh, false, false, s⟩)
    (hmelee : (((actor.GetEquippedObject lh).bind TESForm.asWEAP).isSome &&
      !IsMeleeWeapon ((actor.GetEquippedObject lh).bind TESForm.asWEAP)) = false) :
    ∃ v avo1,
      (ProcessEvent.body host actor tag nowMs st).outcome
        = .start lh (MapHandToSessionIndex
          ((actor.GetEquippedObject lh).bind TESForm.asWEAP) (if lh then 0 else 1)) v ∧
      (ProcessEvent.body host actor tag nowMs st).actor = { actor with avo := avo1 } ∧
      ((ProcessEvent.body host actor tag nowMs st).st.session.get (MapHandToSessionIndex
          ((actor.GetEquippedObject lh).bind TESForm.asWEAP) (if lh then 0 else 1))).active
        = true ∧
      ((ProcessEvent.body host actor tag nowMs st).st.session.get (MapHandToSessionIndex
          ((actor.GetEquippedObject lh).bind TESForm.asWEAP) (if lh then 0 else 1))).spent
        = false := by
  obtain ⟨⟨avo0, h0⟩, -⟩ := prelude_frame host actor tag nowMs st
  unfold ProcessEvent.body
  simp only [hU, hS, hR, h0, Option.getD_some, Bool.false_eq_true, if_false, Bool.not_false,
    Bool.not_true, Bool.false_and, if_true]
  have hEq : ({ actor with avo := avo0 } : Actor).GetEquippedObject lh
      = actor.GetEquippedObject lh := rfl
  rw [hEq, hmelee]
  simp only [Bool.false_eq_true, if_false]
  exact ⟨_, avo0, rfl, rfl, (BeginOrRefreshSession_armed _ _ _ _ _).1,
    (BeginOrRefreshSession_armed _ _ _ _ _).2⟩


theorem IsMeleeWeapon_of_IsTwoHanded (w : TESObjectWEAP) (h : IsTwoHanded (some w) = true) :
    IsMeleeWeapon (some w) = true := by
  unfold IsTwoHanded at h
  unfold IsMeleeWeapon
  cases hw : w.weaponType <;> simp_all

theorem ProcessEvent_actor_event (host : Host) (state : StateMap) (actor : Actor) (tag : String)
    (clockMs : Nat) (hne : tag.isEmpty = false) :
    ProcessEvent host state (some { tag := tag, holder := some (.actor actor) }) clockMs =
      { state := state.insert actor.formID
          (ProcessEvent.body host actor tag (NowMs clockMs) (state.lookup actor.formID)).st
        actor := some
          (ProcessEvent.body host actor tag (NowMs clockMs) (state.lookup actor.formID)).actor
        tasks :=
          (ProcessEvent.body host actor tag (NowMs clockMs) (state.lookup actor.formID)).tasks
        outcome :=
          (ProcessEvent.body host actor tag (NowMs clockMs)
            (state.lookup actor.formID)).outcome } := by
  simp [ProcessEvent, hne, TESObjectREFR.asActor]

theorem StateMap.lookup_insert (m : StateMap) (id : Nat) (st : ActorState) :
    (m.insert id st).lookup id = st := by
  simp [StateMap.lookup, StateMap.insert]

theorem runEvents_cons (host : Host) (state : StateMap) (actor : Actor) (tag : String)
    (clockMs : Nat) (rest : List (String × Nat)) (hne : tag.isEmpty = false) :
    runEvents host state actor ((tag, clockMs) :: rest) =
      ((runEvents host
          (state.insert actor.formID
            (ProcessEvent.body host actor tag (NowMs clockMs) (state.lookup actor.formID)).st)
          (ProcessEvent.body host actor tag (NowMs clockMs) (state.lookup actor.formID)).actor
          rest).1,
       (runEvents host
          (state.insert actor.formID
            (ProcessEvent.body host actor tag (NowMs clockMs) (state.lookup actor.formID)).st)
          (ProcessEvent.body host actor tag (NowMs clockMs) (state.lookup actor.formID)).actor
          rest).2.1,
       (ProcessEvent.body host actor tag (NowMs clockMs) (state.lookup actor.formID)).outcome ::
       (runEvents host
          (state.insert actor.formID
            (ProcessEvent.body host actor tag (NowMs clockMs) (state.lookup actor.formID)).st)
          (ProcessEvent.body host actor tag (NowMs clockMs) (state.lookup actor.formID)).actor
          rest).2.2) := by
  simp [runEvents, ProcessEvent_actor_event host state actor tag clockMs hne]

theorem ResolveHandForTag_of_left (tag : String) (h : TagHasLeft tag = true)
    (a : Option Actor) (s : ActorState) (n : Nat) :
    ResolveHandForTag a tag s n = ⟨true, false, false, s⟩ := by
  simp [ResolveHandForTag, h]

theorem ResolveHandForTag_of_right (tag : String) (hl : TagHasLeft tag = false)
    (h : TagHasRight tag = true) (a : Option Actor) (s : ActorState) (n : Nat) :
    ResolveHandForTag a tag s n = ⟨false, false, false, s⟩ := by
  simp [ResolveHandForTag, hl, h]

/-- One explicit-side start event of an actor holding a two-handed weapon. -/
theorem twoHanded_start_step (host : Host) (actor : Actor) (nowMs : Nat) (st : ActorState)
    (lh : Bool) (h2 : HoldsTwoHanded actor lh) :
    ∃ v avo1,
      (ProcessEvent.body host actor (if lh then "attackStartLeft" else "attackStartRight")
        nowMs st).outcome = .start lh 1 v ∧
      (ProcessEvent.body host actor (if lh then "attackStartLeft" else "attackStartRight")
        nowMs st).actor = { actor with avo := avo1 } ∧
      ((ProcessEvent.body host actor (if lh then "attackStartLeft" else "attackStartRight")
        nowMs st).st.session.get 1).active = true ∧
      ((ProcessEvent.body host actor (if lh then "attackStartLeft" else "attackStartRight")
        nowMs st).st.session.get 1).spent = false := by
  obtain ⟨w, hw, h2w⟩ := h2
  have hm := IsMeleeWeapon_of_IsTwoHanded w h2w
  have hidx : MapHandToSessionIndex ((actor.GetEquippedObject lh).bind TESForm.asWEAP)
      (if lh then 0 else 1) = 1 := by
    rw [hw]; simp [MapHandToSessionIndex, h2w]
  have key := body_start_explicit host actor (if lh then "attackStartLeft" else "attackStartRight")
    nowMs st lh (by cases lh <;> decide) (by cases lh <;> decide)
    (by
      cases lh
      · exact ResolveHandForTag_of_right _ (by decide) (by decide)
      · exact ResolveHandForTag_of_left _ (by decide))
    (by rw [hw]; simp [hm])
  rw [hidx] at key
  exact key

/-- A session that `MarkSessionSpent` has just marked passes the gate `CanSpendInSession`
again: the mark clears `active`, and the gate re-arms every inactive session. -/
theorem CanSpendInSession_after_MarkSessionSpent (st : ActorState) (i : Fin 2) (nowMs : Nat)
    (cur : ℚ) (w : Option TESObjectWEAP) :
    (CanSpendInSession (MarkSessionSpent st i) i nowMs cur w).1 = true :=
  CanSpendInSession_passes _ i nowMs cur w (Or.inl (MarkSessionSpent_get st i).1)

/-! ## Idempotence per swing and two-handed slot collapse -/

/-- C1 (idempotence per swing), evaluated on the code: an empty-handed actor with stamina 100
on a fresh sink receives `attackStartRight` at 1000, `weaponRightSwing` at 1100 and a
duplicate `weaponRightSwing` at 1150.  The first swing charges 6 (stamina 94); the duplicate
is not skipped: it passes the gate, charges 6 again and leaves the stamina at 88. -/
theorem duplicate_swing_tag_charges_again :
    (runEvents plainHost emptyStateMap (brawler 100)
      [("attackStartRight", 1000), ("weaponRightSwing", 1100)]).2.2.map Outcome.isCharge
      = [false, true] ∧
    GetStamina (some (runEvents plainHost emptyStateMap (brawler 100)
      [("attackStartRight", 1000), ("weaponRightSwing", 1100)]).2.1) = 94 ∧
    (runEvents plainHost emptyStateMap (brawler 100)
      [("attackStartRight", 1000), ("weaponRightSwing", 1100),
       ("weaponRightSwing", 1150)]).2.2.map Outcome.isCharge = [false, true, true] ∧
    GetStamina (some (runEvents plainHost emptyStateMap (brawler 100)
      [("attackStartRight", 1000), ("weaponRightSwing", 1100),
       ("weaponRightSwing", 1150)]).2.1) = 88 := by
  decide!

/-- C2 (two-handed slot collapse), evaluated on the code: an actor holding a greatsword
(weight 16, cost 22) with stamina 100 receives `attackStartLeft`, `weaponLeftSwing`,
`attackStartRight`, `weaponRightSwing` at 1000, 1100, 1200, 1300.  All four events use
the shared session index 1, and still two deductions are made, not one: the left swing
leaves the stamina at 78, the right start re-arms the spent session with the snapshot 78,
and the right swing leaves the stamina at 56. -/
theorem twoHanded_left_right_pairs_not_single_charge :
    GetStamina (some (swordsman 100)) = 100 ∧
    (runEvents plainHost emptyStateMap (swordsman 100)
      [("attackStartLeft", 1000), ("weaponLeftSwing", 1100),
       ("attackStartRight", 1200), ("weaponRightSwing", 1300)]).2.2
      = [.start true 1 100,
         .spend (SpendLog.mk false true 1 22 (.val 1) 22 100 100 78 22 1 false 78),
         .start false 1 78,
         .spend (SpendLog.mk false false 1 22 (.val 1) 22 78 78 56 22 1 false 56)] ∧
    chargeCount (runEvents plainHost emptyStateMap (swordsman 100)
      [("attackStartLeft", 1000), ("weaponLeftSwing", 1100),
       ("attackStartRight", 1200), ("weaponRightSwing", 1300)]).2.2 = 2 ∧
    GetStamina (some (runEvents plainHost emptyStateMap (swordsman 100)
      [("attackStartLeft", 1000), ("weaponLeftSwing", 1100)]).2.1) = 78 ∧
    GetStamina (some (runEvents plainHost emptyStateMap (swordsman 100)
      [("attackStartLeft", 1000), ("weaponLeftSwing", 1100),
       ("attackStartRight", 1200), ("weaponRightSwing", 1300)]).2.1) = 56 := by
  decide!

/-! ## Session manager: the spend gate -/

/-- C11: when session `i` is inactive or older than 800 ms (unsigned difference of the
source), `CanSpendInSession` returns true and leaves session `i` with `active = true`,
`spent = false`, `startMs = nowMs` and `startStamina = max 0 r`; otherwise it returns the
negation of `spent` and leaves the state unchanged. -/
theorem CanSpendInSession_spec (st : ActorState) (i : Fin 2) (nowMs : Nat) (r : ℚ)
    (curWeap : Option TESObjectWEAP) :
    (((st.session.get i).active = false ∨ sub32 nowMs (st.session.get i).startMs > 800) →
      (CanSpendInSession st i nowMs r curWeap).1 = true ∧
      ((CanSpendInSession st i nowMs r curWeap).2.session.get i).active = true ∧
      ((CanSpendInSession st i nowMs r curWeap).2.session.get i).spent = false ∧
      ((CanSpendInSession st i nowMs r curWeap).2.session.get i).startMs = nowMs ∧
      ((CanSpendInSession st i nowMs r curWeap).2.session.get i).startStamina = max 0 r) ∧
    (¬ ((st.session.get i).active = false ∨ sub32 nowMs (st.session.get i).startMs > 800) →
      CanSpendInSession st i nowMs r curWeap = (!(st.session.get i).spent, st)) := by
  constructor
  · intro h
    unfold CanSpendInSession
    simp only [kHandSessionTimeoutMs]
    by_cases ha : (st.session.get i).active = true
    · have hs : sub32 nowMs (st.session.get i).startMs > 800 := by
        rcases h with h | h
        · rw [ha] at h; exact absurd h (by decide)
        · exact h
      simp [ha, hs, Array2.get_set_same]
    · simp [ha, Array2.get_set_same]
  · intro h
    push_neg at h
    obtain ⟨ha, hs⟩ := h
    have ha' : (st.session.get i).active = true := by
      cases hh : (st.session.get i).active
      · exact absurd hh ha
      · rfl
    unfold CanSpendInSession
    simp only [kHandSessionTimeoutMs]
    simp [ha', not_lt.mpr hs]

/-- Witness of C11: the right session armed at 1000 is stale at 1801 and is re-armed; at 1500
it is fresh and unspent, the gate answers true and the state is unchanged. -/
theorem CanSpendInSession_spec_witness :
    (sub32 1801 ((armedRight 80).session.get 1).startMs > 800 ∧
      (CanSpendInSession (armedRight 80) 1 1801 (-3) none).1 = true ∧
      ((CanSpendInSession (armedRight 80) 1 1801 (-3) none).2.session.get 1).startStamina
        = max 0 (-3)) ∧
    (¬ (((armedRight 80).session.get 1).active = false ∨
        sub32 1500 ((armedRight 80).session.get 1).startMs > 800) ∧
      CanSpendInSession (armedRight 80) 1 1500 55 none
        = (!((armedRight 80).session.get 1).spent, armedRight 80)) :=
  ⟨⟨by decide,
     ((CanSpendInSession_spec (armedRight 80) 1 1801 (-3) none).1 (Or.inr (by decide))).1,
     ((CanSpendInSession_spec (armedRight 80) 1 1801 (-3) none).1
        (Or.inr (by decide))).2.2.2.2⟩,
   ⟨by decide, (CanSpendInSession_spec (armedRight 80) 1 1500 55 none).2 (by decide)⟩⟩

/-! ## Cost formula -/

theorem finalCost_eq (host : Host) (actor : Actor) (weap : Option TESObjectWEAP) (b m : ℚ)
    (hb : 0 < b) (hm : GetStaminaCostMult host (some actor) weap = .val m) :
    ProcessEvent.finalCost host actor weap b
      = b * m * (if IsPowerAttacking (some actor) = true then 2 else 1) := by
  have hm1 := (GetStaminaCostMult_bounds host (some actor) weap m hm).1
  have hpos : 0 < b * m := mul_pos hb (by linarith)
  unfold ProcessEvent.finalCost
  simp only [hm, BoundedF32.mulLeft, BoundedF32.mulRight, kPowerAttackMult]
  split_ifs
  · exact max_eq_right (by linarith)
  · rw [mul_one]; exact max_eq_right hpos.le

theorem spend_log (host : Host) (actor : Actor) (st : ActorState) (nowMs : Nat)
    (leftHand treatAsUnarmed : Bool) (idx : Fin 2) (curWeap : Option TESObjectWEAP)
    (log : SpendLog)
    (h : (ProcessEvent.spend host actor st nowMs leftHand treatAsUnarmed idx curWeap).outcome
      = .spend log) :
    log.baseCost = ProcessEvent.baseCost (if treatAsUnarmed then none
        else (actor.GetEquippedObject leftHand).bind TESForm.asWEAP) ∧
    log.isPower = IsPowerAttacking (some actor) ∧
    ∃ m avo1, log.entryMult = .val m ∧
      GetStaminaCostMult host (some { actor with avo := avo1 })
        (if treatAsUnarmed then none
          else (actor.GetEquippedObject leftHand).bind TESForm.asWEAP) = .val m ∧
      log.finalCost = log.baseCost * m * (if log.isPower = true then 2 else 1) := by
  obtain ⟨avoD, hD⟩ := ClearDamageScale_actor actor
    (CanSpendInSession st idx nowMs (GetStamina (some actor)) curWeap).2
  have hEq : ({ actor with avo := avoD } : Actor).GetEquippedObject leftHand
      = actor.GetEquippedObject leftHand := rfl
  cases treatAsUnarmed <;>
  · unfold ProcessEvent.spend at h
    simp only [hD, Option.getD_some, hEq, Bool.false_eq_true, if_false, if_true] at h
    split_ifs at h with h1 h2 h3 h4
    simp only [ProcessEvent.reconcile, Outcome.spend.injEq] at h
    subst h
    refine ⟨rfl, rfl, ?_⟩
    simp only []
    cases hm : GetStaminaCostMult host (some { actor with avo := avoD }) _ with
    | nan => exact absurd (le_of_eq (finalCost_nan host _ _ _ hm)) h4
    | val m =>
      exact ⟨m, avoD, rfl, hm,
        finalCost_eq host _ _ _ m (lt_of_lt_of_le (by norm_num) (baseCost_ge_six _)) hm⟩

/-- C14: an event whose tag is empty or whose holder is absent or not an actor, and a null
event, change nothing: the map of per-actor states is the same map (no entry created or
modified), the holder is handed back as it came (stamina and damage multiplier not
written), and no task is scheduled. -/
theorem ProcessEvent_ignores_absent_actor_or_empty_tag (host : Host) (state : StateMap)
    (ev : BSAnimationGraphEvent) (clockMs : Nat)
    (h : ev.tag = "" ∨ ev.holder = none ∨ ∃ id, ev.holder = some (.nonActor id)) :
    (ProcessEvent host state (some ev) clockMs).state = state ∧
    (ProcessEvent host state (some ev) clockMs).actor = ev.holder.bind TESObjectREFR.asActor ∧
    (ProcessEvent host state (some ev) clockMs).tasks = [] ∧
    (ProcessEvent host state (some ev) clockMs).outcome = .ignored ∧
    (ProcessEvent host state none clockMs).state = state ∧
    (ProcessEvent host state none clockMs).tasks = [] := by
  refine ⟨?_, ?_, ?_, ?_, rfl, rfl⟩ <;>
  · unfold ProcessEvent
    simp only []
    rcases h with h | h | ⟨id, h⟩
    · simp [h, String.isEmpty]
    · split_ifs
      · rfl
      · simp [h]
    · split_ifs
      · simp [h]
      · simp [h, TESObjectREFR.asActor]

/-- Witness of C14: an event with an empty tag held by a brawler. -/
theorem ProcessEvent_ignores_absent_actor_or_empty_tag_witness :
    (ProcessEvent plainHost emptyStateMap
      (some { tag := "", holder := some (.actor (brawler 100)) }) 1000).state = emptyStateMap ∧
    (ProcessEvent plainHost emptyStateMap
      (some { tag := "", holder := some (.actor (brawler 100)) }) 1000).actor
      = some (brawler 100) ∧
    (ProcessEvent plainHost emptyStateMap
      (some { tag := "", holder := some (.actor (brawler 100)) }) 1000).tasks = [] :=
  ⟨(ProcessEvent_ignores_absent_actor_or_empty_tag plainHost emptyStateMap
      { tag := "", holder := some (.actor (brawler 100)) } 1000 (Or.inl rfl)).1,
   (ProcessEvent_ignores_absent_actor_or_empty_tag plainHost emptyStateMap
      { tag := "", holder := some (.actor (brawler 100)) } 1000 (Or.inl rfl)).2.1,
   (ProcessEvent_ignores_absent_actor_or_empty_tag plainHost emptyStateMap
      { tag := "", holder := some (.actor (brawler 100)) } 1000 (Or.inl rfl)).2.2.1⟩

theorem ClearDamageScale_stamina (a : Option Actor) (st : ActorState) :
    staminaOf (ClearDamageScale a st).1 = staminaOf a := by
  rcases a with _ | ⟨fid, pl, _ | ⟨s0, m0⟩, eL, eR, cp⟩ <;>
    simp only [ClearDamageScale, staminaOf, ActorValueOwner.RestoreActorValue,
      ActorValueOwner.GetActorValue] <;>
    split_ifs <;> rfl

theorem ClearDamageScaleIfExpired_stamina (a : Option Actor) (st : ActorState) (nowMs : Nat) :
    staminaOf (ClearDamageScaleIfExpired a st nowMs).1 = staminaOf a := by
  unfold ClearDamageScaleIfExpired
  split_ifs
  · exact ClearDamageScale_stamina a st
  · rfl

theorem ApplyDamageScale_stamina (a : Option Actor) (st : ActorState) (r : ℚ) (u : Nat) :
    staminaOf (ApplyDamageScale a st r u).1 = staminaOf a := by
  rcases a with _ | ⟨fid, pl, _ | ⟨s0, m0⟩, eL, eR, cp⟩
  · rfl
  · rfl
  · by_cases hA : st.dmgScaleApplied = true <;>
      simp only [ApplyDamageScale, ClearDamageScale, staminaOf,
        ActorValueOwner.RestoreActorValue, ActorValueOwner.GetActorValue, hA, if_true, if_false,
        Bool.not_true, Bool.not_false, Bool.false_eq_true, Option.getD_some] <;>
      split_ifs <;> simp only [Option.getD_some] <;> (try split_ifs) <;> rfl

theorem GetStamina_eq_staminaOf (a : Option Actor) :
    GetStamina a = ((staminaOf a).map (max 0)).getD 0 := by
  unfold GetStamina staminaOf
  cases a.bind (fun act => act.avo) <;> rfl

theorem body_actor_of_not_spend (host : Host) (actor : Actor) (tag : String) (nowMs : Nat)
    (st : ActorState) (h : IsSpendTag tag = false) :
    (ProcessEvent.body host actor tag nowMs st).actor =
      (ClearDamageScaleIfExpired (some actor)
        (NoteExplicitHandIfAny tag (LogAllPlayerTagsIfEnabled host (some actor) tag st nowMs)
          nowMs) nowMs).1.getD actor := by
  unfold ProcessEvent.body
  simp only [h]
  by_cases hU : IsUnarmedSwingSoundTag tag = true
  · simp only [hU, if_true]
  · by_cases hS : IsAttackStartTag tag = true
    · simp [hU, hS]
    · simp [hU, hS]

theorem IsSpendTag_eq_false (tag : String)
    (h : tag ∉ ["weaponLeftSwing", "weaponRightSwing", "weaponSwing",
      "WeaponLeftSwing", "WeaponRightSwing", "WeaponSwing"]) :
    IsSpendTag tag = false := by
  simp only [List.mem_cons, List.mem_singleton, not_or, List.not_mem_nil, not_false_eq_true,
    and_true] at h
  obtain ⟨a, b, c, d, e, f⟩ := h
  simp [IsSpendTag, IsWeaponHandSwingTag, IsWeaponSwingAmbiguous, a, b, c, d, e, f]

/-- C15: for every tag that is not one of the six swing tags (every attack-start tag, the
unarmed-sound tag and every unrelated tag), processing the event leaves the stamina of the
holder as it was. -/
theorem ProcessEvent_only_swing_tag_writes_stamina (host : Host) (state : StateMap)
    (ev : BSAnimationGraphEvent) (clockMs : Nat)
    (h : ev.tag ∉ ["weaponLeftSwing", "weaponRightSwing", "weaponSwing",
      "WeaponLeftSwing", "WeaponRightSwing", "WeaponSwing"]) :
    staminaOf (ProcessEvent host state (some ev) clockMs).actor
      = staminaOf (ev.holder.bind TESObjectREFR.asActor) ∧
    GetStamina (ProcessEvent host state (some ev) clockMs).actor
      = GetStamina (ev.holder.bind TESObjectREFR.asActor) := by
  have key : staminaOf (ProcessEvent host state (some ev) clockMs).actor
      = staminaOf (ev.holder.bind TESObjectREFR.asActor) := by
    unfold ProcessEvent
    simp only []
    split_ifs with he
    · rfl
    · cases hh : ev.holder.bind TESObjectREFR.asActor with
      | none => rfl
      | some actor =>
        simp only []
        rw [body_actor_of_not_spend host actor ev.tag _ _ (IsSpendTag_eq_false _ h)]
        obtain ⟨avo0, h0⟩ := ClearDamageScaleIfExpired_actor actor
          (NoteExplicitHandIfAny ev.tag
            (LogAllPlayerTagsIfEnabled host (some actor) ev.tag
              (state.lookup actor.formID) (NowMs clockMs)) (NowMs clockMs)) (NowMs clockMs)
        have h1 := ClearDamageScaleIfExpired_stamina (some actor)
          (NoteExplicitHandIfAny ev.tag
            (LogAllPlayerTagsIfEnabled host (some actor) ev.tag
              (state.lookup actor.formID) (NowMs clockMs)) (NowMs clockMs)) (NowMs clockMs)
        rw [h0] at h1 ⊢
        simpa using h1
  refine ⟨key, ?_⟩
  rw [GetStamina_eq_staminaOf, GetStamina_eq_staminaOf, key]

/-- Witness of C15: `attackStartRight` on a brawler with stamina 100. -/
theorem ProcessEvent_only_swing_tag_writes_stamina_witness :
    "attackStartRight" ∉ ["weaponLeftSwing", "weaponRightSwing", "weaponSwing",
      "WeaponLeftSwing", "WeaponRightSwing", "WeaponSwing"] ∧
    GetStamina (ProcessEvent plainHost emptyStateMap
      (some { tag := "attackStartRight", holder := some (.actor (brawler 100)) }) 1000).actor
      = GetStamina (some (brawler 100)) :=
  ⟨by decide,
    (ProcessEvent_only_swing_tag_writes_stamina plainHost emptyStateMap
      { tag := "attackStartRight", holder := some (.actor (brawler 100)) } 1000
      (by decide)).2⟩

/-! ## Penalties never stack -/

theorem PenaltyInv_clear (a : Option Actor) (st : ActorState) (added : ℚ)
    (h : PenaltyInv a st added) :
    PenaltyInv (ClearDamageScale a st).1 (ClearDamageScale a st).2
      (added + ((damageMultOf (ClearDamageScale a st).1).getD 0 - (damageMultOf a).getD 0)) := by
  obtain ⟨h0, h1⟩ := h
  cases hA : st.dmgScaleApplied with
  | false =>
    have : ClearDamageScale a st = (a, st) := by simp [ClearDamageScale, hA]
    rw [this]
    simp only [sub_self, add_zero]
    exact ⟨fun _ => h0 hA, fun c => absurd (hA.symm.trans c) (by decide)⟩
  | true =>
    obtain ⟨hd, hadd, act, avo, rfl, havo⟩ := h1 hA
    obtain ⟨fid, pl, avo1, eL, eR, cp⟩ := act
    simp only at havo
    subst havo
    constructor
    · intro _
      simp only [ClearDamageScale, hA, hd, damageMultOf, Option.bind, Option.map, Option.getD,
        ActorValueOwner.GetActorValue, ActorValueOwner.RestoreActorValue, Bool.not_true,
        Bool.false_eq_true, if_false, if_true, hadd]
      ring
    · intro c
      simp [ClearDamageScale, hA] at c

theorem PenaltyInv_apply (a : Option Actor) (st : ActorState) (added : ℚ) (r : ℚ) (u : Nat)
    (h : PenaltyInv a st added) :
    PenaltyInv (ApplyDamageScale a st r u).1 (ApplyDamageScale a st r u).2
      (added + ((damageMultOf (ApplyDamageScale a st r u).1).getD 0
        - (damageMultOf a).getD 0)) := by
  obtain ⟨h0, h1⟩ := h
  have hnone : ∀ a0 : Option Actor, (¬ ∃ act avo, a0 = some act ∧ act.avo = some avo) →
      a = a0 → ApplyDamageScale a0 st r u = (a0, st) →
      PenaltyInv (ApplyDamageScale a st r u).1 (ApplyDamageScale a st r u).2
        (added + ((damageMultOf (ApplyDamageScale a st r u).1).getD 0
          - (damageMultOf a).getD 0)) := by
    intro a0 hno ha he
    subst ha
    rw [he]
    simp only [sub_self, add_zero]
    exact ⟨h0, fun c => absurd (h1 c).2.2 hno⟩
  cases a with
  | none => exact hnone none (by simp) rfl rfl
  | some act =>
    obtain ⟨fid, pl, avo, eL, eR, cp⟩ := act
    cases avo with
    | none => exact hnone _ (by simp) rfl rfl
    | some o =>
      obtain ⟨s0, m0⟩ := o
      cases hA : st.dmgScaleApplied with
      | false =>
        have hz := h0 hA
        by_cases hd : abs (m0 * clamp r 0 1 - m0) > eps6
        · simp only [ApplyDamageScale, hA, damageMultOf, Option.bind, Option.map, Option.getD,
            ActorValueOwner.GetActorValue, ActorValueOwner.RestoreActorValue,
            Bool.false_eq_true, if_false, if_pos hd, hz]
          refine ⟨fun c => by simp at c, fun _ => ⟨hd, by ring, _, _, rfl, rfl⟩⟩
        · simp only [ApplyDamageScale, hA, damageMultOf, Option.bind, Option.map, Option.getD,
            ActorValueOwner.GetActorValue, Bool.false_eq_true, if_false, if_neg hd, hz]
          refine ⟨fun _ => by ring, fun c => absurd (hA.symm.trans c) (by decide)⟩
      | true =>
        obtain ⟨hd0, hadd, -⟩ := h1 hA
        by_cases hd : abs ((m0 + -st.dmgScaleDelta) * clamp r 0 1 - (m0 + -st.dmgScaleDelta))
            > eps6
        · simp only [ApplyDamageScale, ClearDamageScale, hA, damageMultOf, Option.bind,
            Option.map, Option.getD, ActorValueOwner.GetActorValue,
            ActorValueOwner.RestoreActorValue, Bool.not_true, Bool.false_eq_true, if_false,
            if_true, if_pos hd0, if_pos hd, hadd]
          refine ⟨fun c => by simp at c, fun _ => ⟨hd, by ring, _, _, rfl, rfl⟩⟩
        · simp only [ApplyDamageScale, ClearDamageScale, hA, damageMultOf, Option.bind,
            Option.map, Option.getD, ActorValueOwner.GetActorValue,
            ActorValueOwner.RestoreActorValue, Bool.not_true, Bool.false_eq_true, if_false,
            if_true, if_pos hd0, if_neg hd, hadd]
          refine ⟨fun _ => by ring, fun c => by simp at c⟩

theorem PenaltyInv_step (op : PenaltyOp) (a : Option Actor) (st : ActorState) (added : ℚ)
    (h : PenaltyInv a st added) :
    PenaltyInv (op.run a st).1 (op.run a st).2 (added + op.added a st) := by
  cases op with
  | apply r u => exact PenaltyInv_apply a st added r u h
  | clear => exact PenaltyInv_clear a st added h
  | clearIfExpired nowMs =>
    simp only [PenaltyOp.run, PenaltyOp.added]
    unfold ClearDamageScaleIfExpired
    split_ifs
    · exact PenaltyInv_clear a st added h
    · simpa using h
  | otherSystems x =>
    simp only [PenaltyOp.run, PenaltyOp.added, add_zero]
    refine ⟨h.1, fun c => ?_⟩
    obtain ⟨hd, hadd, act, avo, rfl, havo⟩ := h.2 c
    exact ⟨hd, hadd, _, avo.RestoreActorValue .kTemporary .kAttackDamageMult x, rfl,
      by simp [havo]⟩

theorem PenaltyInv_run (ops : List PenaltyOp) (a : Option Actor) (st : ActorState) (added : ℚ)
    (h : PenaltyInv a st added) :
    PenaltyInv (runPenaltyOps a st added ops).1 (runPenaltyOps a st added ops).2.1
      (runPenaltyOps a st added ops).2.2 := by
  induction ops generalizing a st added with
  | nil => exact h
  | cons op rest ih => exact ih _ _ _ (PenaltyInv_step op a st added h)

/-- C13 (penalties never stack): over every sequence of `ApplyDamageScale`,
`ClearDamageScale` and `ClearDamageScaleIfExpired` calls on one actor, starting from a fresh
actor state and whatever other systems do to the multiplier in between, the sum of all
deltas the module has added to the outgoing-damage multiplier is `dmgScaleDelta` when
`dmgScaleApplied` is true and 0 when it is false. -/
theorem penalties_never_stack (ops : List PenaltyOp) (a : Option Actor) :
    (runPenaltyOps a {} 0 ops).2.2 =
      (if (runPenaltyOps a {} 0 ops).2.1.dmgScaleApplied = true
        then (runPenaltyOps a {} 0 ops).2.1.dmgScaleDelta else 0) := by
  have h := PenaltyInv_run ops a {} 0 ⟨fun _ => rfl, fun c => absurd c (by decide)⟩
  split_ifs with hA
  · exact (h.2 hA).2.1
  · exact h.1 (by simpa using hA)

/-! ## Reconciliation in general -/

theorem reconcile_stamina (host : Host) (actor : Actor) (st : ActorState) (nowMs : Nat)
    (leftHand : Bool) (idx : Fin 2) (weap : Option TESObjectWEAP) (b c : ℚ) :
    staminaOf (some (ProcessEvent.reconcile host actor st nowMs leftHand idx weap b c).actor)
      = staminaOf (AdjustStaminaDamageLayer (some actor)
          (max 0 (GetSessionStartStamina st idx - c) - GetStamina (some actor))) := by
  unfold ProcessEvent.reconcile
  simp only []
  generalize (if c > eps6 then clamp (min (GetSessionStartStamina st idx) c / c) 0 1 else 0)
    = ratio
  obtain ⟨avoA, hA⟩ := AdjustStaminaDamageLayer_actor actor
    (max 0 (GetSessionStartStamina st idx - c) - GetStamina (some actor))
  rw [hA]
  simp only [Option.getD_some]
  by_cases hr : ratio + eps6 < 1
  · obtain ⟨avoB, hB⟩ := ApplyDamageScale_actor { actor with avo := avoA }
      (MarkSessionSpent st idx) ratio (add32 nowMs kDamagePenaltyWindowMs)
    have h1 := ApplyDamageScale_stamina (some { actor with avo := avoA })
      (MarkSessionSpent st idx) ratio (add32 nowMs kDamagePenaltyWindowMs)
    rw [if_pos hr, hB, Option.getD_some]
    rw [hB] at h1
    exact h1
  · rw [if_neg hr]; rfl

theorem AdjustStaminaDamageLayer_stamina (actor : Actor) (avo : ActorValueOwner) (delta : ℚ)
    (havo : actor.avo = some avo) :
    staminaOf (AdjustStaminaDamageLayer (some actor) delta)
      = some (if abs delta ≤ eps6 then avo.stamina else avo.stamina + delta) := by
  obtain ⟨fid, pl, avo1, eL, eR, cp⟩ := actor
  simp only at havo
  subst havo
  simp only [AdjustStaminaDamageLayer]
  split_ifs <;> rfl

/-- C17 (reconciliation in general), on the code: for a start snapshot `s` (always `≥ 0`), a
final cost `c > 0` and an actor whose accessor holds the stamina `v`, the level read at
spend time is `r = max 0 v` and `desired = max 0 (s - c)`.  When `|desired - r| ≤ 1e-6` the
level stays `r`; otherwise the delta `desired - r` is added to the held value and the level
read after the spend is `max 0 (v + (desired - r))`.  For `v ≥ 0` that is `desired`, and
the level after the spend is within `1e-6` of `desired`.  For `v < 0`, where the level read
is 0, it is `max 0 (desired + v)`, which is below `desired` whenever `desired > 1e-6`. -/
theorem reconcile_sets_desired_stamina (host : Host) (actor : Actor) (avo : ActorValueOwner)
    (st : ActorState) (nowMs : Nat) (leftHand : Bool) (idx : Fin 2)
    (weap : Option TESObjectWEAP) (b s c v : ℚ)
    (hs : GetSessionStartStamina st idx = s) (_hc : 0 < c)
    (havo : actor.avo = some avo) (hv : avo.GetActorValue .kStamina = v) :
    ∃ log,
      (ProcessEvent.reconcile host actor st nowMs leftHand idx weap b c).outcome = .spend log ∧
      0 ≤ s ∧ log.staminaNow = max 0 v ∧ log.desired = max 0 (s - c) ∧
      log.staminaAfter
        = GetStamina (some (ProcessEvent.reconcile host actor st nowMs leftHand idx weap b
            c).actor) ∧
      (abs (max 0 (s - c) - max 0 v) > eps6 →
        log.staminaAfter = max 0 (v + (max 0 (s - c) - max 0 v))) ∧
      (abs (max 0 (s - c) - max 0 v) ≤ eps6 → log.staminaAfter = max 0 v) ∧
      (0 ≤ v →
        (abs (max 0 (s - c) - v) > eps6 → log.staminaAfter = max 0 (s - c)) ∧
        (abs (max 0 (s - c) - v) ≤ eps6 → log.staminaAfter = v) ∧
        abs (log.staminaAfter - max 0 (s - c)) ≤ eps6) ∧
      (v < 0 → eps6 < max 0 (s - c) →
        log.staminaAfter = max 0 (max 0 (s - c) + v) ∧
        log.staminaAfter < max 0 (s - c)) := by
  have hv' : avo.stamina = v := hv
  have hnow : GetStamina (some actor) = max 0 v := by
    rw [GetStamina_eq_staminaOf]
    simp [staminaOf, havo, ActorValueOwner.GetActorValue, hv']
  have hd0 : (0 : ℚ) ≤ max 0 (s - c) := le_max_left _ _
  have hadjS := AdjustStaminaDamageLayer_stamina actor avo (max 0 (s - c) - max 0 v) havo
  rw [hv'] at hadjS
  have hfin : GetStamina (some (ProcessEvent.reconcile host actor st nowMs leftHand idx weap b
        c).actor)
      = (if abs (max 0 (s - c) - max 0 v) ≤ eps6 then max 0 v
          else max 0 (v + (max 0 (s - c) - max 0 v))) := by
    rw [GetStamina_eq_staminaOf, reconcile_stamina, hs, hnow, hadjS]
    split_ifs <;> simp
  obtain ⟨log, ho, -, -, hsn, -, -, hd, ha, -, -⟩ :=
    reconcile_outcome host actor st nowMs leftHand idx weap b c
  have hafter : log.staminaAfter
      = (if abs (max 0 (s - c) - max 0 v) ≤ eps6 then max 0 v
          else max 0 (v + (max 0 (s - c) - max 0 v))) := by
    obtain ⟨avoA, hA⟩ := AdjustStaminaDamageLayer_actor actor (max 0 (s - c) - max 0 v)
    rw [ha, hs, hnow, hA, Option.getD_some, ← hA, GetStamina_eq_staminaOf, hadjS]
    split_ifs <;> simp
  rw [hs] at hd
  refine ⟨log, ho, hs ▸ GetSessionStartStamina_nonneg st idx, hsn.trans hnow, hd,
    hafter.trans hfin.symm, ?_, ?_, ?_, ?_⟩
  · intro h
    rw [hafter, if_neg (not_le.mpr h)]
  · intro h
    rw [hafter, if_pos h]
  · intro h0
    have hm : max 0 v = v := max_eq_right h0
    rw [hm] at hafter
    refine ⟨?_, ?_, ?_⟩
    · intro h
      rw [hafter, if_neg (not_le.mpr h)]
      rw [show v + (max 0 (s - c) - v) = max 0 (s - c) by ring]
      exact max_eq_right hd0
    · intro h
      rw [hafter, if_pos h]
    · rw [hafter]
      split_ifs with h
      · rw [abs_sub_comm]; exact h
      · rw [show v + (max 0 (s - c) - v) = max 0 (s - c) by ring, max_eq_right hd0, sub_self,
          abs_zero]
        norm_num [eps6]
  · intro hneg hpos
    have hm : max 0 v = 0 := max_eq_left (le_of_lt hneg)
    rw [hm, sub_zero] at hafter
    have hne : ¬ abs (max 0 (s - c)) ≤ eps6 := by
      rw [abs_of_nonneg hd0]; exact not_le.mpr hpos
    rw [if_neg hne] at hafter
    have he : v + max 0 (s - c) = max 0 (s - c) + v := by ring
    rw [he] at hafter
    refine ⟨hafter, ?_⟩
    rw [hafter]
    have hp : 0 < max 0 (s - c) := lt_trans (by norm_num [eps6]) hpos
    exact max_lt hp (by linarith)

/-- Witness of C17: snapshot 100 and cost 30.  With the stamina 40 held by the accessor the
step leaves 70.  With the stamina -5 held by the accessor the level read is 0, the delta
is 70 and the step leaves 65, not 70. -/
theorem reconcile_sets_desired_stamina_witness :
    GetSessionStartStamina (armedRight 100) 1 = 100 ∧
    (∃ log,
      (ProcessEvent.reconcile plainHost (brawler 40) (armedRight 100) 1200 false 1 none 30
        30).outcome = .spend log ∧ log.staminaNow = max 0 40) ∧
    GetStamina (some (brawler (-5))) = 0 ∧
    GetStamina (some (ProcessEvent.reconcile plainHost (brawler 40) (armedRight 100) 1200 false
      1 none 30 30).actor) = 70 ∧
    GetStamina (some (ProcessEvent.reconcile plainHost (brawler (-5)) (armedRight 100) 1200
      false 1 none 30 30).actor) = 65 :=
  ⟨by decide!,
    (reconcile_sets_desired_stamina plainHost (brawler 40) ⟨40, 1⟩ (armedRight 100) 1200 false
      1 none 30 100 30 40 (by decide!) (by norm_num) rfl rfl).imp
      (fun _ h => ⟨h.1, h.2.2.1⟩),
    by decide!, by decide!, by decide!⟩

/-! ## Blocked-hit transfer -/

/-- C16 (blocked-hit transfer): for a blocked hit with a target and an aggressor, total damage
`d > 0` and target stamina `s > 0`: if `s ≥ d` the total damage becomes 0 and the stamina
is drained by `d`; if `s < d` the total damage becomes `d - s` and the stamina is drained
by `s`; in both cases the stamina drained plus the remaining total damage is `d`. -/
theorem ProcessHit_blocked_transfer (t g : Actor) (avo : ActorValueOwner) (hitData : HitData) (d s : ℚ)
    (hblocked : IsBlockedHit hitData = true) (hagg : hitData.aggressor = some g)
    (hd : hitData.totalDamage = d) (hd0 : 0 < d)
    (havo : t.avo = some avo) (hs : avo.GetActorValue .kStamina = s) (hs0 : 0 < s) :
    (s ≥ d →
      (ProcessHit (some t) hitData).2.totalDamage = 0 ∧
      staminaOf (ProcessHit (some t) hitData).1 = some (s - d)) ∧
    (s < d →
      (ProcessHit (some t) hitData).2.totalDamage = d - s ∧
      staminaOf (ProcessHit (some t) hitData).1 = some (s - s)) ∧
    (∃ after, staminaOf (ProcessHit (some t) hitData).1 = some after ∧
      (s - after) + (ProcessHit (some t) hitData).2.totalDamage = d) := by
  obtain ⟨fid, pl, avo1, eL, eR, cp⟩ := t
  simp only at havo
  subst havo
  obtain ⟨s0, m0⟩ := avo
  simp only [ActorValueOwner.GetActorValue] at hs
  subst hs
  have hge : d ≤ s0 →
      (ProcessHit (some ⟨fid, pl, some ⟨s0, m0⟩, eL, eR, cp⟩) hitData).2.totalDamage = 0 ∧
      staminaOf (ProcessHit (some ⟨fid, pl, some ⟨s0, m0⟩, eL, eR, cp⟩) hitData).1
        = some (s0 - d) := by
    intro h
    simp only [ProcessHit, hblocked, hagg, hd, Actor.GetActorValue, ActorValueOwner.GetActorValue,
      Bool.not_true, Bool.false_eq_true, if_false, not_le.mpr hd0, not_le.mpr hs0, mul_one,
      not_lt.mpr h, DamageAV, staminaOf, Option.bind, Option.map,
      ActorValueOwner.RestoreActorValue]
    exact ⟨trivial, by congr 1; ring⟩
  have hlt : s0 < d →
      (ProcessHit (some ⟨fid, pl, some ⟨s0, m0⟩, eL, eR, cp⟩) hitData).2.totalDamage = d - s0 ∧
      staminaOf (ProcessHit (some ⟨fid, pl, some ⟨s0, m0⟩, eL, eR, cp⟩) hitData).1
        = some (s0 - s0) := by
    intro h
    simp only [ProcessHit, hblocked, hagg, hd, Actor.GetActorValue, ActorValueOwner.GetActorValue,
      Bool.not_true, Bool.false_eq_true, if_false, not_le.mpr hd0, not_le.mpr hs0, mul_one,
      h, if_true, div_one, DamageAV, staminaOf, Option.bind, Option.map,
      ActorValueOwner.RestoreActorValue]
    exact ⟨trivial, by congr 1; ring⟩
  refine ⟨fun h => hge h, hlt, ?_⟩
  by_cases h : d ≤ s0
  · exact ⟨s0 - d, (hge h).2, by rw [(hge h).1]; ring⟩
  · exact ⟨s0 - s0, (hlt (not_le.mp h)).2, by rw [(hlt (not_le.mp h)).1]; ring⟩

/-- Witness of C16: a blocked hit of 30 on a target with stamina 100 costs 30 stamina and no
health. -/
theorem ProcessHit_blocked_transfer_witness :
    IsBlockedHit (blockedHit 30) = true ∧ (0 : ℚ) < 30 ∧ (0 : ℚ) < 100 ∧ (100 : ℚ) ≥ 30 ∧
    (ProcessHit (some (brawler 100)) (blockedHit 30)).2.totalDamage = 0 ∧
    staminaOf (ProcessHit (some (brawler 100)) (blockedHit 30)).1 = some (100 - 30) :=
  ⟨by decide, by norm_num, by norm_num, by norm_num,
    (ProcessHit_blocked_transfer (brawler 100) (brawler 50) ⟨100, 1⟩ (blockedHit 30) 30 100
      (by decide) rfl rfl (by norm_num) rfl rfl (by norm_num)).1 (by norm_num)⟩

/-! ## Hand resolver: spellings of the side markers, unarmed sound, pairing cache -/

/-- Counterexample to C18 as stated: `attackStartLEFT` contains the letters of `left` in upper
case, yet it is not resolved to the left hand: the resolver answers right with
`ambiguous = true`; so does the bare tag `LEFT`. -/
theorem side_marker_uppercase_not_recognised :
    ("LEFT".data <:+: "attackStartLEFT".data) ∧
    ResolveHandForTag none "attackStartLEFT" {} 1000 = ⟨false, true, false, {}⟩ ∧
    ResolveHandForTag none "LEFT" {} 1000 = ⟨false, true, false, {}⟩ := by
  refine ⟨⟨"attackStart".data, [], by decide⟩, by decide, by decide⟩

/-- C18 as amended (spellings of the side markers): a tag that contains `Left` or `left`
resolves to the left hand with `ambiguous = false`; a tag that contains `Right` or `right`
and neither `Left` nor `left` resolves to the right hand with `ambiguous = false`; a tag
that contains none of these four spellings (another casing such as `LEFT` included) is
never resolved unambiguously. -/
theorem ResolveHandForTag_marker_spellings (actor : Option Actor) (tag : String) (st : ActorState) (nowMs : Nat) :
    (("Left".data <:+: tag.data ∨ "left".data <:+: tag.data) →
      (ResolveHandForTag actor tag st nowMs).isLeft = true ∧
      (ResolveHandForTag actor tag st nowMs).outAmbiguous = false) ∧
    (("Right".data <:+: tag.data ∨ "right".data <:+: tag.data) →
      ¬ ("Left".data <:+: tag.data ∨ "left".data <:+: tag.data) →
      (ResolveHandForTag actor tag st nowMs).isLeft = false ∧
      (ResolveHandForTag actor tag st nowMs).outAmbiguous = false) ∧
    (¬ ("Left".data <:+: tag.data ∨ "left".data <:+: tag.data) →
      ¬ ("Right".data <:+: tag.data ∨ "right".data <:+: tag.data) →
      (ResolveHandForTag actor tag st nowMs).outAmbiguous = true) := by
  refine ⟨?_, ?_, ?_⟩
  · intro h
    rw [ResolveHandForTag_of_left tag ((TagHasLeft_iff tag).mpr h)]
    exact ⟨rfl, rfl⟩
  · intro h hn
    have hl : TagHasLeft tag = false := by
      rw [← Bool.not_eq_true]; exact fun c => hn ((TagHasLeft_iff tag).mp c)
    rw [ResolveHandForTag_of_right tag hl ((TagHasRight_iff tag).mpr h)]
    exact ⟨rfl, rfl⟩
  · intro hnl hnr
    have hl : TagHasLeft tag = false := by
      rw [← Bool.not_eq_true]; exact fun c => hnl ((TagHasLeft_iff tag).mp c)
    have hr : TagHasRight tag = false := by
      rw [← Bool.not_eq_true]; exact fun c => hnr ((TagHasRight_iff tag).mp c)
    have e1 : (tag == "weaponLeftSwing" || tag == "WeaponLeftSwing") = false := by
      rw [Bool.or_eq_false_iff]
      constructor
      · rw [beq_eq_false_iff_ne]; rintro rfl; exact absurd hl (by decide)
      · rw [beq_eq_false_iff_ne]; rintro rfl; exact absurd hl (by decide)
    have e2 : (tag == "weaponRightSwing" || tag == "WeaponRightSwing") = false := by
      rw [Bool.or_eq_false_iff]
      constructor
      · rw [beq_eq_false_iff_ne]; rintro rfl; exact absurd hr (by decide)
      · rw [beq_eq_false_iff_ne]; rintro rfl; exact absurd hr (by decide)
    unfold ResolveHandForTag
    simp only [hl, hr, e1, e2, Bool.false_eq_true, if_false]
    cases actor <;> simp only [] <;> split_ifs <;> rfl

/-- Witness of C18 as amended: `attackStartleft` resolves left, `attackStartRight` right, and
`attackStartLEFT` is ambiguous. -/
theorem ResolveHandForTag_marker_spellings_witness :
    ((ResolveHandForTag none "attackStartleft" rightHinted 5000).isLeft = true ∧
      (ResolveHandForTag none "attackStartleft" rightHinted 5000).outAmbiguous = false) ∧
    ((ResolveHandForTag none "attackStartRight" rightHinted 5000).isLeft = false ∧
      (ResolveHandForTag none "attackStartRight" rightHinted 5000).outAmbiguous = false) ∧
    (ResolveHandForTag none "attackStartLEFT" rightHinted 5000).outAmbiguous = true :=
  ⟨(ResolveHandForTag_marker_spellings none "attackStartleft" rightHinted 5000).1
      (Or.inr ⟨"attackStart".data, [], by decide⟩),
   (ResolveHandForTag_marker_spellings none "attackStartRight" rightHinted 5000).2.1
      (Or.inl ⟨"attackStart".data, [], by decide⟩) (by rw [← TagHasLeft_iff]; decide),
   (ResolveHandForTag_marker_spellings none "attackStartLEFT" rightHinted 5000).2.2
      (by rw [← TagHasLeft_iff]; decide) (by rw [← TagHasRight_iff]; decide)⟩

theorem hasWeapon_eq (a : Actor) (lh : Bool) :
    (((a.GetEquippedObject lh).bind TESForm.asWEAP).isSome &&
      IsMeleeWeapon ((a.GetEquippedObject lh).bind TESForm.asWEAP) &&
      !IsUnarmed ((a.GetEquippedObject lh).bind TESForm.asWEAP)) = holdsArmedMelee a lh := by
  unfold holdsArmedMelee
  cases h : (a.GetEquippedObject lh).bind TESForm.asWEAP with
  | none => simp
  | some w => simp [IsUnarmed]

/-- C19 (unarmed-sound resolution): for the tag `SoundPlay.WPNSwingUnarmed` and a non-null
actor, the resolver sets `ambiguous = true` and `treatAsUnarmed = true` and returns right if
only the left hand holds a melee implement that is not hand-to-hand, left if only the right
hand holds one, otherwise, if one of the two explicit-hand timestamps is at most 250 ms old,
left exactly when the left age is at most the right age, and otherwise right. -/
theorem ResolveHandForTag_unarmed_sound (a : Actor) (st : ActorState) (nowMs : Nat) :
    (ResolveHandForTag (some a) "SoundPlay.WPNSwingUnarmed" st nowMs).outAmbiguous = true ∧
    (ResolveHandForTag (some a) "SoundPlay.WPNSwingUnarmed" st nowMs).outTreatAsUnarmed = true ∧
    (ResolveHandForTag (some a) "SoundPlay.WPNSwingUnarmed" st nowMs).isLeft =
      (if holdsArmedMelee a true = true ∧ holdsArmedMelee a false = false then false
       else if holdsArmedMelee a false = true ∧ holdsArmedMelee a true = false then true
       else if sub32 nowMs (st.lastExplicitHandMs.get 0) ≤ 250 ∨
           sub32 nowMs (st.lastExplicitHandMs.get 1) ≤ 250 then
         decide (sub32 nowMs (st.lastExplicitHandMs.get 0)
           ≤ sub32 nowMs (st.lastExplicitHandMs.get 1))
       else false) := by
  have h1 : TagHasLeft "SoundPlay.WPNSwingUnarmed" = false := by decide
  have h2 : TagHasRight "SoundPlay.WPNSwingUnarmed" = false := by decide
  have h3 : IsUnarmedSwingSoundTag "SoundPlay.WPNSwingUnarmed" = true := by decide
  have h4 : ("SoundPlay.WPNSwingUnarmed" == "weaponLeftSwing" ||
      "SoundPlay.WPNSwingUnarmed" == "WeaponLeftSwing") = false := by decide
  have h5 : ("SoundPlay.WPNSwingUnarmed" == "weaponRightSwing" ||
      "SoundPlay.WPNSwingUnarmed" == "WeaponRightSwing") = false := by decide
  unfold ResolveHandForTag
  simp only [h1, h2, h3, h4, h5, Bool.false_eq_true, if_false, if_true, hasWeapon_eq,
    kExplicitHandWindowMs]
  by_cases hw : sub32 nowMs (st.lastExplicitHandMs.get 0) ≤ 250 ∨
      sub32 nowMs (st.lastExplicitHandMs.get 1) ≤ 250 <;>
    cases hL : holdsArmedMelee a true <;> cases hR : holdsArmedMelee a false <;>
    simp [hw]

/-- C20 (pairing cache carry-over): after the unarmed-sound tag was resolved at time `t` for a
non-null actor to side `X`, on every state that still holds that pairing cache (whatever
its explicit-hand timestamps), `weaponSwing` at time `t2 ≥ t` resolves to `X` with
`ambiguous = true` and `treatAsUnarmed = true` when `t2 - t ≤ 80`; when `t2 - t > 80` the
cache is not used: `treatAsUnarmed = false` and the side comes from the explicit-hand
recency. -/
theorem ResolveHandForTag_pairing_carry_over (a : Actor) (st st2 : ActorState) (t t2 : Nat)
    (ht : t ≤ t2) (ht2 : t2 < 2 ^ 32)
    (hms : st2.lastUnarmedSoundMs
      = (ResolveHandForTag (some a) "SoundPlay.WPNSwingUnarmed" st t).st.lastUnarmedSoundMs)
    (hvalid : st2.lastUnarmedHandValid
      = (ResolveHandForTag (some a) "SoundPlay.WPNSwingUnarmed" st t).st.lastUnarmedHandValid)
    (hleft : st2.lastUnarmedHandIsLeft
      = (ResolveHandForTag (some a) "SoundPlay.WPNSwingUnarmed" st t).st.lastUnarmedHandIsLeft) :
    (t2 - t ≤ 80 →
      ResolveHandForTag (some a) "weaponSwing" st2 t2 =
        ⟨(ResolveHandForTag (some a) "SoundPlay.WPNSwingUnarmed" st t).isLeft, true, true, st2⟩) ∧
    (t2 - t > 80 →
      (ResolveHandForTag (some a) "weaponSwing" st2 t2).outTreatAsUnarmed = false ∧
      (ResolveHandForTag (some a) "weaponSwing" st2 t2).outAmbiguous = true ∧
      (ResolveHandForTag (some a) "weaponSwing" st2 t2).isLeft =
        (decide (sub32 t2 (st2.lastExplicitHandMs.get 0) ≤ 250 ∨
            sub32 t2 (st2.lastExplicitHandMs.get 1) ≤ 250) &&
          decide (sub32 t2 (st2.lastExplicitHandMs.get 0)
            ≤ sub32 t2 (st2.lastExplicitHandMs.get 1)))) ∧
    (((ResolveHandForTag (some a) "weaponSwing" st2 t2).isLeft
          = (ResolveHandForTag (some a) "SoundPlay.WPNSwingUnarmed" st t).isLeft ∧
        (ResolveHandForTag (some a) "weaponSwing" st2 t2).outAmbiguous = true ∧
        (ResolveHandForTag (some a) "weaponSwing" st2 t2).outTreatAsUnarmed = true) ↔
      t2 - t ≤ 80) := by
  have h1 : TagHasLeft "SoundPlay.WPNSwingUnarmed" = false := by decide
  have h2 : TagHasRight "SoundPlay.WPNSwingUnarmed" = false := by decide
  have h3 : IsUnarmedSwingSoundTag "SoundPlay.WPNSwingUnarmed" = true := by decide
  have h4 : ("SoundPlay.WPNSwingUnarmed" == "weaponLeftSwing" ||
      "SoundPlay.WPNSwingUnarmed" == "WeaponLeftSwing") = false := by decide
  have h5 : ("SoundPlay.WPNSwingUnarmed" == "weaponRightSwing" ||
      "SoundPlay.WPNSwingUnarmed" == "WeaponRightSwing") = false := by decide
  have key : st2.lastUnarmedSoundMs = t ∧ st2.lastUnarmedHandValid = true ∧
      st2.lastUnarmedHandIsLeft
        = (ResolveHandForTag (some a) "SoundPlay.WPNSwingUnarmed" st t).isLeft := by
    rw [hms, hvalid, hleft]
    unfold ResolveHandForTag
    simp only [h1, h2, h3, h4, h5, Bool.false_eq_true, if_false, if_true]
    split_ifs <;> exact ⟨rfl, rfl, rfl⟩
  obtain ⟨k1, k2, k3⟩ := key
  generalize (ResolveHandForTag (some a) "SoundPlay.WPNSwingUnarmed" st t).isLeft = X at k3 ⊢
  have hsub : sub32 t2 t = t2 - t := sub32_of_le t2 t ht ht2
  have g1 : TagHasLeft "weaponSwing" = false := by decide
  have g2 : TagHasRight "weaponSwing" = false := by decide
  have g3 : IsUnarmedSwingSoundTag "weaponSwing" = false := by decide
  have g4 : ("weaponSwing" == "weaponLeftSwing" || "weaponSwing" == "WeaponLeftSwing") = false := by
    decide
  have g5 : ("weaponSwing" == "weaponRightSwing" || "weaponSwing" == "WeaponRightSwing")
      = false := by decide
  have g6 : IsWeaponSwingAmbiguous "weaponSwing" = true := by decide
  have hnear : t2 - t ≤ 80 → ResolveHandForTag (some a) "weaponSwing" st2 t2
      = ⟨X, true, true, st2⟩ := by
    intro h
    unfold ResolveHandForTag
    simp only [g1, g2, g3, g4, g5, g6, Bool.false_eq_true, if_false, if_true, k1, k2, k3, hsub,
      kUnarmedPairWindowMs, h, decide_True, Bool.and_self]
  have hfar : t2 - t > 80 →
      (ResolveHandForTag (some a) "weaponSwing" st2 t2).outTreatAsUnarmed = false ∧
      (ResolveHandForTag (some a) "weaponSwing" st2 t2).outAmbiguous = true ∧
      (ResolveHandForTag (some a) "weaponSwing" st2 t2).isLeft =
        (decide (sub32 t2 (st2.lastExplicitHandMs.get 0) ≤ 250 ∨
            sub32 t2 (st2.lastExplicitHandMs.get 1) ≤ 250) &&
          decide (sub32 t2 (st2.lastExplicitHandMs.get 0)
            ≤ sub32 t2 (st2.lastExplicitHandMs.get 1))) := by
    intro h
    have h' : ¬ (t2 - t ≤ 80) := not_le.mpr h
    unfold ResolveHandForTag
    simp only [g1, g2, g3, g4, g5, g6, Bool.false_eq_true, if_false, if_true, k1, k2, hsub,
      kUnarmedPairWindowMs, h', decide_False, Bool.and_false, kExplicitHandWindowMs]
    split_ifs with hw <;> simp [hw]
  refine ⟨hnear, hfar, ?_, ?_⟩
  · rintro ⟨-, -, hun⟩
    by_contra hc
    rw [(hfar (not_le.mp hc)).1] at hun
    exact Bool.noConfusion hun
  · intro h
    rw [hnear h]
    exact ⟨rfl, rfl, rfl⟩

/-- Witness of C20: the sound tag at 1000, the generic swing at 1050. -/
theorem ResolveHandForTag_pairing_carry_over_witness :
    (1000 : Nat) ≤ 1050 ∧ (1050 : Nat) < 2 ^ 32 ∧ (1050 - 1000 : Nat) ≤ 80 ∧
    ResolveHandForTag (some (fencer 100)) "weaponSwing"
        (ResolveHandForTag (some (fencer 100)) "SoundPlay.WPNSwingUnarmed" {} 1000).st 1050 =
      ⟨(ResolveHandForTag (some (fencer 100)) "SoundPlay.WPNSwingUnarmed" {} 1000).isLeft,
        true, true,
        (ResolveHandForTag (some (fencer 100)) "SoundPlay.WPNSwingUnarmed" {} 1000).st⟩ :=
  ⟨by decide, by decide, by decide,
    (ResolveHandForTag_pairing_carry_over (fencer 100) {}
      (ResolveHandForTag (some (fencer 100)) "SoundPlay.WPNSwingUnarmed" {} 1000).st
      1000 1050 (by decide) (by decide) rfl rfl rfl).1 (by decide)⟩

/-! ## Hand resolver: the generic swing tag and the tags without a side -/

theorem tag_eq_or_fallthrough (tag : String) (hl : TagHasLeft tag = false)
    (hr : TagHasRight tag = false) :
    (tag == "weaponLeftSwing" || tag == "WeaponLeftSwing") = false ∧
    (tag == "weaponRightSwing" || tag == "WeaponRightSwing") = false := by
  constructor
  · rw [Bool.or_eq_false_iff]
    constructor
    · rw [beq_eq_false_iff_ne]; rintro rfl; exact absurd hl (by decide)
    · rw [beq_eq_false_iff_ne]; rintro rfl; exact absurd hl (by decide)
  · rw [Bool.or_eq_false_iff]
    constructor
    · rw [beq_eq_false_iff_ne]; rintro rfl; exact absurd hr (by decide)
    · rw [beq_eq_false_iff_ne]; rintro rfl; exact absurd hr (by decide)

/-- Rule 4 of the resolver without a usable pairing cache, as one equation. -/
theorem ResolveHandForTag_generic_eq (actor : Option Actor) (tag : String) (st : ActorState)
    (nowMs : Nat) (htag : tag = "weaponSwing" ∨ tag = "WeaponSwing")
    (hcache : st.lastUnarmedHandValid = false ∨ sub32 nowMs st.lastUnarmedSoundMs > 80) :
    ResolveHandForTag actor tag st nowMs =
      ⟨decide ((sub32 nowMs (st.lastExplicitHandMs.get 0) ≤ 250 ∨
            sub32 nowMs (st.lastExplicitHandMs.get 1) ≤ 250) ∧
          sub32 nowMs (st.lastExplicitHandMs.get 0) ≤ sub32 nowMs (st.lastExplicitHandMs.get 1)),
        true, false, st⟩ := by
  have hc : (st.lastUnarmedHandValid &&
      decide (sub32 nowMs st.lastUnarmedSoundMs ≤ kUnarmedPairWindowMs)) = false := by
    rcases hcache with h | h
    · simp [h]
    · simp [kUnarmedPairWindowMs]; intro _; omega
  rcases htag with rfl | rfl
  · have g1 : TagHasLeft "weaponSwing" = false := by decide
    have g2 : TagHasRight "weaponSwing" = false := by decide
    have g3 : IsUnarmedSwingSoundTag "weaponSwing" = false := by decide
    have g6 : IsWeaponSwingAmbiguous "weaponSwing" = true := by decide
    obtain ⟨g4, g5⟩ := tag_eq_or_fallthrough "weaponSwing" g1 g2
    unfold ResolveHandForTag
    simp only [g1, g2, g3, g4, g5, g6, hc, Bool.false_eq_true, if_false, if_true,
      kExplicitHandWindowMs]
    split_ifs with hw <;> simp [hw]
  · have g1 : TagHasLeft "WeaponSwing" = false := by decide
    have g2 : TagHasRight "WeaponSwing" = false := by decide
    have g3 : IsUnarmedSwingSoundTag "WeaponSwing" = false := by decide
    have g6 : IsWeaponSwingAmbiguous "WeaponSwing" = true := by decide
    obtain ⟨g4, g5⟩ := tag_eq_or_fallthrough "WeaponSwing" g1 g2
    unfold ResolveHandForTag
    simp only [g1, g2, g3, g4, g5, g6, hc, Bool.false_eq_true, if_false, if_true,
      kExplicitHandWindowMs]
    split_ifs with hw <;> simp [hw]

/-- C21 (generic swing fallback): for the tags `weaponSwing` and `WeaponSwing`, when the
pairing cache is invalid or older than 80 ms, the resolver returns `ambiguous = true`,
`treatAsUnarmed = false` and the state unchanged, and it returns left exactly when one of
the two explicit-hand ages is at most 250 ms and the left age is at most the right age;
otherwise right.  The ages are the unsigned 32-bit differences of the source. -/
theorem ResolveHandForTag_generic_swing_fallback (actor : Option Actor) (tag : String)
    (st : ActorState) (nowMs : Nat) (htag : tag = "weaponSwing" ∨ tag = "WeaponSwing")
    (hcache : st.lastUnarmedHandValid = false ∨ sub32 nowMs st.lastUnarmedSoundMs > 80) :
    (ResolveHandForTag actor tag st nowMs).outAmbiguous = true ∧
    (ResolveHandForTag actor tag st nowMs).outTreatAsUnarmed = false ∧
    (ResolveHandForTag actor tag st nowMs).st = st ∧
    ((ResolveHandForTag actor tag st nowMs).isLeft = true ↔
      (sub32 nowMs (st.lastExplicitHandMs.get 0) ≤ 250 ∨
          sub32 nowMs (st.lastExplicitHandMs.get 1) ≤ 250) ∧
        sub32 nowMs (st.lastExplicitHandMs.get 0)
          ≤ sub32 nowMs (st.lastExplicitHandMs.get 1)) := by
  rw [ResolveHandForTag_generic_eq actor tag st nowMs htag hcache]
  exact ⟨rfl, rfl, rfl, by simp⟩

/-- Witness of C21: 100 ms after an unarmed sound and a right-hand tag, the pairing cache is
too old and `weaponSwing` is resolved by the recency of the right hand. -/
theorem ResolveHandForTag_generic_swing_fallback_witness :
    sub32 5100 rightHinted.lastUnarmedSoundMs > 80 ∧
    (ResolveHandForTag (some (brawler 100)) "weaponSwing" rightHinted 5100).outAmbiguous
      = true ∧
    (ResolveHandForTag (some (brawler 100)) "weaponSwing" rightHinted 5100).outTreatAsUnarmed
      = false ∧
    (ResolveHandForTag (some (brawler 100)) "weaponSwing" rightHinted 5100).st = rightHinted :=
  ⟨by decide,
    (ResolveHandForTag_generic_swing_fallback (some (brawler 100)) "weaponSwing" rightHinted
      5100 (Or.inl rfl) (Or.inr (by decide))).1,
    (ResolveHandForTag_generic_swing_fallback (some (brawler 100)) "weaponSwing" rightHinted
      5100 (Or.inl rfl) (Or.inr (by decide))).2.1,
    (ResolveHandForTag_generic_swing_fallback (some (brawler 100)) "weaponSwing" rightHinted
      5100 (Or.inl rfl) (Or.inr (by decide))).2.2.1⟩

/-- C22 (default to right without history), evaluated on the code: on a freshly created
state both explicit-hand timestamps are 0, and rule 4b reads them as events of time 0.
At the timestamp 100 the generic tag `weaponSwing` resolves to the left hand; in general
it resolves left exactly when the 32-bit timestamp is at most 250, and right after that. -/
theorem generic_swing_fresh_state_resolves_left :
    ResolveHandForTag (some (brawler 100)) "weaponSwing" {} 100 = ⟨true, true, false, {}⟩ ∧
    (∀ (actor : Option Actor) (nowMs : Nat),
      ResolveHandForTag actor "weaponSwing" {} nowMs
        = ⟨decide (nowMs % 2 ^ 32 ≤ 250), true, false, {}⟩) := by
  have hsub : ∀ n : Nat, sub32 n 0 = n % 2 ^ 32 := by
    intro n; unfold sub32; omega
  refine ⟨by decide, ?_⟩
  intro actor nowMs
  rw [ResolveHandForTag_generic_eq actor "weaponSwing" {} nowMs (Or.inl rfl) (Or.inl rfl)]
  simp [Array2.get, hsub]

/-- C23 (other tags default to right): a tag that contains none of `Left`, `left`, `Right`,
`right` and is neither `SoundPlay.WPNSwingUnarmed` nor `weaponSwing` / `WeaponSwing`
resolves, on every state, to the right hand with `ambiguous = true` and
`treatAsUnarmed = false`, and the state is left unchanged. -/
theorem ResolveHandForTag_other_tags_default_right (actor : Option Actor) (tag : String)
    (st : ActorState) (nowMs : Nat)
    (hl : ¬ ("Left".data <:+: tag.data ∨ "left".data <:+: tag.data))
    (hr : ¬ ("Right".data <:+: tag.data ∨ "right".data <:+: tag.data))
    (hu : tag ≠ "SoundPlay.WPNSwingUnarmed") (hs : tag ≠ "weaponSwing")
    (hS : tag ≠ "WeaponSwing") :
    ResolveHandForTag actor tag st nowMs = ⟨false, true, false, st⟩ := by
  have h1 : TagHasLeft tag = false := by
    rw [← Bool.not_eq_true]; exact fun c => hl ((TagHasLeft_iff tag).mp c)
  have h2 : TagHasRight tag = false := by
    rw [← Bool.not_eq_true]; exact fun c => hr ((TagHasRight_iff tag).mp c)
  obtain ⟨e1, e2⟩ := tag_eq_or_fallthrough tag h1 h2
  have h3 : IsUnarmedSwingSoundTag tag = false := by
    simp [IsUnarmedSwingSoundTag, hu]
  have h4 : IsWeaponSwingAmbiguous tag = false := by
    simp [IsWeaponSwingAmbiguous, hs, hS]
  unfold ResolveHandForTag
  simp only [h1, h2, e1, e2, h3, h4, Bool.false_eq_true, if_false]

/-- Witness of C23: the generic start tags `attackStart` and `AttackStart`, with the pairing
cache and the recency both set. -/
theorem ResolveHandForTag_other_tags_default_right_witness :
    ResolveHandForTag (some (brawler 100)) "attackStart" rightHinted 5010
      = ⟨false, true, false, rightHinted⟩ ∧
    ResolveHandForTag (some (brawler 100)) "AttackStart" rightHinted 5010
      = ⟨false, true, false, rightHinted⟩ :=
  ⟨ResolveHandForTag_other_tags_default_right (some (brawler 100)) "attackStart" rightHinted
      5010 (by rw [← TagHasLeft_iff]; decide) (by rw [← TagHasRight_iff]; decide)
      (by decide) (by decide) (by decide),
   ResolveHandForTag_other_tags_default_right (some (brawler 100)) "AttackStart" rightHinted
      5010 (by rw [← TagHasLeft_iff]; decide) (by rw [← TagHasRight_iff]; decide)
      (by decide) (by decide) (by decide)⟩

/-! ## Damage-scale penalty: installation and expiry -/

/-- What `ApplyDamageScale` does to an actor that has an accessor: the reversal of an active
penalty, then the installation of the new one when its delta is above the noise threshold. -/
theorem ApplyDamageScale_eq (act : Actor) (avo : ActorValueOwner) (st : ActorState)
    (ratio : ℚ) (untilMs : Nat) (havo : act.avo = some avo) :
    ∃ avo1, (ClearDamageScale (some act) st).1 = some { act with avo := some avo1 } ∧
      avo1.stamina = avo.stamina ∧
      avo1.attackDamageMult = avo.attackDamageMult +
        (if st.dmgScaleApplied = true ∧ abs st.dmgScaleDelta > eps6
          then -st.dmgScaleDelta else 0) ∧
      ApplyDamageScale (some act) st ratio untilMs =
        (if abs (avo1.attackDamageMult * clamp ratio 0 1 - avo1.attackDamageMult) > eps6 then
          (some { act with avo := some { avo1 with
              attackDamageMult := avo1.attackDamageMult * clamp ratio 0 1 } },
            { (ClearDamageScale (some act) st).2 with
              dmgScaleApplied := true
              dmgScaleUntilMs := untilMs
              dmgScaleDelta := avo1.attackDamageMult * clamp ratio 0 1 - avo1.attackDamageMult })
        else (some { act with avo := some avo1 }, (ClearDamageScale (some act) st).2)) := by
  obtain ⟨fid, pl, avo0, eL, eR, cp⟩ := act
  simp only at havo
  subst havo
  obtain ⟨s0, m0⟩ := avo
  cases hA : st.dmgScaleApplied with
  | false =>
    refine ⟨⟨s0, m0⟩, by simp [ClearDamageScale, hA], rfl, by simp, ?_⟩
    simp only [ApplyDamageScale, ClearDamageScale, hA, Bool.false_eq_true, if_false,
      Bool.not_false, if_true, Option.getD_some, ActorValueOwner.GetActorValue,
      ActorValueOwner.RestoreActorValue]
    split_ifs
    · congr 3; ring_nf
    · rfl
  | true =>
    by_cases hd : abs st.dmgScaleDelta > eps6
    · refine ⟨⟨s0, m0 + -st.dmgScaleDelta⟩,
        by simp [ClearDamageScale, hA, hd, ActorValueOwner.RestoreActorValue], rfl,
        by simp [hd], ?_⟩
      simp only [ApplyDamageScale, ClearDamageScale, hA, hd, Bool.false_eq_true, if_false,
        Bool.not_true, if_true, Option.getD_some, ActorValueOwner.GetActorValue,
        ActorValueOwner.RestoreActorValue]
      split_ifs
      · congr 3; ring_nf
      · rfl
    · refine ⟨⟨s0, m0⟩, by simp [ClearDamageScale, hA, hd], rfl, by simp [hd], ?_⟩
      simp only [ApplyDamageScale, ClearDamageScale, hA, hd, Bool.false_eq_true, if_false,
        Bool.not_true, if_true, Option.getD_some, ActorValueOwner.GetActorValue,
        ActorValueOwner.RestoreActorValue]
      split_ifs
      · congr 3; ring_nf
      · rfl


/-- C25 (penalty installation): `ApplyDamageScale` first reverses any active penalty; with
`r = clamp ratio 0 1` and `m1` the multiplier after that reversal (the current multiplier
minus the recorded delta when a penalty with a delta above the noise threshold was active,
the current multiplier otherwise), if `|m1 * r - m1| > 1e-6` the multiplier becomes
`m1 * r` and the state records `dmgScaleApplied = true`, `dmgScaleDelta = m1 * r - m1` and
`dmgScaleUntilMs = untilMs`; otherwise the multiplier stays `m1`, the state is the one the
reversal left and no penalty is recorded. -/
theorem ApplyDamageScale_installs_penalty (act : Actor) (avo : ActorValueOwner)
    (st : ActorState) (ratio : ℚ)
    (untilMs : Nat) (havo : act.avo = some avo) :
    ∃ m1,
      damageMultOf (ClearDamageScale (some act) st).1 = some m1 ∧
      m1 = avo.GetActorValue .kAttackDamageMult +
        (if st.dmgScaleApplied = true ∧ abs st.dmgScaleDelta > eps6
          then -st.dmgScaleDelta else 0) ∧
      (abs (m1 * clamp ratio 0 1 - m1) > eps6 →
        damageMultOf (ApplyDamageScale (some act) st ratio untilMs).1
          = some (m1 * clamp ratio 0 1) ∧
        (ApplyDamageScale (some act) st ratio untilMs).2.dmgScaleApplied = true ∧
        (ApplyDamageScale (some act) st ratio untilMs).2.dmgScaleDelta
          = m1 * clamp ratio 0 1 - m1 ∧
        (ApplyDamageScale (some act) st ratio untilMs).2.dmgScaleUntilMs = untilMs) ∧
      (¬ abs (m1 * clamp ratio 0 1 - m1) > eps6 →
        damageMultOf (ApplyDamageScale (some act) st ratio untilMs).1 = some m1 ∧
        (ApplyDamageScale (some act) st ratio untilMs).2 = (ClearDamageScale (some act) st).2 ∧
        (ApplyDamageScale (some act) st ratio untilMs).2.dmgScaleApplied = false) := by
  obtain ⟨avo1, hc, -, hm, hap⟩ := ApplyDamageScale_eq act avo st ratio untilMs havo
  refine ⟨avo1.attackDamageMult, ?_, hm, ?_, ?_⟩
  · rw [hc]; rfl
  · intro h
    rw [hap, if_pos h]
    exact ⟨rfl, rfl, rfl, rfl⟩
  · intro h
    rw [hap, if_neg h]
    refine ⟨rfl, rfl, ?_⟩
    unfold ClearDamageScale
    cases hA : st.dmgScaleApplied <;> simp [hA]
  
theorem ApplyDamageScale_installed (act : Actor) (st : ActorState) (ratio : ℚ) (u : Nat)
    (hst : st.dmgScaleApplied = false)
    (h : (ApplyDamageScale (some act) st ratio u).2.dmgScaleApplied = true) :
    (ApplyDamageScale (some act) st ratio u).2.dmgScaleUntilMs = u ∧
    abs (ApplyDamageScale (some act) st ratio u).2.dmgScaleDelta > eps6 ∧
    ∃ avo, (ApplyDamageScale (some act) st ratio u).1 = some { act with avo := some avo } := by
  cases havo : act.avo with
  | none =>
    have h0 : ApplyDamageScale (some act) st ratio u = (some act, st) := by
      simp [ApplyDamageScale, havo]
    rw [h0] at h
    simp [hst] at h
  | some avo =>
    obtain ⟨avo1, hc, -, -, hap⟩ := ApplyDamageScale_eq act avo st ratio u havo
    by_cases hd : abs (avo1.attackDamageMult * clamp ratio 0 1 - avo1.attackDamageMult) > eps6
    · rw [if_pos hd] at hap
      rw [hap]
      exact ⟨rfl, hd, _, rfl⟩
    · rw [if_neg hd] at hap
      rw [hap] at h
      simp [ClearDamageScale, hst] at h

theorem ClearDamageScaleIfExpired_boundary (act : Actor) (avo : ActorValueOwner)
    (st : ActorState) (nowMs : Nat) (havo : act.avo = some avo)
    (hA : st.dmgScaleApplied = true) (hd : abs st.dmgScaleDelta > eps6) :
    (st.dmgScaleUntilMs < nowMs →
      ClearDamageScaleIfExpired (some act) st nowMs =
        (some { act with avo := some { avo with
            attackDamageMult := avo.attackDamageMult - st.dmgScaleDelta } },
         { st with dmgScaleApplied := false, dmgScaleUntilMs := 0, dmgScaleDelta := 0 })) ∧
    (nowMs ≤ st.dmgScaleUntilMs →
      ClearDamageScaleIfExpired (some act) st nowMs = (some act, st)) := by
  constructor
  · intro hn
    simp only [ClearDamageScaleIfExpired, ClearDamageScale, hA, havo, hd, hn, gt_iff_lt,
      decide_True, Bool.and_self, if_true, Bool.not_true, Bool.false_eq_true, if_false,
      ActorValueOwner.RestoreActorValue, sub_eq_add_neg]
  · intro hn
    simp only [ClearDamageScaleIfExpired, hA, gt_iff_lt, not_lt.mpr hn, decide_False,
      Bool.and_false, Bool.false_eq_true, if_false]

theorem ClearDamageScale_inactive (a : Option Actor) (st : ActorState) :
    (ClearDamageScale a st).2.dmgScaleApplied = false := by
  unfold ClearDamageScale
  cases h : st.dmgScaleApplied <;> simp [h]

theorem reconcile_penalty (host : Host) (actor : Actor) (st : ActorState) (nowMs : Nat)
    (leftHand : Bool) (idx : Fin 2) (weap : Option TESObjectWEAP) (b c : ℚ)
    (hst : st.dmgScaleApplied = false)
    (h : (ProcessEvent.reconcile host actor st nowMs leftHand idx weap b c).st.dmgScaleApplied
      = true) :
    (ProcessEvent.reconcile host actor st nowMs leftHand idx weap b c).st.dmgScaleUntilMs
      = add32 nowMs kDamagePenaltyWindowMs ∧
    abs (ProcessEvent.reconcile host actor st nowMs leftHand idx weap b c).st.dmgScaleDelta
      > eps6 ∧
    ∃ avo, (ProcessEvent.reconcile host actor st nowMs leftHand idx weap b c).actor.avo
      = some avo := by
  unfold ProcessEvent.reconcile at h ⊢
  simp only [] at h ⊢
  generalize (if c > eps6 then clamp (min (GetSessionStartStamina st idx) c / c) 0 1 else 0)
    = ratio at h ⊢
  obtain ⟨avoA, hA⟩ := AdjustStaminaDamageLayer_actor actor
    (max 0 (GetSessionStartStamina st idx - c) - GetStamina (some actor))
  rw [hA] at h ⊢
  simp only [Option.getD_some] at h ⊢
  have hm : (MarkSessionSpent st idx).dmgScaleApplied = false := hst
  by_cases hr : ratio + eps6 < 1
  · rw [if_pos hr] at h ⊢
    obtain ⟨h1, h2, avo, h3⟩ := ApplyDamageScale_installed _ _ _ _ hm h
    refine ⟨h1, h2, avo, ?_⟩
    rw [h3]; rfl
  · rw [if_neg hr] at h
    rw [hm] at h
    exact absurd h (by decide)

theorem spend_penalty (host : Host) (actor : Actor) (st : ActorState) (nowMs : Nat)
    (leftHand treatAsUnarmed : Bool) (idx : Fin 2) (curWeap : Option TESObjectWEAP)
    (hout : (ProcessEvent.spend host actor st nowMs leftHand treatAsUnarmed idx
      curWeap).outcome.isCharge = true)
    (h : (ProcessEvent.spend host actor st nowMs leftHand treatAsUnarmed idx
      curWeap).st.dmgScaleApplied = true) :
    (ProcessEvent.spend host actor st nowMs leftHand treatAsUnarmed idx
      curWeap).st.dmgScaleUntilMs = add32 nowMs kDamagePenaltyWindowMs ∧
    abs (ProcessEvent.spend host actor st nowMs leftHand treatAsUnarmed idx
      curWeap).st.dmgScaleDelta > eps6 ∧
    ∃ avo, (ProcessEvent.spend host actor st nowMs leftHand treatAsUnarmed idx
      curWeap).actor.avo = some avo := by
  unfold ProcessEvent.spend at hout h ⊢
  simp only [] at hout h ⊢
  split_ifs at hout h ⊢
  all_goals first
    | exact reconcile_penalty _ _ _ _ _ _ _ _ _ (ClearDamageScale_inactive _ _) h
    | exact Bool.noConfusion hout

/-- C24 (penalty expiry boundary): when a spend at time `t` with `t + 200 < 2^32` has
installed a penalty, the state records `dmgScaleUntilMs = t + 200` and a delta above the
noise threshold; `ClearDamageScaleIfExpired` at a time `nowMs > t + 200` takes the delta
back from the multiplier and resets the three penalty fields, and at every
`nowMs ≤ t + 200`, the boundary `t + 200` included, it leaves the actor and the state as
they are. -/
theorem penalty_expiry_boundary (host : Host) (actor : Actor) (st : ActorState) (t : Nat)
    (leftHand treatAsUnarmed : Bool) (idx : Fin 2) (curWeap : Option TESObjectWEAP)
    (hout : (ProcessEvent.spend host actor st t leftHand treatAsUnarmed idx
      curWeap).outcome.isCharge = true)
    (hinst : (ProcessEvent.spend host actor st t leftHand treatAsUnarmed idx
      curWeap).st.dmgScaleApplied = true)
    (ht : t + 200 < 2 ^ 32) :
    (ProcessEvent.spend host actor st t leftHand treatAsUnarmed idx curWeap).st.dmgScaleUntilMs
      = t + 200 ∧
    abs (ProcessEvent.spend host actor st t leftHand treatAsUnarmed idx
      curWeap).st.dmgScaleDelta > eps6 ∧
    ∃ m, damageMultOf
        (some (ProcessEvent.spend host actor st t leftHand treatAsUnarmed idx curWeap).actor)
        = some m ∧
      ∀ nowMs : Nat,
        (t + 200 < nowMs →
          damageMultOf (ClearDamageScaleIfExpired
            (some (ProcessEvent.spend host actor st t leftHand treatAsUnarmed idx curWeap).actor)
            (ProcessEvent.spend host actor st t leftHand treatAsUnarmed idx curWeap).st nowMs).1
            = some (m - (ProcessEvent.spend host actor st t leftHand treatAsUnarmed idx
                curWeap).st.dmgScaleDelta) ∧
          (ClearDamageScaleIfExpired
            (some (ProcessEvent.spend host actor st t leftHand treatAsUnarmed idx curWeap).actor)
            (ProcessEvent.spend host actor st t leftHand treatAsUnarmed idx curWeap).st nowMs).2
            = { (ProcessEvent.spend host actor st t leftHand treatAsUnarmed idx curWeap).st with
                dmgScaleApplied := false, dmgScaleUntilMs := 0, dmgScaleDelta := 0 }) ∧
        (nowMs ≤ t + 200 →
          ClearDamageScaleIfExpired
            (some (ProcessEvent.spend host actor st t leftHand treatAsUnarmed idx curWeap).actor)
            (ProcessEvent.spend host actor st t leftHand treatAsUnarmed idx curWeap).st nowMs
            = (some (ProcessEvent.spend host actor st t leftHand treatAsUnarmed idx
                curWeap).actor,
               (ProcessEvent.spend host actor st t leftHand treatAsUnarmed idx curWeap).st)) := by
  obtain ⟨hu, hd, avo, havo⟩ :=
    spend_penalty host actor st t leftHand treatAsUnarmed idx curWeap hout hinst
  have hadd : add32 t kDamagePenaltyWindowMs = t + 200 := by
    unfold add32 kDamagePenaltyWindowMs
    exact Nat.mod_eq_of_lt ht
  rw [hadd] at hu
  generalize ProcessEvent.spend host actor st t leftHand treatAsUnarmed idx curWeap = r
    at hu hd havo hinst ⊢
  refine ⟨hu, hd, avo.attackDamageMult, ?_, ?_⟩
  · simp [damageMultOf, havo, ActorValueOwner.GetActorValue]
  · intro nowMs
    obtain ⟨h1, h2⟩ := ClearDamageScaleIfExpired_boundary r.actor avo r.st nowMs havo hinst hd
    rw [hu] at h1 h2
    constructor
    · intro hn
      rw [h1 hn]
      exact ⟨rfl, rfl⟩
    · intro hn
      exact h2 hn

/-- Witness of C24: a fencer whose session holds a snapshot of 10 swings a sword that costs
30 at time 1200; the penalty installed runs until 1400. -/
theorem penalty_expiry_boundary_witness :
    (ProcessEvent.spend plainHost (fencer 10) (armedRight 10) 1200 false false 1
      (some longsword)).st.dmgScaleApplied = true ∧
    (ProcessEvent.spend plainHost (fencer 10) (armedRight 10) 1200 false false 1
      (some longsword)).st.dmgScaleUntilMs = 1200 + 200 :=
  ⟨by decide!,
    (penalty_expiry_boundary plainHost (fencer 10) (armedRight 10) 1200 false false 1
      (some longsword) (by decide!) (by decide!) (by norm_num)).1⟩

/-- Witness of C25: on an actor whose multiplier 1/4 carries an active penalty of delta -3/4,
the reversal gives 1, and the ratio 1/2 installs the multiplier 1/2 with delta -1/2. -/
theorem ApplyDamageScale_installs_penalty_witness :
    (∃ m1, damageMultOf (ClearDamageScale (some (scaledBrawler 50 (1 / 4))) penalised).1
      = some m1) ∧
    damageMultOf (ClearDamageScale (some (scaledBrawler 50 (1 / 4))) penalised).1 = some 1 ∧
    damageMultOf (ApplyDamageScale (some (scaledBrawler 50 (1 / 4))) penalised (1 / 2) 2000).1
      = some (1 / 2) ∧
    (ApplyDamageScale (some (scaledBrawler 50 (1 / 4))) penalised (1 / 2) 2000).2.dmgScaleDelta
      = -1 / 2 :=
  ⟨(ApplyDamageScale_installs_penalty (scaledBrawler 50 (1 / 4))
      { stamina := 50, attackDamageMult := 1 / 4 } penalised (1 / 2) 2000 rfl).imp
      (fun _ h => h.1),
    by decide!, by decide!, by decide!⟩

/-! ## Dispatcher: what every event does first, and what tags without a session leave -/

theorem ResolveHandForTag_frame (a : Option Actor) (tag : String) (st : ActorState)
    (nowMs : Nat) :
    (ResolveHandForTag a tag st nowMs).st.session = st.session ∧
    (ResolveHandForTag a tag st nowMs).st.lastExplicitHandMs = st.lastExplicitHandMs ∧
    (ResolveHandForTag a tag st nowMs).st.dmgScaleApplied = st.dmgScaleApplied ∧
    (ResolveHandForTag a tag st nowMs).st.dmgScaleUntilMs = st.dmgScaleUntilMs ∧
    (ResolveHandForTag a tag st nowMs).st.dmgScaleDelta = st.dmgScaleDelta := by
  unfold ResolveHandForTag
  cases a with
  | none => simp only []; split_ifs <;> exact ⟨rfl, rfl, rfl, rfl, rfl⟩
  | some act => simp only []; split_ifs <;> exact ⟨rfl, rfl, rfl, rfl, rfl⟩

theorem LogAllPlayerTagsIfEnabled_frame (host : Host) (actor : Option Actor) (tag : String)
    (st : ActorState) (nowMs : Nat) :
    (LogAllPlayerTagsIfEnabled host actor tag st nowMs).lastExplicitHandMs
      = st.lastExplicitHandMs ∧
    (LogAllPlayerTagsIfEnabled host actor tag st nowMs).dmgScaleApplied = st.dmgScaleApplied ∧
    (LogAllPlayerTagsIfEnabled host actor tag st nowMs).dmgScaleUntilMs = st.dmgScaleUntilMs ∧
    (LogAllPlayerTagsIfEnabled host actor tag st nowMs).dmgScaleDelta = st.dmgScaleDelta := by
  unfold LogAllPlayerTagsIfEnabled
  cases actor with
  | none => simp
  | some a => simp only []; split_ifs <;> exact ⟨rfl, rfl, rfl, rfl⟩

theorem NoteExplicitHandIfAny_penalty (tag : String) (st : ActorState) (nowMs : Nat) :
    (NoteExplicitHandIfAny tag st nowMs).dmgScaleApplied = st.dmgScaleApplied ∧
    (NoteExplicitHandIfAny tag st nowMs).dmgScaleUntilMs = st.dmgScaleUntilMs ∧
    (NoteExplicitHandIfAny tag st nowMs).dmgScaleDelta = st.dmgScaleDelta := by
  unfold NoteExplicitHandIfAny
  split_ifs <;> exact ⟨rfl, rfl, rfl⟩

theorem NoteExplicitHandIfAny_eq (tag : String) (st : ActorState) (nowMs : Nat) :
    (NoteExplicitHandIfAny tag st nowMs).lastExplicitHandMs
      = if TagHasLeft tag = true then st.lastExplicitHandMs.set 0 nowMs
        else if TagHasRight tag = true then st.lastExplicitHandMs.set 1 nowMs
        else st.lastExplicitHandMs := by
  unfold NoteExplicitHandIfAny
  by_cases hl : TagHasLeft tag = true
  · simp [hl]
  · have hl0 : TagHasLeft tag = false := by simpa using hl
    have e1 : (tag == "weaponLeftSwing") = false := by
      rw [beq_eq_false_iff_ne]; rintro rfl; exact absurd hl0 (by decide)
    have e2 : (tag == "WeaponLeftSwing") = false := by
      rw [beq_eq_false_iff_ne]; rintro rfl; exact absurd hl0 (by decide)
    by_cases hr : TagHasRight tag = true
    · simp [hl0, e1, e2, hr]
    · have hr0 : TagHasRight tag = false := by simpa using hr
      have e3 : (tag == "weaponRightSwing") = false := by
        rw [beq_eq_false_iff_ne]; rintro rfl; exact absurd hr0 (by decide)
      have e4 : (tag == "WeaponRightSwing") = false := by
        rw [beq_eq_false_iff_ne]; rintro rfl; exact absurd hr0 (by decide)
      simp [hl0, e1, e2, hr0, e3, e4]

theorem ClearDamageScale_explicit (a : Option Actor) (st : ActorState) :
    (ClearDamageScale a st).2.lastExplicitHandMs = st.lastExplicitHandMs := by
  unfold ClearDamageScale
  split_ifs <;> rfl

theorem ClearDamageScaleIfExpired_explicit (a : Option Actor) (st : ActorState) (nowMs : Nat) :
    (ClearDamageScaleIfExpired a st nowMs).2.lastExplicitHandMs = st.lastExplicitHandMs := by
  unfold ClearDamageScaleIfExpired
  split_ifs
  · exact ClearDamageScale_explicit a st
  · rfl

theorem ApplyDamageScale_explicit (a : Option Actor) (st : ActorState) (scale01 : ℚ)
    (untilMs : Nat) :
    (ApplyDamageScale a st scale01 untilMs).2.lastExplicitHandMs = st.lastExplicitHandMs := by
  unfold ApplyDamageScale
  cases a with
  | none => rfl
  | some act =>
    simp only []
    cases h : act.avo with
    | none => rfl
    | some o =>
      simp only []
      have hc : (if st.dmgScaleApplied = true then ClearDamageScale (some act) st
          else (some act, st)).2.lastExplicitHandMs = st.lastExplicitHandMs := by
        split_ifs
        · exact ClearDamageScale_explicit _ _
        · rfl
      generalize (if st.dmgScaleApplied = true then ClearDamageScale (some act) st
          else (some act, st)) = c at hc ⊢
      cases hh : (c.1.getD act).avo with
      | none => exact hc
      | some o1 =>
        simp only []
        split_ifs
        · exact hc
        · exact hc

theorem BeginOrRefreshSession_explicit (st : ActorState) (i : Fin 2) (nowMs : Nat) (v : ℚ)
    (w : Option TESObjectWEAP) :
    (BeginOrRefreshSession st i nowMs v w).lastExplicitHandMs = st.lastExplicitHandMs := by
  unfold BeginOrRefreshSession
  simp only []
  split_ifs <;> rfl

theorem CanSpendInSession_explicit (st : ActorState) (i : Fin 2) (nowMs : Nat) (v : ℚ)
    (w : Option TESObjectWEAP) :
    (CanSpendInSession st i nowMs v w).2.lastExplicitHandMs = st.lastExplicitHandMs := by
  unfold CanSpendInSession
  simp only []
  split_ifs <;> rfl

theorem reconcile_explicit (host : Host) (actor : Actor) (st : ActorState) (nowMs : Nat)
    (leftHand : Bool) (idx : Fin 2) (weap : Option TESObjectWEAP) (b c : ℚ) :
    (ProcessEvent.reconcile host actor st nowMs leftHand idx weap b c).st.lastExplicitHandMs
      = st.lastExplicitHandMs := by
  unfold ProcessEvent.reconcile
  simp only []
  generalize (if c > eps6 then clamp (min (GetSessionStartStamina st idx) c / c) 0 1 else 0)
    = ratio
  by_cases hr : ratio + eps6 < 1
  · rw [if_pos hr, ApplyDamageScale_explicit]; rfl
  · rw [if_neg hr]; rfl

theorem spend_explicit (host : Host) (actor : Actor) (st : ActorState) (nowMs : Nat)
    (leftHand treatAsUnarmed : Bool) (idx : Fin 2) (curWeap : Option TESObjectWEAP) :
    (ProcessEvent.spend host actor st nowMs leftHand treatAsUnarmed idx
      curWeap).st.lastExplicitHandMs = st.lastExplicitHandMs := by
  unfold ProcessEvent.spend
  simp only []
  split_ifs
  all_goals first
    | exact CanSpendInSession_explicit _ _ _ _ _
    | (rw [reconcile_explicit, ClearDamageScale_explicit, CanSpendInSession_explicit])
    | (show (ClearDamageScale _ _).2.lastExplicitHandMs = _
       rw [ClearDamageScale_explicit, CanSpendInSession_explicit])

theorem body_explicit (host : Host) (actor : Actor) (tag : String) (nowMs : Nat)
    (st : ActorState) :
    (ProcessEvent.body host actor tag nowMs st).st.lastExplicitHandMs
      = if TagHasLeft tag = true then st.lastExplicitHandMs.set 0 nowMs
        else if TagHasRight tag = true then st.lastExplicitHandMs.set 1 nowMs
        else st.lastExplicitHandMs := by
  have hpre : (ClearDamageScaleIfExpired (some actor)
        (NoteExplicitHandIfAny tag (LogAllPlayerTagsIfEnabled host (some actor) tag st nowMs)
          nowMs) nowMs).2.lastExplicitHandMs
      = if TagHasLeft tag = true then st.lastExplicitHandMs.set 0 nowMs
        else if TagHasRight tag = true then st.lastExplicitHandMs.set 1 nowMs
        else st.lastExplicitHandMs := by
    rw [ClearDamageScaleIfExpired_explicit, NoteExplicitHandIfAny_eq,
      (LogAllPlayerTagsIfEnabled_frame host (some actor) tag st nowMs).1]
  rw [← hpre]
  unfold ProcessEvent.body
  simp only []
  by_cases hU : IsUnarmedSwingSoundTag tag = true
  · rw [if_pos hU]
    exact (ResolveHandForTag_frame _ _ _ _).2.1
  · rw [if_neg hU]
    by_cases hN : (!IsAttackStartTag tag && !IsSpendTag tag) = true
    · rw [if_pos hN]
    · rw [if_neg hN]
      by_cases hS : IsAttackStartTag tag = true
      · rw [if_pos hS]
        show (BeginOrRefreshSession _ _ _ _ _).lastExplicitHandMs = _
        rw [BeginOrRefreshSession_explicit]; exact (ResolveHandForTag_frame _ _ _ _).2.1
      · rw [if_neg hS, spend_explicit]; exact (ResolveHandForTag_frame _ _ _ _).2.1

theorem LogAllPlayerTagsIfEnabled_cleared (host : Host) (a b : Actor) (tag : String)
    (st : ActorState) (nowMs : Nat) (hp : b.isPlayerRef = a.isPlayerRef) :
    LogAllPlayerTagsIfEnabled host (some b) tag
        { st with dmgScaleApplied := false, dmgScaleUntilMs := 0, dmgScaleDelta := 0 } nowMs
      = { LogAllPlayerTagsIfEnabled host (some a) tag st nowMs with
          dmgScaleApplied := false, dmgScaleUntilMs := 0, dmgScaleDelta := 0 } := by
  unfold LogAllPlayerTagsIfEnabled
  simp only [hp]
  split_ifs <;> rfl

theorem NoteExplicitHandIfAny_cleared (tag : String) (st : ActorState) (nowMs : Nat) :
    NoteExplicitHandIfAny tag
        { st with dmgScaleApplied := false, dmgScaleUntilMs := 0, dmgScaleDelta := 0 } nowMs
      = { NoteExplicitHandIfAny tag st nowMs with
          dmgScaleApplied := false, dmgScaleUntilMs := 0, dmgScaleDelta := 0 } := by
  unfold NoteExplicitHandIfAny
  split_ifs <;> rfl

theorem ClearDamageScale_of_applied (a : Option Actor) (st : ActorState)
    (hA : st.dmgScaleApplied = true) :
    (ClearDamageScale a st).2
      = { st with dmgScaleApplied := false, dmgScaleUntilMs := 0, dmgScaleDelta := 0 } := by
  unfold ClearDamageScale
  simp [hA]

theorem ClearDamageScale_fst_congr (a : Option Actor) (st st2 : ActorState)
    (hA : st2.dmgScaleApplied = st.dmgScaleApplied) (hD : st2.dmgScaleDelta = st.dmgScaleDelta) :
    (ClearDamageScale a st2).1 = (ClearDamageScale a st).1 := by
  unfold ClearDamageScale
  rw [hA, hD]
  split_ifs <;> rfl

theorem prelude_clears_first (host : Host) (actor : Actor) (tag : String) (nowMs : Nat)
    (st : ActorState) (hA : st.dmgScaleApplied = true) (hE : st.dmgScaleUntilMs < nowMs) :
    ClearDamageScaleIfExpired (some actor)
        (NoteExplicitHandIfAny tag (LogAllPlayerTagsIfEnabled host (some actor) tag st nowMs)
          nowMs) nowMs
      = (some ((ClearDamageScale (some actor) st).1.getD actor),
         { NoteExplicitHandIfAny tag (LogAllPlayerTagsIfEnabled host (some actor) tag st nowMs)
            nowMs with dmgScaleApplied := false, dmgScaleUntilMs := 0, dmgScaleDelta := 0 }) ∧
    ClearDamageScaleIfExpired (some ((ClearDamageScale (some actor) st).1.getD actor))
        (NoteExplicitHandIfAny tag (LogAllPlayerTagsIfEnabled host
          (some ((ClearDamageScale (some actor) st).1.getD actor)) tag
          (ClearDamageScale (some actor) st).2 nowMs) nowMs) nowMs
      = (some ((ClearDamageScale (some actor) st).1.getD actor),
         { NoteExplicitHandIfAny tag (LogAllPlayerTagsIfEnabled host (some actor) tag st nowMs)
            nowMs with dmgScaleApplied := false, dmgScaleUntilMs := 0, dmgScaleDelta := 0 }) := by
  obtain ⟨l1, l2, l3, l4⟩ := LogAllPlayerTagsIfEnabled_frame host (some actor) tag st nowMs
  obtain ⟨n1, n2, n3⟩ := NoteExplicitHandIfAny_penalty tag
    (LogAllPlayerTagsIfEnabled host (some actor) tag st nowMs) nowMs
  obtain ⟨avo1, h1⟩ := ClearDamageScale_actor actor st
  constructor
  · have hA2 : (NoteExplicitHandIfAny tag (LogAllPlayerTagsIfEnabled host (some actor) tag st
        nowMs) nowMs).dmgScaleApplied = true := by rw [n1, l2, hA]
    have hU2 : (NoteExplicitHandIfAny tag (LogAllPlayerTagsIfEnabled host (some actor) tag st
        nowMs) nowMs).dmgScaleUntilMs < nowMs := by rw [n2, l3]; exact hE
    have hc : ClearDamageScaleIfExpired (some actor)
        (NoteExplicitHandIfAny tag (LogAllPlayerTagsIfEnabled host (some actor) tag st nowMs)
          nowMs) nowMs = ClearDamageScale (some actor)
        (NoteExplicitHandIfAny tag (LogAllPlayerTagsIfEnabled host (some actor) tag st nowMs)
          nowMs) := by
      unfold ClearDamageScaleIfExpired
      rw [if_pos]
      simp [hA2, hU2]
    rw [hc]
    refine Prod.ext ?_ ?_
    · rw [ClearDamageScale_fst_congr (some actor) st _ (by rw [n1, l2]) (by rw [n3, l4]), h1]
      rfl
    · exact ClearDamageScale_of_applied _ _ hA2
  · rw [ClearDamageScale_of_applied _ _ hA, h1, Option.getD_some,
      LogAllPlayerTagsIfEnabled_cleared host actor { actor with avo := avo1 } tag st nowMs rfl,
      NoteExplicitHandIfAny_cleared]
    unfold ClearDamageScaleIfExpired
    rw [if_neg]
    simp

theorem body_clears_expired_first (host : Host) (actor : Actor) (tag : String) (nowMs : Nat)
    (st : ActorState) (hA : st.dmgScaleApplied = true) (hE : st.dmgScaleUntilMs < nowMs) :
    ProcessEvent.body host actor tag nowMs st
      = ProcessEvent.body host ((ClearDamageScale (some actor) st).1.getD actor) tag nowMs
          (ClearDamageScale (some actor) st).2 := by
  obtain ⟨p1, p2⟩ := prelude_clears_first host actor tag nowMs st hA hE
  unfold ProcessEvent.body
  simp only [p1, p2, Option.getD_some]

theorem StateMap.lookup_insert_other (m : StateMap) (id k : Nat) (st : ActorState)
    (h : k ≠ id) : (m.insert id st).lookup k = m.lookup k := by
  simp [StateMap.lookup, StateMap.insert, h]

theorem StateMap.insert_insert (m : StateMap) (id : Nat) (a b : ActorState) :
    (m.insert id a).insert id b = m.insert id b := by
  funext k
  simp only [StateMap.insert]
  split_ifs <;> rfl

theorem body_session_of_not_start_spend (host : Host) (actor : Actor) (tag : String)
    (nowMs : Nat) (st : ActorState) (hS : IsAttackStartTag tag = false)
    (hP : IsSpendTag tag = false) :
    (ProcessEvent.body host actor tag nowMs st).st.session = st.session := by
  rw [← (prelude_frame host actor tag nowMs st).2]
  unfold ProcessEvent.body
  simp only []
  by_cases hU : IsUnarmedSwingSoundTag tag = true
  · rw [if_pos hU]
    exact (ResolveHandForTag_frame _ _ _ _).1
  · rw [if_neg hU, if_pos (by simp [hS, hP])]

theorem ClearDamageScaleIfExpired_penalty (a : Option Actor) (st : ActorState) (nowMs : Nat) :
    (st.dmgScaleApplied = true ∧ st.dmgScaleUntilMs < nowMs →
      (ClearDamageScaleIfExpired a st nowMs).2.dmgScaleApplied = false ∧
      (ClearDamageScaleIfExpired a st nowMs).2.dmgScaleUntilMs = 0 ∧
      (ClearDamageScaleIfExpired a st nowMs).2.dmgScaleDelta = 0) ∧
    (¬ (st.dmgScaleApplied = true ∧ st.dmgScaleUntilMs < nowMs) →
      (ClearDamageScaleIfExpired a st nowMs).2 = st) := by
  constructor
  · rintro ⟨hA, hE⟩
    have hc : ClearDamageScaleIfExpired a st nowMs = ClearDamageScale a st := by
      unfold ClearDamageScaleIfExpired
      rw [if_pos]
      simp [hA, hE]
    rw [hc, ClearDamageScale_of_applied a st hA]
    exact ⟨rfl, rfl, rfl⟩
  · intro h
    unfold ClearDamageScaleIfExpired
    rw [if_neg]
    simpa using h

theorem body_unarmed_sound_penalty (host : Host) (actor : Actor) (nowMs : Nat)
    (st : ActorState) :
    (st.dmgScaleApplied = true ∧ st.dmgScaleUntilMs < nowMs →
      (ProcessEvent.body host actor "SoundPlay.WPNSwingUnarmed" nowMs st).st.dmgScaleApplied
        = false ∧
      (ProcessEvent.body host actor "SoundPlay.WPNSwingUnarmed" nowMs st).st.dmgScaleUntilMs
        = 0 ∧
      (ProcessEvent.body host actor "SoundPlay.WPNSwingUnarmed" nowMs st).st.dmgScaleDelta
        = 0) ∧
    (¬ (st.dmgScaleApplied = true ∧ st.dmgScaleUntilMs < nowMs) →
      (ProcessEvent.body host actor "SoundPlay.WPNSwingUnarmed" nowMs st).st.dmgScaleApplied
        = st.dmgScaleApplied ∧
      (ProcessEvent.body host actor "SoundPlay.WPNSwingUnarmed" nowMs st).st.dmgScaleUntilMs
        = st.dmgScaleUntilMs ∧
      (ProcessEvent.body host actor "SoundPlay.WPNSwingUnarmed" nowMs st).st.dmgScaleDelta
        = st.dmgScaleDelta ∧
      (ProcessEvent.body host actor "SoundPlay.WPNSwingUnarmed" nowMs st).actor = actor) := by
  obtain ⟨-, l2, l3, l4⟩ :=
    LogAllPlayerTagsIfEnabled_frame host (some actor) "SoundPlay.WPNSwingUnarmed" st nowMs
  obtain ⟨n1, n2, n3⟩ := NoteExplicitHandIfAny_penalty "SoundPlay.WPNSwingUnarmed"
    (LogAllPlayerTagsIfEnabled host (some actor) "SoundPlay.WPNSwingUnarmed" st nowMs) nowMs
  obtain ⟨c1, c2⟩ := ClearDamageScaleIfExpired_penalty (some actor)
    (NoteExplicitHandIfAny "SoundPlay.WPNSwingUnarmed"
      (LogAllPlayerTagsIfEnabled host (some actor) "SoundPlay.WPNSwingUnarmed" st nowMs) nowMs)
    nowMs
  rw [n1, n2, l2, l3] at c1 c2
  have hU : IsUnarmedSwingSoundTag "SoundPlay.WPNSwingUnarmed" = true := by decide
  have hb : (ProcessEvent.body host actor "SoundPlay.WPNSwingUnarmed" nowMs st).st
      = (ResolveHandForTag
          (some ((ClearDamageScaleIfExpired (some actor)
            (NoteExplicitHandIfAny "SoundPlay.WPNSwingUnarmed"
              (LogAllPlayerTagsIfEnabled host (some actor) "SoundPlay.WPNSwingUnarmed" st nowMs)
              nowMs) nowMs).1.getD actor)) "SoundPlay.WPNSwingUnarmed"
          (ClearDamageScaleIfExpired (some actor)
            (NoteExplicitHandIfAny "SoundPlay.WPNSwingUnarmed"
              (LogAllPlayerTagsIfEnabled host (some actor) "SoundPlay.WPNSwingUnarmed" st nowMs)
              nowMs) nowMs).2 nowMs).st := by
    unfold ProcessEvent.body
    simp only [hU, if_true]
  obtain ⟨-, -, r3, r4, r5⟩ := ResolveHandForTag_frame
    (some ((ClearDamageScaleIfExpired (some actor)
      (NoteExplicitHandIfAny "SoundPlay.WPNSwingUnarmed"
        (LogAllPlayerTagsIfEnabled host (some actor) "SoundPlay.WPNSwingUnarmed" st nowMs)
        nowMs) nowMs).1.getD actor)) "SoundPlay.WPNSwingUnarmed"
    (ClearDamageScaleIfExpired (some actor)
      (NoteExplicitHandIfAny "SoundPlay.WPNSwingUnarmed"
        (LogAllPlayerTagsIfEnabled host (some actor) "SoundPlay.WPNSwingUnarmed" st nowMs)
        nowMs) nowMs).2 nowMs
  rw [hb, r3, r4, r5]
  constructor
  · intro h
    exact c1 h
  · intro h
    rw [c2 h, n1, n2, n3, l2, l3, l4]
    refine ⟨rfl, rfl, rfl, ?_⟩
    rw [body_actor_of_not_spend host actor _ nowMs st (by decide)]
    unfold ClearDamageScaleIfExpired
    rw [if_neg]
    · rfl
    · rw [n1, n2, l2, l3]; simpa using h

/-- C26 (pairing-only and irrelevant tags do not touch sessions): an event whose tag is
neither an attack-start tag nor a swing tag leaves both session slots of every actor
unchanged.  For the unarmed-sound tag held by an actor, the explicit-hand timestamps of
that actor are unchanged as well, the three penalty fields are reset when the penalty has
expired and unchanged otherwise (and then the actor is handed back as it came), and the
entries of all other actors are untouched; what is left to change is the pairing cache and
the log-debounce fields. -/
theorem ProcessEvent_pairing_or_irrelevant_keeps_sessions (host : Host) (state : StateMap)
    (ev : BSAnimationGraphEvent) (clockMs : Nat)
    (hS : IsAttackStartTag ev.tag = false) (hP : IsSpendTag ev.tag = false) :
    (∀ k, ((ProcessEvent host state (some ev) clockMs).state.lookup k).session
      = (state.lookup k).session) ∧
    (ev.tag = "SoundPlay.WPNSwingUnarmed" → ∀ actor, ev.holder = some (.actor actor) →
      ((ProcessEvent host state (some ev) clockMs).state.lookup actor.formID).lastExplicitHandMs
        = (state.lookup actor.formID).lastExplicitHandMs ∧
      ((state.lookup actor.formID).dmgScaleApplied = true ∧
          (state.lookup actor.formID).dmgScaleUntilMs < NowMs clockMs →
        ((ProcessEvent host state (some ev) clockMs).state.lookup actor.formID).dmgScaleApplied
          = false ∧
        ((ProcessEvent host state (some ev) clockMs).state.lookup actor.formID).dmgScaleUntilMs
          = 0 ∧
        ((ProcessEvent host state (some ev) clockMs).state.lookup actor.formID).dmgScaleDelta
          = 0) ∧
      (¬ ((state.lookup actor.formID).dmgScaleApplied = true ∧
          (state.lookup actor.formID).dmgScaleUntilMs < NowMs clockMs) →
        ((ProcessEvent host state (some ev) clockMs).state.lookup actor.formID).dmgScaleApplied
          = (state.lookup actor.formID).dmgScaleApplied ∧
        ((ProcessEvent host state (some ev) clockMs).state.lookup actor.formID).dmgScaleUntilMs
          = (state.lookup actor.formID).dmgScaleUntilMs ∧
        ((ProcessEvent host state (some ev) clockMs).state.lookup actor.formID).dmgScaleDelta
          = (state.lookup actor.formID).dmgScaleDelta ∧
        (ProcessEvent host state (some ev) clockMs).actor = some actor) ∧
      ∀ k, k ≠ actor.formID →
        (ProcessEvent host state (some ev) clockMs).state k = state k) := by
  constructor
  · intro k
    unfold ProcessEvent
    simp only []
    split_ifs with he
    · rfl
    · cases hh : ev.holder.bind TESObjectREFR.asActor with
      | none => rfl
      | some actor =>
        simp only []
        by_cases hk : k = actor.formID
        · subst hk
          rw [StateMap.lookup_insert]
          exact body_session_of_not_start_spend host actor ev.tag _ _ hS hP
        · rw [StateMap.lookup_insert_other _ _ _ _ hk]
  · intro htag actor hact
    obtain ⟨tag, holder⟩ := ev
    simp only at htag hact hS hP
    subst htag hact
    rw [ProcessEvent_actor_event host state actor _ clockMs (by decide)]
    simp only [StateMap.lookup_insert]
    obtain ⟨b1, b2⟩ := body_unarmed_sound_penalty host actor (NowMs clockMs)
      (state.lookup actor.formID)
    refine ⟨?_, b1, ?_, ?_⟩
    · rw [body_explicit]
      rw [if_neg (by decide), if_neg (by decide)]
    · intro h
      obtain ⟨h1, h2, h3, h4⟩ := b2 h
      exact ⟨h1, h2, h3, by rw [h4]⟩
    · intro k hk
      simp [StateMap.insert, hk]

/-- Witness of C26: the unarmed-sound tag on a brawler, fresh sink. -/
theorem ProcessEvent_pairing_or_irrelevant_keeps_sessions_witness :
    ((ProcessEvent plainHost emptyStateMap
        (some { tag := "SoundPlay.WPNSwingUnarmed", holder := some (.actor (brawler 100)) })
        1000).state.lookup 20).session = (emptyStateMap.lookup 20).session ∧
    ((ProcessEvent plainHost emptyStateMap
        (some { tag := "SoundPlay.WPNSwingUnarmed", holder := some (.actor (brawler 100)) })
        1000).state.lookup (brawler 100).formID).lastExplicitHandMs
      = (emptyStateMap.lookup (brawler 100).formID).lastExplicitHandMs :=
  ⟨(ProcessEvent_pairing_or_irrelevant_keeps_sessions plainHost emptyStateMap
      { tag := "SoundPlay.WPNSwingUnarmed", holder := some (.actor (brawler 100)) } 1000
      (by decide) (by decide)).1 20,
   ((ProcessEvent_pairing_or_irrelevant_keeps_sessions plainHost emptyStateMap
      { tag := "SoundPlay.WPNSwingUnarmed", holder := some (.actor (brawler 100)) } 1000
      (by decide) (by decide)).2 rfl (brawler 100) rfl).1⟩

theorem ClearDamageScale_mult (actor : Actor) (st : ActorState)
    (hA : st.dmgScaleApplied = true) :
    damageMultOf (ClearDamageScale (some actor) st).1
      = (damageMultOf (some actor)).map
          (fun m => if abs st.dmgScaleDelta > eps6 then m - st.dmgScaleDelta else m) := by
  obtain ⟨fid, pl, avo, eL, eR, cp⟩ := actor
  rcases avo with _ | ⟨s0, m0⟩
  · simp [ClearDamageScale, hA, damageMultOf]
  · simp only [ClearDamageScale, hA, damageMultOf, ActorValueOwner.RestoreActorValue,
      ActorValueOwner.GetActorValue, Bool.not_true, Bool.false_eq_true, if_false,
      Option.bind_some, Option.map_some']
    split_ifs
    · simp [sub_eq_add_neg]
    · simp

/-- C27 (pre-processing on every event): for every event with a non-empty tag and an actor
holder, whatever branch is then taken, the explicit-hand timestamps the event leaves are
those it found with slot 0 set to the event time if the tag contains `Left` or `left`
(`TagHasLeft`), otherwise with slot 1 set to the event time if it contains `Right` or
`right` (`TagHasRight`), otherwise unchanged.  If a penalty is active with
`dmgScaleUntilMs` before the event time, it is reversed before any other processing: the
event gives the same result as the same event on the actor and state that
`ClearDamageScale` leaves, where the three penalty fields are reset and the recorded delta
(when above the noise threshold) is taken back from the multiplier. -/
theorem ProcessEvent_preprocessing (host : Host) (state : StateMap) (actor : Actor)
    (tag : String) (clockMs : Nat) (hne : tag.isEmpty = false) :
    ((ProcessEvent host state (some { tag := tag, holder := some (.actor actor) })
        clockMs).state.lookup actor.formID).lastExplicitHandMs
      = (if TagHasLeft tag = true then
          (state.lookup actor.formID).lastExplicitHandMs.set 0 (NowMs clockMs)
        else if TagHasRight tag = true then
          (state.lookup actor.formID).lastExplicitHandMs.set 1 (NowMs clockMs)
        else (state.lookup actor.formID).lastExplicitHandMs) ∧
    ((state.lookup actor.formID).dmgScaleApplied = true ∧
        (state.lookup actor.formID).dmgScaleUntilMs < NowMs clockMs →
      ProcessEvent host state (some { tag := tag, holder := some (.actor actor) }) clockMs
        = ProcessEvent host
            (state.insert actor.formID
              (ClearDamageScale (some actor) (state.lookup actor.formID)).2)
            (some { tag := tag
                    holder := some (.actor
                      ((ClearDamageScale (some actor) (state.lookup actor.formID)).1.getD
                        actor)) })
            clockMs ∧
      (ClearDamageScale (some actor) (state.lookup actor.formID)).2
        = { state.lookup actor.formID with
            dmgScaleApplied := false, dmgScaleUntilMs := 0, dmgScaleDelta := 0 } ∧
      damageMultOf (ClearDamageScale (some actor) (state.lookup actor.formID)).1
        = (damageMultOf (some actor)).map
            (fun m => if abs (state.lookup actor.formID).dmgScaleDelta > eps6
              then m - (state.lookup actor.formID).dmgScaleDelta else m)) := by
  constructor
  · rw [ProcessEvent_actor_event host state actor tag clockMs hne]
    simp only [StateMap.lookup_insert]
    exact body_explicit host actor tag (NowMs clockMs) (state.lookup actor.formID)
  · rintro ⟨hA, hE⟩
    refine ⟨?_, ClearDamageScale_of_applied _ _ hA, ClearDamageScale_mult _ _ hA⟩
    obtain ⟨avo1, h1⟩ := ClearDamageScale_actor actor (state.lookup actor.formID)
    have hb := body_clears_expired_first host actor tag (NowMs clockMs)
      (state.lookup actor.formID) hA hE
    rw [ProcessEvent_actor_event host state actor tag clockMs hne,
      ProcessEvent_actor_event host _ _ tag clockMs hne]
    rw [h1] at hb ⊢
    simp only [Option.getD_some, StateMap.lookup_insert, StateMap.insert_insert] at hb ⊢
    rw [← hb]

/-- Witness of C27: `attackStartLeft` at 1300 on an actor whose multiplier 1/4 carries a
penalty of delta -3/4 that ran until 1200: slot 0 is set to 1300 and the multiplier is
back at 1. -/
theorem ProcessEvent_preprocessing_witness :
    (((emptyStateMap.insert 20 penalised).lookup 20).dmgScaleApplied = true ∧
      ((emptyStateMap.insert 20 penalised).lookup 20).dmgScaleUntilMs < NowMs 1300) ∧
    ((ProcessEvent plainHost (emptyStateMap.insert 20 penalised)
        (some { tag := "attackStartLeft", holder := some (.actor (scaledBrawler 50 (1 / 4))) })
        1300).state.lookup 20).lastExplicitHandMs = ⟨1300, 0⟩ ∧
    damageMultOf (ProcessEvent plainHost (emptyStateMap.insert 20 penalised)
        (some { tag := "attackStartLeft", holder := some (.actor (scaledBrawler 50 (1 / 4))) })
        1300).actor = some 1 :=
  ⟨by decide!,
    (ProcessEvent_preprocessing plainHost (emptyStateMap.insert 20 penalised)
      (scaledBrawler 50 (1 / 4)) "attackStartLeft" 1300 (by decide)).1.trans (by decide!),
    by decide!⟩

/-! ## Bounds of the final cost -/

theorem GetWeaponWeight_nonneg (weap : Option TESObjectWEAP) : 0 ≤ GetWeaponWeight weap := by
  unfold GetWeaponWeight
  cases weap with
  | none => exact le_refl _
  | some w => exact le_max_left _ _

theorem baseCost_le (weap : Option TESObjectWEAP) :
    ProcessEvent.baseCost weap ≤ 6 + GetWeaponWeight weap := by
  have hw := GetWeaponWeight_nonneg weap
  unfold ProcessEvent.baseCost
  simp only [kBaseUnarmed, kBaseWeapon, kWeaponWeightMult, mul_one]
  split_ifs
  · exact max_le (by linarith) (by linarith)
  · exact max_le (by linarith) (le_refl _)

theorem spend_never_skipBaseCost (host : Host) (actor : Actor) (st : ActorState)
    (nowMs : Nat) (leftHand treatAsUnarmed : Bool) (idx : Fin 2)
    (curWeap : Option TESObjectWEAP) (lh : Bool) :
    (ProcessEvent.spend host actor st nowMs leftHand treatAsUnarmed idx curWeap).outcome
      ≠ .skipBaseCost lh := by
  have hb : ∀ w, ¬ ProcessEvent.baseCost w ≤ 0 := fun w =>
    not_le.mpr (lt_of_lt_of_le (by norm_num) (baseCost_ge_six w))
  unfold ProcessEvent.spend
  simp only [hb, if_false]
  split_ifs <;> simp [ProcessEvent.reconcile]

/-- C28 (final cost is always positive), on the code: the base cost is positive for every
implement, so the `baseCost <= 0` exit is never taken; when the multiplier is finite (the
hook left anything but NaN) the final cost is at least `6 * 0.05 = 0.3` and at most
`(6 + w) * 10 * 2`, where `w = GetWeaponWeight weap` is `max 0 weight` of the implement (0
without one).  When the hook leaves NaN the multiplier is NaN, the final cost is
`std::max(0.0f, NaN) = 0`, and no spend charges: the attack is free. -/
theorem final_cost_bounds (host : Host) (actor : Actor) (weap : Option TESObjectWEAP) :
    0 < ProcessEvent.baseCost weap ∧
    (∀ m, GetStaminaCostMult host (some actor) weap = .val m →
      6 * (5 / 100) ≤ ProcessEvent.finalCost host actor weap (ProcessEvent.baseCost weap) ∧
      ProcessEvent.finalCost host actor weap (ProcessEvent.baseCost weap)
        ≤ (6 + GetWeaponWeight weap) * 10 * 2) ∧
    (GetStaminaCostMult host (some actor) weap = .nan →
      ProcessEvent.finalCost host actor weap (ProcessEvent.baseCost weap) = 0) ∧
    (∀ (st : ActorState) (nowMs : Nat) (leftHand treatAsUnarmed : Bool) (idx : Fin 2)
      (curWeap : Option TESObjectWEAP) (lh : Bool),
      (ProcessEvent.spend host actor st nowMs leftHand treatAsUnarmed idx curWeap).outcome
        ≠ .skipBaseCost lh) ∧
    (∀ (st : ActorState) (nowMs : Nat) (leftHand treatAsUnarmed : Bool) (idx : Fin 2)
      (curWeap : Option TESObjectWEAP) (log : SpendLog),
      (∀ avo1, GetStaminaCostMult host (some { actor with avo := avo1 })
        (if treatAsUnarmed then none
          else (actor.GetEquippedObject leftHand).bind TESForm.asWEAP) = .nan) →
      (ProcessEvent.spend host actor st nowMs leftHand treatAsUnarmed idx curWeap).outcome
        ≠ .spend log) := by
  have h6 := baseCost_ge_six weap
  have hle := baseCost_le weap
  have hb0 : 0 < ProcessEvent.baseCost weap := by linarith
  have hw := GetWeaponWeight_nonneg weap
  refine ⟨hb0, ?_, fun hm => finalCost_nan host actor weap _ hm, ?_, ?_⟩
  · intro m hm
    obtain ⟨hm1, hm2⟩ := GetStaminaCostMult_bounds host (some actor) weap m hm
    rw [finalCost_eq host actor weap _ m hb0 hm]
    have h1 : 6 * (5 / 100) ≤ ProcessEvent.baseCost weap * m :=
      mul_le_mul h6 hm1 (by norm_num) (by linarith)
    have h2 : ProcessEvent.baseCost weap * m ≤ (6 + GetWeaponWeight weap) * 10 :=
      mul_le_mul hle hm2 (by linarith) (by linarith)
    have h3 : 0 ≤ ProcessEvent.baseCost weap * m := mul_nonneg (by linarith) (by linarith)
    split_ifs <;> constructor <;> linarith
  · intro st nowMs leftHand treatAsUnarmed idx curWeap lh
    exact spend_never_skipBaseCost host actor st nowMs leftHand treatAsUnarmed idx curWeap lh
  · intro st nowMs leftHand treatAsUnarmed idx curWeap log hnan h
    obtain ⟨-, -, m, avo1, -, hm, -⟩ :=
      spend_log host actor st nowMs leftHand treatAsUnarmed idx curWeap log h
    rw [hnan avo1] at hm
    exact BoundedF32.noConfusion hm

/-- Witness of C28: under a hook that leaves NaN in the probe, a fencer whose sword costs 30
finds the final cost 0; `attackStartRight` and `weaponRightSwing` leave through the
`finalCost <= 0` exit and the stamina is still 40. -/
theorem final_cost_bounds_witness :
    GetStaminaCostMult (hostWithProbe .nan) (some (fencer 40)) (some longsword) = .nan ∧
    ProcessEvent.finalCost (hostWithProbe .nan) (fencer 40) (some longsword)
      (ProcessEvent.baseCost (some longsword)) = 0 ∧
    (runEvents (hostWithProbe .nan) emptyStateMap (fencer 40)
      [("attackStartRight", 1000), ("weaponRightSwing", 1100)]).2.2
      = [.start false 1 40, .skipFinalCost false] ∧
    GetStamina (some (runEvents (hostWithProbe .nan) emptyStateMap (fencer 40)
      [("attackStartRight", 1000), ("weaponRightSwing", 1100)]).2.1) = 40 ∧
    (runEvents plainHost emptyStateMap (fencer 40)
      [("attackStartRight", 1000), ("weaponRightSwing", 1100)]).2.2.map Outcome.isCharge
      = [false, true] ∧
    GetStamina (some (runEvents plainHost emptyStateMap (fencer 40)
      [("attackStartRight", 1000), ("weaponRightSwing", 1100)]).2.1) = 10 :=
  ⟨rfl,
    (final_cost_bounds (hostWithProbe .nan) (fencer 40) (some longsword)).2.2.1 rfl,
    by decide!, by decide!, by decide!, by decide!⟩

/-! ## Follow-up enforcement -/

/-- Counterexample to C29 as stated: a chain started with the count 2 hands over a task
with the count 2; run on an actor whose stamina is 0, that task drains nothing and still
schedules the next task, with the count 1. -/
theorem ForceZeroTask_run_reschedules_at_zero :
    ForceZeroTicks plainHost 20 2 = [⟨20, 2⟩] ∧
    GetStamina (some (brawler 0)) ≤ 0 ∧
    ForceZeroTask.run plainHost ⟨20, 2⟩ (some (brawler 0)) = (some (brawler 0), [⟨20, 1⟩]) ∧
    (ForceZeroTask.run plainHost ⟨20, 2⟩ (some (brawler 0))).2 ≠ [] := by
  decide!

/-- C29 as amended (follow-up enforcement): a tick that finds the stamina of the actor at
or below zero leaves the actor as it is and schedules exactly what a tick on any other
actor schedules, namely `ForceZeroTicks h (ticksLeft - 1)`: one task with the count
`ticksLeft - 1` when `ticksLeft ≥ 2` and the task interface is available, nothing when
`ticksLeft ≤ 1`.  The chain is ended by the count, not by the stamina. -/
theorem ForceZeroTask_run_at_zero (host : Host) (task : ForceZeroTask) (a : Actor)
    (h0 : GetStamina (some a) ≤ 0) :
    (ForceZeroTask.run host task (some a)).1 = some a ∧
    (ForceZeroTask.run host task (some a)).2 = ForceZeroTicks host task.h (task.ticksLeft - 1) ∧
    (∀ b : Actor, (ForceZeroTask.run host task (some b)).2
      = (ForceZeroTask.run host task (some a)).2) ∧
    (2 ≤ task.ticksLeft → host.taskInterface = true →
      (ForceZeroTask.run host task (some a)).2 = [⟨task.h, task.ticksLeft - 1⟩]) ∧
    (task.ticksLeft ≤ 1 → (ForceZeroTask.run host task (some a)).2 = []) := by
  have hn : ¬ GetStamina (some a) > 0 := not_lt.mpr h0
  refine ⟨?_, rfl, fun b => rfl, ?_, ?_⟩
  · simp only [ForceZeroTask.run, hn, if_false]
  · intro h2 ht
    simp only [ForceZeroTask.run, ForceZeroTicks, ht]
    rw [if_neg (by omega)]
    rfl
  · intro h1
    simp only [ForceZeroTask.run, ForceZeroTicks]
    rw [if_pos (by omega)]

/-- Witness of C29 as amended: the task with the count 3 on a brawler without stamina. -/
theorem ForceZeroTask_run_at_zero_witness :
    GetStamina (some (brawler 0)) ≤ 0 ∧
    (ForceZeroTask.run plainHost ⟨20, 3⟩ (some (brawler 0))).1 = some (brawler 0) ∧
    (ForceZeroTask.run plainHost ⟨20, 3⟩ (some (brawler 0))).2 = [⟨20, 3 - 1⟩] :=
  ⟨by decide!,
    (ForceZeroTask_run_at_zero plainHost ⟨20, 3⟩ (brawler 0) (by decide!)).1,
    (ForceZeroTask_run_at_zero plainHost ⟨20, 3⟩ (brawler 0) (by decide!)).2.2.2.1
      (by decide) rfl⟩

/-! ## Session reachability -/

theorem NoActiveSpent_step (op : SessionOp) (st : ActorState) (h : NoActiveSpent st) :
    NoActiveSpent (op.run st) := by
  intro i
  cases op with
  | beginOrRefresh j nowMs v w =>
    simp only [SessionOp.run, BeginOrRefreshSession]
    split_ifs
    · exact h i
    · by_cases hij : i = j
      · subst hij; simp [Array2.get_set_same]
      · simp only [Array2.get_set_other _ _ _ _ hij]; exact h i
  | canSpend j nowMs v w =>
    simp only [SessionOp.run, CanSpendInSession]
    split_ifs
    · by_cases hij : i = j
      · subst hij; simp [Array2.get_set_same]
      · simp only [Array2.get_set_other _ _ _ _ hij]; exact h i
    · by_cases hij : i = j
      · subst hij; simp [Array2.get_set_same]
      · simp only [Array2.get_set_other _ _ _ _ hij]; exact h i
    · exact h i
  | markSpent j =>
    simp only [SessionOp.run, MarkSessionSpent]
    by_cases hij : i = j
    · subst hij; simp [Array2.get_set_same]
    · simp only [Array2.get_set_other _ _ _ _ hij]; exact h i

theorem NoActiveSpent_run (ops : List SessionOp) (st : ActorState) (h : NoActiveSpent st) :
    NoActiveSpent (runSessionOps st ops) := by
  induction ops generalizing st with
  | nil => exact h
  | cons op rest ih => exact ih _ (NoActiveSpent_step op st h)

theorem NoActiveSpent_fresh : NoActiveSpent {} := by
  intro i
  simp [Array2.get]

theorem spend_not_duplicate (host : Host) (actor : Actor) (st : ActorState) (nowMs : Nat)
    (leftHand treatAsUnarmed : Bool) (idx : Fin 2) (curWeap : Option TESObjectWEAP)
    (h : NoActiveSpent st) (lh : Bool) (j : Fin 2) :
    (ProcessEvent.spend host actor st nowMs leftHand treatAsUnarmed idx curWeap).outcome
      ≠ .skipDuplicate lh j := by
  have hg : (CanSpendInSession st idx nowMs (GetStamina (some actor)) curWeap).1 = true := by
    apply CanSpendInSession_passes
    have := h idx
    cases ha : (st.session.get idx).active
    · exact Or.inl rfl
    · right
      cases hs : (st.session.get idx).spent
      · rfl
      · exact absurd ⟨ha, hs⟩ this
  unfold ProcessEvent.spend
  simp only [hg, Bool.not_true, Bool.false_eq_true, if_false]
  split_ifs <;> simp [ProcessEvent.reconcile]

theorem NoActiveSpent_congr (st st2 : ActorState) (hs : st2.session = st.session)
    (h : NoActiveSpent st) : NoActiveSpent st2 := by
  intro i
  rw [hs]
  exact h i

theorem spend_NoActiveSpent (host : Host) (actor : Actor) (st : ActorState) (nowMs : Nat)
    (leftHand treatAsUnarmed : Bool) (idx : Fin 2) (curWeap : Option TESObjectWEAP)
    (h : NoActiveSpent st) :
    NoActiveSpent
      (ProcessEvent.spend host actor st nowMs leftHand treatAsUnarmed idx curWeap).st := by
  have hg := NoActiveSpent_step (.canSpend idx nowMs (GetStamina (some actor)) curWeap) st h
  simp only [SessionOp.run] at hg
  have hc : NoActiveSpent (ClearDamageScale (some actor)
      (CanSpendInSession st idx nowMs (GetStamina (some actor)) curWeap).2).2 :=
    NoActiveSpent_congr _ _ (ClearDamageScale_session _ _) hg
  have hm := NoActiveSpent_step (.markSpent idx) _ hc
  simp only [SessionOp.run] at hm
  unfold ProcessEvent.spend
  simp only []
  split_ifs
  all_goals first
    | exact hg
    | exact hm
    | exact NoActiveSpent_congr _ _ (reconcile_frame _ _ _ _ _ _ _ _ _).choose_spec.2 hm

theorem body_NoActiveSpent (host : Host) (actor : Actor) (tag : String) (nowMs : Nat)
    (st : ActorState) (h : NoActiveSpent st) :
    NoActiveSpent (ProcessEvent.body host actor tag nowMs st).st ∧
    ∀ lh j, (ProcessEvent.body host actor tag nowMs st).outcome ≠ .skipDuplicate lh j := by
  have hp : NoActiveSpent (ClearDamageScaleIfExpired (some actor)
        (NoteExplicitHandIfAny tag (LogAllPlayerTagsIfEnabled host (some actor) tag st nowMs)
          nowMs) nowMs).2 :=
    NoActiveSpent_congr _ _ (prelude_frame host actor tag nowMs st).2 h
  have hr : ∀ a, NoActiveSpent (ResolveHandForTag a tag (ClearDamageScaleIfExpired (some actor)
        (NoteExplicitHandIfAny tag (LogAllPlayerTagsIfEnabled host (some actor) tag st nowMs)
          nowMs) nowMs).2 nowMs).st := fun a =>
    NoActiveSpent_congr _ _ (ResolveHandForTag_frame _ _ _ _).1 hp
  unfold ProcessEvent.body
  simp only []
  by_cases hU : IsUnarmedSwingSoundTag tag = true
  · rw [if_pos hU]
    exact ⟨hr _, fun lh j => by simp⟩
  · rw [if_neg hU]
    by_cases hN : (!IsAttackStartTag tag && !IsSpendTag tag) = true
    · rw [if_pos hN]
      exact ⟨hp, fun lh j => by simp⟩
    · rw [if_neg hN]
      by_cases hS : IsAttackStartTag tag = true
      · rw [if_pos hS]
        refine ⟨?_, fun lh j => by simp⟩
        exact NoActiveSpent_step (.beginOrRefresh _ _ _ _) _ (hr _)
      · rw [if_neg hS]
        exact ⟨spend_NoActiveSpent _ _ _ _ _ _ _ _ (hr _),
          fun lh j => spend_not_duplicate _ _ _ _ _ _ _ _ (hr _) lh j⟩

theorem runEvents_never_skipDuplicate (host : Host) (events : List (String × Nat))
    (state : StateMap) (actor : Actor) (hst : ∀ k, NoActiveSpent (state.lookup k)) :
    ∀ o ∈ (runEvents host state actor events).2.2, ∀ lh j, o ≠ .skipDuplicate lh j := by
  induction events generalizing state actor with
  | nil => intro o ho; simp [runEvents] at ho
  | cons e rest ih =>
    obtain ⟨tag, clockMs⟩ := e
    intro o ho lh j
    by_cases hne : tag.isEmpty = false
    · rw [runEvents_cons host state actor tag clockMs rest hne] at ho
      simp only [List.mem_cons] at ho
      obtain ⟨hb1, hb2⟩ := body_NoActiveSpent host actor tag (NowMs clockMs)
        (state.lookup actor.formID) (hst _)
      rcases ho with rfl | ho
      · exact hb2 lh j
      · refine ih _ _ ?_ o ho lh j
        intro k
        by_cases hk : k = actor.formID
        · subst hk; rw [StateMap.lookup_insert]; exact hb1
        · have : (state.insert actor.formID
              (ProcessEvent.body host actor tag (NowMs clockMs)
                (state.lookup actor.formID)).st).lookup k = state.lookup k := by
            simp [StateMap.lookup, StateMap.insert, hk]
          rw [this]; exact hst k
    · have he : tag.isEmpty = true := by simpa using hne
      have hP : ProcessEvent host state (some { tag := tag, holder := some (.actor actor) })
          clockMs = { state := state, actor := some actor, tasks := [], outcome := .ignored } := by
        simp [ProcessEvent, he, TESObjectREFR.asActor]
      simp only [runEvents, hP, Option.getD_some, List.mem_cons] at ho
      rcases ho with rfl | ho
      · simp
      · exact ih _ _ hst o ho lh j

/-- C30 (session reachability invariant): in every state reached from the fresh state by
a sequence of `BeginOrRefreshSession`, `CanSpendInSession` and `MarkSessionSpent` calls
(any indices, timestamps and stamina values) no session has `active` and `spent` both
set; hence `CanSpendInSession` returns true in every such state, the spend branch never
takes its duplicate-spend exit there, and no event of any sequence fed to a fresh sink
takes it. -/
theorem session_reachability_invariant (ops : List SessionOp) :
    NoActiveSpent (runSessionOps {} ops) ∧
    (∀ (i : Fin 2) (nowMs : Nat) (curStamina : ℚ) (weap : Option TESObjectWEAP),
      (CanSpendInSession (runSessionOps {} ops) i nowMs curStamina weap).1 = true) ∧
    (∀ (host : Host) (actor : Actor) (nowMs : Nat) (leftHand treatAsUnarmed : Bool)
      (idx : Fin 2) (curWeap : Option TESObjectWEAP) (lh : Bool) (j : Fin 2),
      (ProcessEvent.spend host actor (runSessionOps {} ops) nowMs leftHand treatAsUnarmed idx
        curWeap).outcome ≠ .skipDuplicate lh j) ∧
    (∀ (host : Host) (actor : Actor) (events : List (String × Nat)) (lh : Bool) (j : Fin 2),
      Outcome.skipDuplicate lh j ∉ (runEvents host emptyStateMap actor events).2.2) := by
  have hinv := NoActiveSpent_run ops {} NoActiveSpent_fresh
  refine ⟨hinv, ?_, ?_, ?_⟩
  · intro i nowMs cur w
    apply CanSpendInSession_passes
    have := hinv i
    cases ha : ((runSessionOps {} ops).session.get i).active
    · exact Or.inl rfl
    · right
      cases hs : ((runSessionOps {} ops).session.get i).spent
      · rfl
      · exact absurd ⟨ha, hs⟩ this
  · intro host actor nowMs leftHand treatAsUnarmed idx curWeap lh j
    exact spend_not_duplicate host actor _ nowMs leftHand treatAsUnarmed idx curWeap hinv lh j
  · intro host actor events lh j hmem
    exact runEvents_never_skipDuplicate host events emptyStateMap actor
      (fun _ => NoActiveSpent_fresh) _ hmem lh j rfl

/-! ## Session slots are independent -/

theorem BeginOrRefreshSession_other (st : ActorState) (i j : Fin 2) (nowMs : Nat) (v : ℚ)
    (w : Option TESObjectWEAP) (h : j ≠ i) :
    (BeginOrRefreshSession st i nowMs v w).session.get j = st.session.get j := by
  unfold BeginOrRefreshSession
  simp only []
  split_ifs
  · rfl
  · exact Array2.get_set_other _ _ _ _ h

theorem CanSpendInSession_other (st : ActorState) (i j : Fin 2) (nowMs : Nat) (v : ℚ)
    (w : Option TESObjectWEAP) (h : j ≠ i) :
    (CanSpendInSession st i nowMs v w).2.session.get j = st.session.get j := by
  unfold CanSpendInSession
  simp only []
  split_ifs
  · exact Array2.get_set_other _ _ _ _ h
  · exact Array2.get_set_other _ _ _ _ h
  · rfl

theorem MarkSessionSpent_other (st : ActorState) (i j : Fin 2) (h : j ≠ i) :
    (MarkSessionSpent st i).session.get j = st.session.get j := by
  unfold MarkSessionSpent
  exact Array2.get_set_other _ _ _ _ h

theorem BeginOrRefreshSession_rest (st : ActorState) (i : Fin 2) (nowMs : Nat) (v : ℚ)
    (w : Option TESObjectWEAP) :
    BeginOrRefreshSession st i nowMs v w
      = { st with session := (BeginOrRefreshSession st i nowMs v w).session } := by
  unfold BeginOrRefreshSession
  simp only []
  split_ifs <;> rfl

theorem CanSpendInSession_rest (st : ActorState) (i : Fin 2) (nowMs : Nat) (v : ℚ)
    (w : Option TESObjectWEAP) :
    (CanSpendInSession st i nowMs v w).2
      = { st with session := (CanSpendInSession st i nowMs v w).2.session } := by
  unfold CanSpendInSession
  simp only []
  split_ifs <;> rfl

/-- C32 (session slots are independent): each of `BeginOrRefreshSession`,
`CanSpendInSession` and `MarkSessionSpent` called on the index `i` leaves the other session
slot as it was and changes no field of the state but `session` (so the explicit-hand
timestamps, the pairing cache, the penalty fields and the log-debounce fields are kept);
`MarkSessionSpent` leaves in slot `i` the session it found with `spent` set and `active`
cleared, its other fields untouched. -/
theorem session_slots_independent (st : ActorState) (i : Fin 2) (nowMs : Nat) (v : ℚ)
    (w : Option TESObjectWEAP) :
    ((∀ j, j ≠ i → (BeginOrRefreshSession st i nowMs v w).session.get j = st.session.get j) ∧
      BeginOrRefreshSession st i nowMs v w
        = { st with session := (BeginOrRefreshSession st i nowMs v w).session }) ∧
    ((∀ j, j ≠ i → (CanSpendInSession st i nowMs v w).2.session.get j = st.session.get j) ∧
      (CanSpendInSession st i nowMs v w).2
        = { st with session := (CanSpendInSession st i nowMs v w).2.session }) ∧
    ((∀ j, j ≠ i → (MarkSessionSpent st i).session.get j = st.session.get j) ∧
      MarkSessionSpent st i = { st with session := (MarkSessionSpent st i).session } ∧
      (MarkSessionSpent st i).session.get i
        = { st.session.get i with spent := true, active := false }) := by
  refine ⟨⟨fun j h => BeginOrRefreshSession_other st i j nowMs v w h,
      BeginOrRefreshSession_rest st i nowMs v w⟩,
    ⟨fun j h => CanSpendInSession_other st i j nowMs v w h,
      CanSpendInSession_rest st i nowMs v w⟩,
    fun j h => MarkSessionSpent_other st i j h, rfl, ?_⟩
  unfold MarkSessionSpent
  exact Array2.get_set_same _ _ _

/-- Witness of C32: the three calls on index 0 leave the armed right session alone. -/
theorem session_slots_independent_witness :
    (BeginOrRefreshSession (armedRight 100) 0 1200 80 none).session.get 1
      = (armedRight 100).session.get 1 ∧
    (CanSpendInSession (armedRight 100) 0 1200 80 none).2.session.get 1
      = (armedRight 100).session.get 1 ∧
    (MarkSessionSpent (armedRight 100) 0).session.get 1 = (armedRight 100).session.get 1 :=
  ⟨(session_slots_independent (armedRight 100) 0 1200 80 none).1.1 1 (by decide),
   (session_slots_independent (armedRight 100) 0 1200 80 none).2.1.1 1 (by decide),
   (session_slots_independent (armedRight 100) 0 1200 80 none).2.2.1 1 (by decide)⟩

/-! ## What the resolver reads from the state -/

theorem LogAllPlayerTagsIfEnabled_pairing (host : Host) (actor : Option Actor) (tag : String)
    (st : ActorState) (nowMs : Nat) :
    (LogAllPlayerTagsIfEnabled host actor tag st nowMs).lastUnarmedSoundMs
      = st.lastUnarmedSoundMs ∧
    (LogAllPlayerTagsIfEnabled host actor tag st nowMs).lastUnarmedHandIsLeft
      = st.lastUnarmedHandIsLeft ∧
    (LogAllPlayerTagsIfEnabled host actor tag st nowMs).lastUnarmedHandValid
      = st.lastUnarmedHandValid := by
  unfold LogAllPlayerTagsIfEnabled
  cases actor with
  | none => simp
  | some a => simp only []; split_ifs <;> exact ⟨rfl, rfl, rfl⟩

theorem NoteExplicitHandIfAny_pairing (tag : String) (st : ActorState) (nowMs : Nat) :
    (NoteExplicitHandIfAny tag st nowMs).lastUnarmedSoundMs = st.lastUnarmedSoundMs ∧
    (NoteExplicitHandIfAny tag st nowMs).lastUnarmedHandIsLeft = st.lastUnarmedHandIsLeft ∧
    (NoteExplicitHandIfAny tag st nowMs).lastUnarmedHandValid = st.lastUnarmedHandValid := by
  unfold NoteExplicitHandIfAny
  split_ifs <;> exact ⟨rfl, rfl, rfl⟩

theorem ClearDamageScaleIfExpired_pairing (a : Option Actor) (st : ActorState) (nowMs : Nat) :
    (ClearDamageScaleIfExpired a st nowMs).2.lastUnarmedSoundMs = st.lastUnarmedSoundMs ∧
    (ClearDamageScaleIfExpired a st nowMs).2.lastUnarmedHandIsLeft
      = st.lastUnarmedHandIsLeft ∧
    (ClearDamageScaleIfExpired a st nowMs).2.lastUnarmedHandValid
      = st.lastUnarmedHandValid := by
  unfold ClearDamageScaleIfExpired ClearDamageScale
  split_ifs <;> exact ⟨rfl, rfl, rfl⟩

/-- The side and the two flags the resolver returns for a tag other than the unarmed-sound
tag depend only on the explicit-hand timestamps and the pairing cache of the state. -/
theorem ResolveHandForTag_flags_congr (a a2 : Option Actor) (tag : String)
    (st st2 : ActorState) (nowMs : Nat) (hU : IsUnarmedSwingSoundTag tag = false)
    (h1 : st2.lastExplicitHandMs = st.lastExplicitHandMs)
    (h2 : st2.lastUnarmedSoundMs = st.lastUnarmedSoundMs)
    (h3 : st2.lastUnarmedHandIsLeft = st.lastUnarmedHandIsLeft)
    (h4 : st2.lastUnarmedHandValid = st.lastUnarmedHandValid) :
    (ResolveHandForTag a2 tag st2 nowMs).isLeft = (ResolveHandForTag a tag st nowMs).isLeft ∧
    (ResolveHandForTag a2 tag st2 nowMs).outTreatAsUnarmed
      = (ResolveHandForTag a tag st nowMs).outTreatAsUnarmed ∧
    (ResolveHandForTag a2 tag st2 nowMs).outAmbiguous
      = (ResolveHandForTag a tag st nowMs).outAmbiguous := by
  unfold ResolveHandForTag
  simp only [hU, h1, h2, h3, h4, Bool.false_eq_true, if_false]
  split_ifs <;> exact ⟨rfl, rfl, rfl⟩

/-- The pre-processing of an event does not change what the resolver answers for its tag. -/
theorem prelude_resolve_flags (host : Host) (actor : Actor) (tag : String) (nowMs : Nat)
    (st : ActorState) (a a2 : Option Actor) (hU : IsUnarmedSwingSoundTag tag = false) :
    (ResolveHandForTag a2 tag (ClearDamageScaleIfExpired (some actor)
        (NoteExplicitHandIfAny tag (LogAllPlayerTagsIfEnabled host (some actor) tag st nowMs)
          nowMs) nowMs).2 nowMs).isLeft = (ResolveHandForTag a tag st nowMs).isLeft ∧
    (ResolveHandForTag a2 tag (ClearDamageScaleIfExpired (some actor)
        (NoteExplicitHandIfAny tag (LogAllPlayerTagsIfEnabled host (some actor) tag st nowMs)
          nowMs) nowMs).2 nowMs).outTreatAsUnarmed
      = (ResolveHandForTag a tag st nowMs).outTreatAsUnarmed ∧
    (ResolveHandForTag a2 tag (ClearDamageScaleIfExpired (some actor)
        (NoteExplicitHandIfAny tag (LogAllPlayerTagsIfEnabled host (some actor) tag st nowMs)
          nowMs) nowMs).2 nowMs).outAmbiguous
      = (ResolveHandForTag a tag st nowMs).outAmbiguous := by
  by_cases hl : TagHasLeft tag = true
  · simp [ResolveHandForTag_of_left tag hl]
  · have hl0 : TagHasLeft tag = false := by simpa using hl
    by_cases hr : TagHasRight tag = true
    · simp [ResolveHandForTag_of_right tag hl0 hr]
    · obtain ⟨c1, c2, c3⟩ := ClearDamageScaleIfExpired_pairing (some actor)
        (NoteExplicitHandIfAny tag (LogAllPlayerTagsIfEnabled host (some actor) tag st nowMs)
          nowMs) nowMs
      obtain ⟨n1, n2, n3⟩ := NoteExplicitHandIfAny_pairing tag
        (LogAllPlayerTagsIfEnabled host (some actor) tag st nowMs) nowMs
      obtain ⟨l1, l2, l3⟩ := LogAllPlayerTagsIfEnabled_pairing host (some actor) tag st nowMs
      refine ResolveHandForTag_flags_congr a a2 tag st _ nowMs hU ?_ (by rw [c1, n1, l1])
        (by rw [c2, n2, l2]) (by rw [c3, n3, l3])
      rw [ClearDamageScaleIfExpired_explicit, NoteExplicitHandIfAny_eq, if_neg hl, if_neg hr,
        (LogAllPlayerTagsIfEnabled_frame host (some actor) tag st nowMs).1]

theorem IsSpendTag_cases (tag : String) (h : IsSpendTag tag = true) :
    IsUnarmedSwingSoundTag tag = false ∧ IsAttackStartTag tag = false := by
  simp only [IsSpendTag, IsWeaponHandSwingTag, IsWeaponSwingAmbiguous, Bool.or_eq_true,
    beq_iff_eq] at h
  rcases h with ((((rfl | rfl) | rfl) | rfl) | (rfl | rfl)) <;> exact ⟨by decide, by decide⟩

theorem MapHandToSessionIndex_right (w : Option TESObjectWEAP) :
    MapHandToSessionIndex w 1 = 1 := by
  unfold MapHandToSessionIndex
  split_ifs <;> rfl

theorem MapHandToSessionIndex_of_not_twoHanded (w : Option TESObjectWEAP) (i : Fin 2)
    (h : IsTwoHanded w = false) : MapHandToSessionIndex w i = i := by
  simp [MapHandToSessionIndex, h]

theorem spend_session_other (host : Host) (actor : Actor) (st : ActorState) (nowMs : Nat)
    (leftHand treatAsUnarmed : Bool) (idx j : Fin 2) (curWeap : Option TESObjectWEAP)
    (h : j ≠ idx) :
    (ProcessEvent.spend host actor st nowMs leftHand treatAsUnarmed idx curWeap).st.session.get j
      = st.session.get j := by
  have hg := CanSpendInSession_other st idx j nowMs (GetStamina (some actor)) curWeap h
  have hm : (MarkSessionSpent (ClearDamageScale (some actor)
      (CanSpendInSession st idx nowMs (GetStamina (some actor)) curWeap).2).2 idx).session.get j
      = st.session.get j := by
    rw [MarkSessionSpent_other _ _ _ h, ClearDamageScale_session, hg]
  unfold ProcessEvent.spend
  simp only []
  split_ifs
  all_goals first
    | exact hg
    | exact hm
    | (rw [(reconcile_frame _ _ _ _ _ _ _ _ _).choose_spec.2]; exact hm)

theorem spend_outcome_idx (host : Host) (actor : Actor) (st : ActorState) (nowMs : Nat)
    (leftHand treatAsUnarmed : Bool) (idx : Fin 2) (curWeap : Option TESObjectWEAP) :
    (∀ log,
      (ProcessEvent.spend host actor st nowMs leftHand treatAsUnarmed idx curWeap).outcome
        = .spend log → log.sessionIdx = idx ∧ log.leftHand = leftHand) ∧
    (∀ l i,
      (ProcessEvent.spend host actor st nowMs leftHand treatAsUnarmed idx curWeap).outcome
        = .skipDuplicate l i → i = idx ∧ l = leftHand) := by
  unfold ProcessEvent.spend
  simp only []
  constructor
  · intro log h
    split_ifs at h
    all_goals
      simp only [ProcessEvent.reconcile, Outcome.spend.injEq] at h
      subst h
      exact ⟨rfl, rfl⟩
  · intro l i h
    split_ifs at h
    all_goals first
      | (simp only [Outcome.skipDuplicate.injEq] at h
         exact ⟨h.2.symm, h.1.symm⟩)
      | simp [ProcessEvent.reconcile] at h

/-! ## Swings with an implement that is not a melee weapon -/

theorem gate_of_NoActiveSpent (st : ActorState) (i : Fin 2) (h : NoActiveSpent st) :
    (st.session.get i).active = false ∨ (st.session.get i).spent = false := by
  have := h i
  cases ha : (st.session.get i).active
  · exact Or.inl rfl
  · right
    cases hs : (st.session.get i).spent
    · rfl
    · exact absurd ⟨ha, hs⟩ this

theorem spend_not_melee (host : Host) (actor : Actor) (st : ActorState) (nowMs : Nat)
    (lh : Bool) (idx : Fin 2) (cw : Option TESObjectWEAP) (w : TESObjectWEAP)
    (hgate : (st.session.get idx).active = false ∨ (st.session.get idx).spent = false)
    (hw : (actor.GetEquippedObject lh).bind TESForm.asWEAP = some w)
    (hm : IsMeleeWeapon (some w) = false) :
    ProcessEvent.spend host actor st nowMs lh false idx cw =
      { st := MarkSessionSpent (ClearDamageScale (some actor)
          (CanSpendInSession st idx nowMs (GetStamina (some actor)) cw).2).2 idx
        actor := (ClearDamageScale (some actor)
          (CanSpendInSession st idx nowMs (GetStamina (some actor)) cw).2).1.getD actor
        tasks := []
        outcome := .skipNotMelee lh } := by
  unfold ProcessEvent.spend
  simp only [CanSpendInSession_passes st idx nowMs _ cw hgate, Bool.not_true,
    Bool.false_eq_true, if_false]
  obtain ⟨avoD, hD⟩ := ClearDamageScale_actor actor
    (CanSpendInSession st idx nowMs (GetStamina (some actor)) cw).2
  rw [hD]
  simp only [Option.getD_some]
  have hEq : ({ actor with avo := avoD } : Actor).GetEquippedObject lh
      = actor.GetEquippedObject lh := rfl
  rw [hEq, hw]
  simp [hm]

theorem body_nonmelee_swing (host : Host) (actor : Actor) (tag : String) (nowMs : Nat)
    (st : ActorState) (lh : Bool) (w : TESObjectWEAP)
    (hP : IsSpendTag tag = true) (hinv : NoActiveSpent st)
    (hlh : (ResolveHandForTag (some actor) tag st nowMs).isLeft = lh)
    (htu : (ResolveHandForTag (some actor) tag st nowMs).outTreatAsUnarmed = false)
    (hw : (actor.GetEquippedObject lh).bind TESForm.asWEAP = some w)
    (hm : IsMeleeWeapon (some w) = false) :
    (ProcessEvent.body host actor tag nowMs st).outcome = .skipNotMelee lh ∧
    (ProcessEvent.body host actor tag nowMs st).tasks = [] ∧
    staminaOf (some (ProcessEvent.body host actor tag nowMs st).actor)
      = staminaOf (some actor) ∧
    (ProcessEvent.body host actor tag nowMs st).st.dmgScaleApplied = false ∧
    ((ProcessEvent.body host actor tag nowMs st).st.session.get (if lh then 0 else 1)).spent
      = true ∧
    ((ProcessEvent.body host actor tag nowMs st).st.session.get (if lh then 0 else 1)).active
      = false := by
  obtain ⟨hU, hS⟩ := IsSpendTag_cases tag hP
  obtain ⟨⟨avo0, h0⟩, hsess⟩ := prelude_frame host actor tag nowMs st
  obtain ⟨f1, f2, -⟩ := prelude_resolve_flags host actor tag nowMs st (some actor)
    (some { actor with avo := avo0 }) hU
  have hst := ClearDamageScaleIfExpired_stamina (some actor)
    (NoteExplicitHandIfAny tag (LogAllPlayerTagsIfEnabled host (some actor) tag st nowMs)
      nowMs) nowMs
  rw [h0] at hst
  have hEq : ({ actor with avo := avo0 } : Actor).GetEquippedObject lh
      = actor.GetEquippedObject lh := rfl
  have hb : ProcessEvent.body host actor tag nowMs st
      = ProcessEvent.spend host { actor with avo := avo0 }
          (ResolveHandForTag (some { actor with avo := avo0 }) tag
            (ClearDamageScaleIfExpired (some actor)
              (NoteExplicitHandIfAny tag
                (LogAllPlayerTagsIfEnabled host (some actor) tag st nowMs) nowMs) nowMs).2
            nowMs).st nowMs lh false (if lh then 0 else 1) none := by
    unfold ProcessEvent.body
    simp only [hU, hS, hP, h0, Option.getD_some, Bool.false_eq_true, if_false, Bool.not_false,
      Bool.not_true, Bool.and_false, f1, f2, hlh, htu, hEq, hw, Option.isSome_some, hm,
      Bool.and_self, if_true, MapHandToSessionIndex, Option.isSome_none, Bool.false_and]
  have hgate := gate_of_NoActiveSpent _ (if lh then 0 else 1)
    (show NoActiveSpent (ResolveHandForTag (some { actor with avo := avo0 }) tag
        (ClearDamageScaleIfExpired (some actor)
          (NoteExplicitHandIfAny tag
            (LogAllPlayerTagsIfEnabled host (some actor) tag st nowMs) nowMs) nowMs).2
        nowMs).st from by
      intro i
      rw [(ResolveHandForTag_frame _ _ _ _).1, hsess]
      exact hinv i)
  rw [hb, spend_not_melee host _ _ nowMs lh _ none w hgate (by rw [hEq]; exact hw) hm]
  refine ⟨rfl, rfl, ?_, ?_, (MarkSessionSpent_get _ _).2, (MarkSessionSpent_get _ _).1⟩
  · have h1 := ClearDamageScale_stamina (some { actor with avo := avo0 })
      (CanSpendInSession (ResolveHandForTag (some { actor with avo := avo0 }) tag
        (ClearDamageScaleIfExpired (some actor)
          (NoteExplicitHandIfAny tag
            (LogAllPlayerTagsIfEnabled host (some actor) tag st nowMs) nowMs) nowMs).2
        nowMs).st (if lh then 0 else 1) nowMs (GetStamina (some { actor with avo := avo0 }))
        none).2
    obtain ⟨avo1, h2⟩ := ClearDamageScale_actor { actor with avo := avo0 }
      (CanSpendInSession (ResolveHandForTag (some { actor with avo := avo0 }) tag
        (ClearDamageScaleIfExpired (some actor)
          (NoteExplicitHandIfAny tag
            (LogAllPlayerTagsIfEnabled host (some actor) tag st nowMs) nowMs) nowMs).2
        nowMs).st (if lh then 0 else 1) nowMs (GetStamina (some { actor with avo := avo0 }))
        none).2
    rw [h2] at h1 ⊢
    simp only [Option.getD_some]
    rw [h1, hst]
  · exact ClearDamageScale_inactive _ _

theorem IsSpendTag_nonempty (tag : String) (h : IsSpendTag tag = true) :
    tag.isEmpty = false := by
  simp only [IsSpendTag, IsWeaponHandSwingTag, IsWeaponSwingAmbiguous, Bool.or_eq_true,
    beq_iff_eq] at h
  rcases h with ((((rfl | rfl) | rfl) | rfl) | (rfl | rfl)) <;> decide

/-- C33 (non-melee implements are never charged): for a swing tag whose resolved hand holds
a weapon that is not a melee type and that is not resolved as unarmed, on a state in which
no session is both active and spent (every state the session manager can reach), the
event takes the not-melee exit: the stamina of the actor is what it was, no task is
scheduled, no penalty is recorded afterwards, and the session of the resolved hand is left
with `spent = true` and `active = false`. -/
theorem ProcessEvent_nonmelee_swing_not_charged (host : Host) (state : StateMap)
    (actor : Actor) (tag : String) (clockMs : Nat) (lh : Bool) (w : TESObjectWEAP)
    (hP : IsSpendTag tag = true) (hinv : NoActiveSpent (state.lookup actor.formID))
    (hlh : (ResolveHandForTag (some actor) tag (state.lookup actor.formID)
      (NowMs clockMs)).isLeft = lh)
    (htu : (ResolveHandForTag (some actor) tag (state.lookup actor.formID)
      (NowMs clockMs)).outTreatAsUnarmed = false)
    (hw : (actor.GetEquippedObject lh).bind TESForm.asWEAP = some w)
    (hm : IsMeleeWeapon (some w) = false) :
    (ProcessEvent host state (some { tag := tag, holder := some (.actor actor) })
      clockMs).outcome = .skipNotMelee lh ∧
    (ProcessEvent host state (some { tag := tag, holder := some (.actor actor) })
      clockMs).tasks = [] ∧
    staminaOf (ProcessEvent host state (some { tag := tag, holder := some (.actor actor) })
      clockMs).actor = staminaOf (some actor) ∧
    GetStamina (ProcessEvent host state (some { tag := tag, holder := some (.actor actor) })
      clockMs).actor = GetStamina (some actor) ∧
    ((ProcessEvent host state (some { tag := tag, holder := some (.actor actor) })
      clockMs).state.lookup actor.formID).dmgScaleApplied = false ∧
    (((ProcessEvent host state (some { tag := tag, holder := some (.actor actor) })
      clockMs).state.lookup actor.formID).session.get (if lh then 0 else 1)).spent = true ∧
    (((ProcessEvent host state (some { tag := tag, holder := some (.actor actor) })
      clockMs).state.lookup actor.formID).session.get (if lh then 0 else 1)).active
      = false := by
  obtain ⟨b1, b2, b3, b4, b5, b6⟩ := body_nonmelee_swing host actor tag (NowMs clockMs)
    (state.lookup actor.formID) lh w hP hinv hlh htu hw hm
  rw [ProcessEvent_actor_event host state actor tag clockMs (IsSpendTag_nonempty tag hP)]
  simp only [StateMap.lookup_insert]
  refine ⟨b1, b2, b3, ?_, b4, b5, b6⟩
  rw [GetStamina_eq_staminaOf, GetStamina_eq_staminaOf, b3]

/-- Witness of C33: `weaponRightSwing` on an archer whose right hand holds a bow. -/
theorem ProcessEvent_nonmelee_swing_not_charged_witness :
    IsMeleeWeapon (some bow) = false ∧
    (ProcessEvent plainHost emptyStateMap
      (some { tag := "weaponRightSwing", holder := some (.actor (archer 100)) })
      1000).outcome = .skipNotMelee false ∧
    GetStamina (ProcessEvent plainHost emptyStateMap
      (some { tag := "weaponRightSwing", holder := some (.actor (archer 100)) })
      1000).actor = GetStamina (some (archer 100)) :=
  ⟨by decide,
    (ProcessEvent_nonmelee_swing_not_charged plainHost emptyStateMap (archer 100)
      "weaponRightSwing" 1000 false bow (by decide) NoActiveSpent_fresh (by decide)
      (by decide) rfl (by decide)).1,
    (ProcessEvent_nonmelee_swing_not_charged plainHost emptyStateMap (archer 100)
      "weaponRightSwing" 1000 false bow (by decide) NoActiveSpent_fresh (by decide)
      (by decide) rfl (by decide)).2.2.2.1⟩

/-! ## Generic start and generic swing -/

theorem ResolveHandForTag_attackStart (a : Option Actor) (s : ActorState) (n : Nat) :
    ResolveHandForTag a "attackStart" s n = ⟨false, true, false, s⟩ := by
  have h1 : TagHasLeft "attackStart" = false := by decide
  have h2 : TagHasRight "attackStart" = false := by decide
  have h3 : IsUnarmedSwingSoundTag "attackStart" = false := by decide
  have h4 : IsWeaponSwingAmbiguous "attackStart" = false := by decide
  have e1 : ("attackStart" == "weaponLeftSwing" || "attackStart" == "WeaponLeftSwing")
      = false := by decide
  have e2 : ("attackStart" == "weaponRightSwing" || "attackStart" == "WeaponRightSwing")
      = false := by decide
  unfold ResolveHandForTag
  simp only [h1, h2, e1, e2, h3, h4, Bool.false_eq_true, if_false]

theorem curWeap_not_twoHanded (actor : Actor) (lh tu : Bool)
    (h2 : ¬ HoldsTwoHanded actor lh) :
    IsTwoHanded
      (if ((if tu = true then none
            else (actor.GetEquippedObject lh).bind TESForm.asWEAP).isSome &&
          !IsMeleeWeapon (if tu = true then none
            else (actor.GetEquippedObject lh).bind TESForm.asWEAP)) = true
        then none
        else (if tu = true then none else (actor.GetEquippedObject lh).bind TESForm.asWEAP))
      = false := by
  cases tu
  · cases hw : (actor.GetEquippedObject lh).bind TESForm.asWEAP with
    | none => simp [IsTwoHanded]
    | some w =>
      have hn : IsTwoHanded (some w) = false := by
        rw [← Bool.not_eq_true]
        exact fun c => h2 ⟨w, hw, c⟩
      simp only [Bool.false_eq_true, if_false]
      split_ifs
      · rfl
      · exact hn
  · simp [IsTwoHanded]

theorem spend_log_startStam (host : Host) (actor : Actor) (st : ActorState) (nowMs : Nat)
    (leftHand treatAsUnarmed : Bool) (idx : Fin 2) (curWeap : Option TESObjectWEAP)
    (log : SpendLog)
    (h : (ProcessEvent.spend host actor st nowMs leftHand treatAsUnarmed idx curWeap).outcome
      = .spend log) :
    log.startStam = GetSessionStartStamina
      (CanSpendInSession st idx nowMs (GetStamina (some actor)) curWeap).2 idx := by
  unfold ProcessEvent.spend at h
  simp only [] at h
  split_ifs at h
  all_goals
    simp only [ProcessEvent.reconcile, Outcome.spend.injEq] at h
    subst h
    simp only [GetSessionStartStamina, ClearDamageScale_session]

theorem CanSpendInSession_keeps (st : ActorState) (i : Fin 2) (nowMs : Nat) (cur : ℚ)
    (w : Option TESObjectWEAP) (ha : (st.session.get i).active = true)
    (hf : sub32 nowMs (st.session.get i).startMs ≤ 800) :
    (CanSpendInSession st i nowMs cur w).2 = st := by
  unfold CanSpendInSession
  simp only [ha, Bool.not_true, Bool.false_eq_true, if_false, kHandSessionTimeoutMs,
    not_lt.mpr hf, gt_iff_lt]

theorem CanSpendInSession_rearms (st : ActorState) (i : Fin 2) (nowMs : Nat) (cur : ℚ)
    (w : Option TESObjectWEAP)
    (h : (st.session.get i).active = false ∨ sub32 nowMs (st.session.get i).startMs > 800) :
    GetSessionStartStamina (CanSpendInSession st i nowMs cur w).2 i = max 0 cur := by
  unfold CanSpendInSession GetSessionStartStamina
  simp only [kHandSessionTimeoutMs]
  rcases h with h | h
  · simp [h, Array2.get_set_same]
  · by_cases ha : (st.session.get i).active = true
    · simp [ha, h, Array2.get_set_same]
    · simp [ha, Array2.get_set_same]

theorem BeginOrRefreshSession_kept (st : ActorState) (i : Fin 2) (nowMs : Nat) (v : ℚ)
    (w : Option TESObjectWEAP)
    (h : (st.session.get i).active = true ∧ (st.session.get i).spent = false ∧
      sub32 nowMs (st.session.get i).startMs ≤ 800) :
    BeginOrRefreshSession st i nowMs v w = st := by
  unfold BeginOrRefreshSession
  simp [h.1, h.2.1, h.2.2, kHandSessionTimeoutMs]

theorem BeginOrRefreshSession_fresh (st : ActorState) (i : Fin 2) (nowMs : Nat) (v : ℚ)
    (w : Option TESObjectWEAP)
    (h : ¬ ((st.session.get i).active = true ∧ (st.session.get i).spent = false ∧
      sub32 nowMs (st.session.get i).startMs ≤ 800)) :
    ((BeginOrRefreshSession st i nowMs v w).session.get i).active = true ∧
    ((BeginOrRefreshSession st i nowMs v w).session.get i).spent = false ∧
    ((BeginOrRefreshSession st i nowMs v w).session.get i).startMs = nowMs ∧
    ((BeginOrRefreshSession st i nowMs v w).session.get i).startStamina = max 0 v := by
  unfold BeginOrRefreshSession
  simp only [kHandSessionTimeoutMs]
  rw [if_neg]
  · simp [Array2.get_set_same]
  · intro c
    simp only [Bool.and_eq_true, Bool.not_eq_true', decide_eq_true_eq] at c
    exact h ⟨c.1.1, c.1.2, c.2⟩


/-- The generic start tag on any state: the branch taken and the session slots it leaves. -/
theorem body_attackStart (host : Host) (actor : Actor) (st : ActorState) (nowMs : Nat) :
    (ProcessEvent.body host actor "attackStart" nowMs st).outcome
      = .start false 1 (GetStamina (some actor)) ∧
    (ProcessEvent.body host actor "attackStart" nowMs st).st.session.get 0
      = st.session.get 0 ∧
    ((ProcessEvent.body host actor "attackStart" nowMs st).st.session.get 1).active = true ∧
    ((ProcessEvent.body host actor "attackStart" nowMs st).st.session.get 1).spent = false ∧
    (((st.session.get 1).active = true ∧ (st.session.get 1).spent = false ∧
        sub32 nowMs (st.session.get 1).startMs ≤ 800) →
      (ProcessEvent.body host actor "attackStart" nowMs st).st.session.get 1
        = st.session.get 1) ∧
    (¬ ((st.session.get 1).active = true ∧ (st.session.get 1).spent = false ∧
        sub32 nowMs (st.session.get 1).startMs ≤ 800) →
      ((ProcessEvent.body host actor "attackStart" nowMs st).st.session.get 1).startMs
        = nowMs ∧
      ((ProcessEvent.body host actor "attackStart" nowMs st).st.session.get 1).startStamina
        = GetStamina (some actor)) := by
  obtain ⟨⟨avo0, h0⟩, hsess⟩ := prelude_frame host actor "attackStart" nowMs st
  have hU : IsUnarmedSwingSoundTag "attackStart" = false := by decide
  have hS : IsAttackStartTag "attackStart" = true := by decide
  have hst := ClearDamageScaleIfExpired_stamina (some actor)
    (NoteExplicitHandIfAny "attackStart"
      (LogAllPlayerTagsIfEnabled host (some actor) "attackStart" st nowMs) nowMs) nowMs
  rw [h0] at hst
  have hG : GetStamina (some { actor with avo := avo0 }) = GetStamina (some actor) := by
    rw [GetStamina_eq_staminaOf, GetStamina_eq_staminaOf, hst]
  have hG0 : max 0 (GetStamina (some actor)) = GetStamina (some actor) := by
    rw [GetStamina_eq_staminaOf]
    cases staminaOf (some actor) <;> simp
  unfold ProcessEvent.body
  simp only [hU, hS, h0, Option.getD_some, Bool.false_eq_true, if_false, Bool.not_true,
    Bool.false_and, if_true, ResolveHandForTag_attackStart, MapHandToSessionIndex_right, hG]
  refine ⟨trivial, ?_, (BeginOrRefreshSession_armed _ _ _ _ _).1,
    (BeginOrRefreshSession_armed _ _ _ _ _).2, ?_, ?_⟩
  · rw [BeginOrRefreshSession_other _ _ _ _ _ _ (by decide), hsess]
  · intro h
    rw [BeginOrRefreshSession_kept _ _ _ _ _ (by rw [hsess]; exact h), hsess]
  · intro h
    obtain ⟨-, -, b3, b4⟩ := BeginOrRefreshSession_fresh _ 1 nowMs (GetStamina (some actor))
      _ (by rw [hsess]; exact h)
    exact ⟨b3, by rw [b4, hG0]⟩

/-- The generic swing tag on any state, for an actor without a two-handed weapon: the event
is the spend branch on the slot of the resolved hand. -/
theorem body_weaponSwing (host : Host) (actor : Actor) (st : ActorState) (nowMs : Nat)
    (h2 : ∀ lh, ¬ HoldsTwoHanded actor lh) :
    ∃ (a1 : Actor) (s1 : ActorState) (tu : Bool) (cw : Option TESObjectWEAP),
      ProcessEvent.body host actor "weaponSwing" nowMs st
        = ProcessEvent.spend host a1 s1 nowMs
            (ResolveHandForTag (some actor) "weaponSwing" st nowMs).isLeft tu
            (if (ResolveHandForTag (some actor) "weaponSwing" st nowMs).isLeft = true
              then 0 else 1) cw ∧
      s1.session = st.session ∧ GetStamina (some a1) = GetStamina (some actor) := by
  obtain ⟨⟨avo0, h0⟩, hsess⟩ := prelude_frame host actor "weaponSwing" nowMs st
  have hU : IsUnarmedSwingSoundTag "weaponSwing" = false := by decide
  have hS : IsAttackStartTag "weaponSwing" = false := by decide
  have hP : IsSpendTag "weaponSwing" = true := by decide
  obtain ⟨f1, f2, -⟩ := prelude_resolve_flags host actor "weaponSwing" nowMs st (some actor)
    (some { actor with avo := avo0 }) hU
  have hst := ClearDamageScaleIfExpired_stamina (some actor)
    (NoteExplicitHandIfAny "weaponSwing"
      (LogAllPlayerTagsIfEnabled host (some actor) "weaponSwing" st nowMs) nowMs) nowMs
  rw [h0] at hst
  have hG : GetStamina (some { actor with avo := avo0 }) = GetStamina (some actor) := by
    rw [GetStamina_eq_staminaOf, GetStamina_eq_staminaOf, hst]
  generalize hlh : (ResolveHandForTag (some actor) "weaponSwing" st nowMs).isLeft = lh at f1 ⊢
  generalize (ResolveHandForTag (some actor) "weaponSwing" st nowMs).outTreatAsUnarmed = tu
    at f2
  have hEq : ({ actor with avo := avo0 } : Actor).GetEquippedObject lh
      = actor.GetEquippedObject lh := rfl
  have hidx := MapHandToSessionIndex_of_not_twoHanded _ (if lh = true then (0 : Fin 2) else 1)
    (curWeap_not_twoHanded actor lh tu (h2 lh))
  refine ⟨{ actor with avo := avo0 },
    (ResolveHandForTag (some { actor with avo := avo0 }) "weaponSwing"
      (ClearDamageScaleIfExpired (some actor)
        (NoteExplicitHandIfAny "weaponSwing"
          (LogAllPlayerTagsIfEnabled host (some actor) "weaponSwing" st nowMs) nowMs)
        nowMs).2 nowMs).st, tu,
    (if ((if tu = true then none
          else (actor.GetEquippedObject lh).bind TESForm.asWEAP).isSome &&
        !IsMeleeWeapon (if tu = true then none
          else (actor.GetEquippedObject lh).bind TESForm.asWEAP)) = true
      then none
      else (if tu = true then none else (actor.GetEquippedObject lh).bind TESForm.asWEAP)),
    ?_, ?_, hG⟩
  · unfold ProcessEvent.body
    simp only [hU, hS, hP, h0, Option.getD_some, Bool.false_eq_true, if_false, Bool.not_false,
      Bool.not_true, Bool.and_false, f1, f2, hEq, hidx]
  · rw [(ResolveHandForTag_frame _ _ _ _).1, hsess]

/-- C31 as amended (generic start and generic swing), for an actor without a two-handed
weapon in either hand.  `attackStart` always resolves right and works on slot 1, leaving
slot 0 as it was: it leaves slot 1 active and unspent, keeping the session it found when
that was active, unspent and at most 800 ms old, and otherwise storing the event time and
the current stamina as the snapshot.  `weaponSwing` works on the slot of the hand it
resolves to, 0 for left and 1 for right, and leaves the other slot as it was.  A
`weaponSwing` that charges logs that slot; resolved right, it reads the snapshot slot 1
holds when slot 1 is active and at most 800 ms old, and the current stamina when slot 1 is
inactive or older than 800 ms; resolved left, it works on slot 0 and leaves slot 1 as it
was. -/
theorem generic_start_and_swing_slots (host : Host) (actor : Actor) (st : ActorState)
    (nowMs : Nat) (h2 : ∀ lh, ¬ HoldsTwoHanded actor lh) :
    ((ProcessEvent.body host actor "attackStart" nowMs st).outcome
        = .start false 1 (GetStamina (some actor)) ∧
      (ProcessEvent.body host actor "attackStart" nowMs st).st.session.get 0
        = st.session.get 0 ∧
      ((ProcessEvent.body host actor "attackStart" nowMs st).st.session.get 1).active
        = true ∧
      ((ProcessEvent.body host actor "attackStart" nowMs st).st.session.get 1).spent
        = false ∧
      (((st.session.get 1).active = true ∧ (st.session.get 1).spent = false ∧
          sub32 nowMs (st.session.get 1).startMs ≤ 800) →
        (ProcessEvent.body host actor "attackStart" nowMs st).st.session.get 1
          = st.session.get 1) ∧
      (¬ ((st.session.get 1).active = true ∧ (st.session.get 1).spent = false ∧
          sub32 nowMs (st.session.get 1).startMs ≤ 800) →
        ((ProcessEvent.body host actor "attackStart" nowMs st).st.session.get 1).startMs
          = nowMs ∧
        ((ProcessEvent.body host actor "attackStart" nowMs st).st.session.get 1).startStamina
          = GetStamina (some actor))) ∧
    (∀ j, j ≠ (if (ResolveHandForTag (some actor) "weaponSwing" st nowMs).isLeft = true
        then 0 else 1) →
      (ProcessEvent.body host actor "weaponSwing" nowMs st).st.session.get j
        = st.session.get j) ∧
    (∀ l i, (ProcessEvent.body host actor "weaponSwing" nowMs st).outcome
        = .skipDuplicate l i →
      i = (if (ResolveHandForTag (some actor) "weaponSwing" st nowMs).isLeft = true
        then 0 else 1)) ∧
    (∀ log, (ProcessEvent.body host actor "weaponSwing" nowMs st).outcome = .spend log →
      log.sessionIdx = (if (ResolveHandForTag (some actor) "weaponSwing" st nowMs).isLeft
        = true then 0 else 1) ∧
      ((ResolveHandForTag (some actor) "weaponSwing" st nowMs).isLeft = false →
        (st.session.get 1).active = true →
        sub32 nowMs (st.session.get 1).startMs ≤ 800 →
        log.startStam = GetSessionStartStamina st 1) ∧
      ((ResolveHandForTag (some actor) "weaponSwing" st nowMs).isLeft = false →
        ((st.session.get 1).active = false ∨
          sub32 nowMs (st.session.get 1).startMs > 800) →
        log.startStam = GetStamina (some actor)) ∧
      ((ResolveHandForTag (some actor) "weaponSwing" st nowMs).isLeft = true →
        log.sessionIdx = 0 ∧
        (ProcessEvent.body host actor "weaponSwing" nowMs st).st.session.get 1
          = st.session.get 1)) := by
  refine ⟨body_attackStart host actor st nowMs, ?_⟩
  obtain ⟨a1, s1, tu, cw, hb, hsess, hG⟩ := body_weaponSwing host actor st nowMs h2
  have hG0 : max 0 (GetStamina (some actor)) = GetStamina (some actor) := by
    rw [GetStamina_eq_staminaOf]
    cases staminaOf (some actor) <;> simp
  rw [hb]
  generalize (ResolveHandForTag (some actor) "weaponSwing" st nowMs).isLeft = lh
  have hother : ∀ j, j ≠ (if lh = true then (0 : Fin 2) else 1) →
      (ProcessEvent.spend host a1 s1 nowMs lh tu (if lh = true then 0 else 1) cw).st.session.get
        j = st.session.get j := by
    intro j hj
    rw [spend_session_other _ _ _ _ _ _ _ _ _ hj, hsess]
  refine ⟨hother, ?_, ?_⟩
  · intro l i h
    exact ((spend_outcome_idx _ _ _ _ _ _ _ _).2 l i h).1
  · intro log h
    have hidx := ((spend_outcome_idx _ _ _ _ _ _ _ _).1 log h).1
    have hss := spend_log_startStam _ _ _ _ _ _ _ _ log h
    refine ⟨hidx, ?_, ?_, ?_⟩
    · intro hl ha hf
      subst hl
      simp only [Bool.false_eq_true, if_false] at hss
      rw [hss, CanSpendInSession_keeps _ _ _ _ _ (by rw [hsess]; exact ha)
        (by rw [hsess]; exact hf)]
      simp only [GetSessionStartStamina, hsess]
    · intro hl hr
      subst hl
      simp only [Bool.false_eq_true, if_false] at hss
      rw [hss, CanSpendInSession_rearms _ _ _ _ _ (by rw [hsess]; exact hr), hG, hG0]
    · intro hl
      subst hl
      simp only [if_true] at hidx
      exact ⟨hidx, hother 1 (by decide)⟩

/-- Counterexample to C31 as stated: an empty-handed actor with stamina 100, on a state that
saw the tag `FootLeft` at 1000, receives `attackStart` at 1100: the start is booked on slot 1
with the snapshot 100.  Drained to 40 by the host, it then receives `weaponSwing` at 1200:
the recency of the left marker resolves the swing to the left hand, the spend runs on slot
0, which it arms itself with the snapshot 40, and the stamina ends at 34, not at 94.  At
1400, when the marker is older than 250 ms, the same swing runs on slot 1, reads the
snapshot 100 and ends at 94.  At 2000, more than 800 ms after the start, the swing runs on
slot 1 again but the session is re-armed with the snapshot 40, and the stamina ends at
34. -/
theorem generic_swing_misses_start_slot :
    (ProcessEvent.body plainHost (brawler 100) "FootLeft" 1000 {}).st.lastExplicitHandMs
      = ⟨1000, 0⟩ ∧
    (ProcessEvent.body plainHost (brawler 100) "attackStart" 1100
      (ProcessEvent.body plainHost (brawler 100) "FootLeft" 1000 {}).st).outcome
      = .start false 1 100 ∧
    (∃ log, (ProcessEvent.body plainHost (brawler 40) "weaponSwing" 1200
        (ProcessEvent.body plainHost (brawler 100) "attackStart" 1100
          (ProcessEvent.body plainHost (brawler 100) "FootLeft" 1000 {}).st).st).outcome
        = .spend log ∧
      log.sessionIdx = 0 ∧ log.startStam = 40 ∧ log.staminaAfter = 34) ∧
    (∃ log, (ProcessEvent.body plainHost (brawler 40) "weaponSwing" 1400
        (ProcessEvent.body plainHost (brawler 100) "attackStart" 1100
          (ProcessEvent.body plainHost (brawler 100) "FootLeft" 1000 {}).st).st).outcome
        = .spend log ∧
      log.sessionIdx = 1 ∧ log.startStam = 100 ∧ log.staminaAfter = 94) ∧
    (∃ log, (ProcessEvent.body plainHost (brawler 40) "weaponSwing" 2000
        (ProcessEvent.body plainHost (brawler 100) "attackStart" 1100
          (ProcessEvent.body plainHost (brawler 100) "FootLeft" 1000 {}).st).st).outcome
        = .spend log ∧
      log.sessionIdx = 1 ∧ log.startStam = 40 ∧ log.staminaAfter = 34) := by
  refine ⟨by decide!, by decide!,
    ⟨SpendLog.mk false true 0 6 (.val 1) 6 40 40 34 6 1 false 34, by decide!, rfl, rfl, rfl⟩,
    ⟨SpendLog.mk false false 1 6 (.val 1) 6 100 40 94 6 1 false 94, by decide!, rfl, rfl,
      rfl⟩,
    ⟨SpendLog.mk false false 1 6 (.val 1) 6 40 40 34 6 1 false 34, by decide!, rfl, rfl,
      rfl⟩⟩

/-- Witness of C31 as amended: an empty-handed actor on a state whose hints point right. -/
theorem generic_start_and_swing_slots_witness :
    (∀ lh, ¬ HoldsTwoHanded (brawler 100) lh) ∧
    (ProcessEvent.body plainHost (brawler 100) "attackStart" 1100 rightHinted).outcome
      = .start false 1 (GetStamina (some (brawler 100))) ∧
    (ProcessEvent.body plainHost (brawler 100) "attackStart" 1100 rightHinted).st.session.get 0
      = rightHinted.session.get 0 ∧
    (ProcessEvent.body plainHost (brawler 100) "weaponSwing" 5300 rightHinted).st.session.get 0
      = rightHinted.session.get 0 :=
  ⟨fun lh h => by
      obtain ⟨w, hw, -⟩ := h
      cases lh <;> simp [brawler, Actor.GetEquippedObject] at hw,
    (generic_start_and_swing_slots plainHost (brawler 100) rightHinted 1100
      (fun lh h => by
        obtain ⟨w, hw, -⟩ := h
        cases lh <;> simp [brawler, Actor.GetEquippedObject] at hw)).1.1,
    (generic_start_and_swing_slots plainHost (brawler 100) rightHinted 1100
      (fun lh h => by
        obtain ⟨w, hw, -⟩ := h
        cases lh <;> simp [brawler, Actor.GetEquippedObject] at hw)).1.2.1,
    (generic_start_and_swing_slots plainHost (brawler 100) rightHinted 5300
      (fun lh h => by
        obtain ⟨w, hw, -⟩ := h
        cases lh <;> simp [brawler, Actor.GetEquippedObject] at hw)).2.1 0 (by decide)⟩

/-! ## Penalty window at the wrap of the 32-bit clock -/

/-- C34 (penalty window under 32-bit timestamps), evaluated on the code: a fencer with
stamina 10 swings a sword that costs 30 at the timestamp `2^32 - 100`.  The penalty is
installed (multiplier 1/3) with the expiry `(2^32 - 100 + 200) mod 2^32 = 100`.  The next
event, 50 ms later at `2^32 - 50`, finds `nowMs > dmgScaleUntilMs` and clears the penalty:
the multiplier is back at 1 after 50 ms, not 200.  The same comparison clears a penalty
with that expiry at the very timestamp of the spend. -/
theorem penalty_cleared_early_at_clock_wrap :
    ((runEvents plainHost emptyStateMap (fencer 10)
      [("weaponRightSwing", 4294967196)]).1.lookup 22).dmgScaleApplied = true ∧
    ((runEvents plainHost emptyStateMap (fencer 10)
      [("weaponRightSwing", 4294967196)]).1.lookup 22).dmgScaleUntilMs = 100 ∧
    add32 4294967196 kDamagePenaltyWindowMs = 100 ∧
    damageMultOf (some (runEvents plainHost emptyStateMap (fencer 10)
      [("weaponRightSwing", 4294967196)]).2.1) = some (1 / 3) ∧
    sub32 4294967246 4294967196 = 50 ∧
    ((runEvents plainHost emptyStateMap (fencer 10)
      [("weaponRightSwing", 4294967196), ("FootRight", 4294967246)]).1.lookup
        22).dmgScaleApplied = false ∧
    damageMultOf (some (runEvents plainHost emptyStateMap (fencer 10)
      [("weaponRightSwing", 4294967196), ("FootRight", 4294967246)]).2.1) = some 1 ∧
    (ClearDamageScaleIfExpired (some (scaledBrawler 50 (1 / 4)))
      { dmgScaleApplied := true, dmgScaleUntilMs := add32 4294967196 200,
        dmgScaleDelta := -3 / 4 } 4294967196).2.dmgScaleApplied = false := by
  decide!

end SF.Combat
